import Mathlib

/-! Portal maintenance of the hardware renderer (`hwrenderer/scene/hw_portal.cpp`).

A shallow embedding of the API independent portal code: the frame driver
(`StartFrame`, `EndFrame`, `RenderFirstSkyPortal`), the common clipper set-up and the
`Setup`/`Shutdown` pairs of the five scene portals.

Conventions of the embedding.

* A C `int` is an `Int` kept in the 32 bit range by `wrapInt32`; `unsigned` values are `Nat`
  reduced modulo `2^32` where the source computes with them.
* A `double` or `float` is a rational number (exact arithmetic); the functions that leave the
  rationals (square roots, `atan2`, conversion to binary angles) are fields of `MapQueries`.
  Where a property depends on rounding, `roundToDouble` gives the arithmetic of doubles.
* A `TArray<T>` is a `List T`, index 0 first; `Push` appends, `Pop` takes the last element.
* A pointer that may be null is an `Option`; dereferencing a null pointer makes the model
  return `none`.
* Objects behind a pointer are kept by value inside the record that points to them.
* Calls into code that lives in other files and only has an effect there (view set-up, the
  angular clipper) are recorded, with their arguments, in call logs.
* The `gl_portalinfo` diagnostics (`Printf`, `indent`) are left out; they read the state only.
-/

namespace HWPortal

/-! ## Machine integers -/

/-- The value of a C `int` after an arithmetic result `x`: its representative in
`[-2^31, 2^31)`. -/
def wrapInt32 (x : Int) : Int := (x + 2147483648) % 4294967296 - 2147483648

/-- The conversion `(unsigned)x` of a C `int`. -/
def toUnsigned (x : Int) : Nat := (x % 4294967296).toNat

/-- The values a C `int` can hold. -/
def IsInt32 (x : Int) : Prop := -2147483648 ≤ x ∧ x < 2147483648

instance (x : Int) : Decidable (IsInt32 x) := by
  unfold IsInt32; infer_instance

/-! ## Map data -/

/-- The type `DVector2`. -/
structure DVector2 where
  X : ℚ
  Y : ℚ
  deriving DecidableEq

/-- The type `DVector3`. -/
structure DVector3 where
  X : ℚ
  Y : ℚ
  Z : ℚ
  deriving DecidableEq

/-- The method `DVector3::XY()`. -/
def DVector3.XY (v : DVector3) : DVector2 := ⟨v.X, v.Y⟩

/-- The operator `DVector3 + DVector3`. -/
def DVector3.add (a b : DVector3) : DVector3 := ⟨a.X + b.X, a.Y + b.Y, a.Z + b.Z⟩

/-- The operator `DVector3 - DVector3`. -/
def DVector3.sub (a b : DVector3) : DVector3 := ⟨a.X - b.X, a.Y - b.Y, a.Z - b.Z⟩

/-- The operator `DVector2 - DVector2`. -/
def DVector2.sub (a b : DVector2) : DVector2 := ⟨a.X - b.X, a.Y - b.Y⟩

/-- A map vertex: `fX()`, `fY()` and the fixed point coordinates `fixX()`, `fixY()`. -/
structure vertex_t where
  fX : ℚ
  fY : ℚ
  fixX : Int
  fixY : Int
  deriving DecidableEq

/-- The method `vertex_t::fPos()`. -/
def vertex_t.fPos (v : vertex_t) : DVector2 := ⟨v.fX, v.fY⟩

/-- A linedef, with what the portal code reads of it: the two vertices, the stored `Delta()`,
`sidedef[0]->Flags` and `frontsector->subsectors[0]->mapsection`. -/
structure line_t where
  v1 : vertex_t
  v2 : vertex_t
  Delta : DVector2
  sidedef0Flags : Nat
  frontsectorSubsector0Mapsection : Nat
  deriving DecidableEq

/-- A plane `secplane_t`: its normal and distance. -/
structure secplane_t where
  fA : ℚ
  fB : ℚ
  fC : ℚ
  fD : ℚ
  deriving DecidableEq

/-- The segment coordinates `GLSeg` of a wall. -/
structure GLSeg where
  x1 : ℚ
  y1 : ℚ
  x2 : ℚ
  y2 : ℚ
  deriving DecidableEq

/-- A boundary segment `GLWall` of a portal: `glseg` and the line
`seg->linedef->getPortalDestination()`. -/
structure GLWall where
  glseg : GLSeg
  portalDestination : line_t
  deriving DecidableEq

/-- An actor: `Pos()`, the two yaw angles, its `renderflags`, and the floor and ceiling planes
of its `Sector`. -/
structure AActor where
  Pos : DVector3
  PrevAnglesYaw : ℚ
  AnglesYaw : ℚ
  renderflags : Nat
  floorplane : secplane_t
  ceilingplane : secplane_t
  deriving DecidableEq

/-- The BSP tree behind `level.HeadNode()`: a tagged pointer is either a `node_t` (with its
`Index()` and two children) or a subsector (with its `Index()`). -/
inductive BSPNode where
  | subsector (index : Nat)
  | node (index : Nat) (child0 child1 : BSPNode)
  deriving DecidableEq

/-- The level data read by the sector stack portal: `level.nodes.Size()`, `level.HeadNode()`
and the `mapsection` of each subsector of `level.subsectors`. -/
structure FLevelLocals where
  nodesSize : Nat
  HeadNode : BSPNode
  subsectorMapsection : Nat → Nat

/-! ## Scene state -/

/-- The counters of `FPortalSceneState`. -/
structure FPortalSceneState where
  MirrorFlag : Int
  PlaneMirrorFlag : Int
  renderdepth : Int
  PlaneMirrorMode : Int
  inskybox : Bool
  skyboxrecursion : Int
  deriving DecidableEq

/-- The array `screen->instack`, indexed by `sector_t::floor` (0) and `sector_t::ceiling`
(1). -/
structure InStack where
  floor : Int
  ceiling : Int
  deriving DecidableEq

/-- The element `instack[plane]++`; `none` when `plane` is no index of the array. -/
def InStack.incr (s : InStack) (plane : Int) : Option InStack :=
  if plane = 0 then some { s with floor := wrapInt32 (s.floor + 1) }
  else if plane = 1 then some { s with ceiling := wrapInt32 (s.ceiling + 1) }
  else none

/-- The element `instack[plane]--`; `none` when `plane` is no index of the array. -/
def InStack.decr (s : InStack) (plane : Int) : Option InStack :=
  if plane = 0 then some { s with floor := wrapInt32 (s.floor - 1) }
  else if plane = 1 then some { s with ceiling := wrapInt32 (s.ceiling - 1) }
  else none

/-- The call `std::swap(instack[sector_t::floor], instack[sector_t::ceiling])`. -/
def InStack.swap (s : InStack) : InStack := { floor := s.ceiling, ceiling := s.floor }

/-- A portal of the queue (`IPortal`): the identity of the heap object, its boundary segments
and the answers of its virtual methods `IsSky()` and `NeedDepthBuffer()`. -/
structure IPortal where
  id : Nat
  lines : List GLWall
  IsSky : Bool
  NeedDepthBuffer : Bool
  deriving DecidableEq

/-- The viewpoint `FRenderViewpoint`, with the fields the portal code touches. -/
structure FRenderViewpoint where
  Pos : DVector3
  ActorPos : DVector3
  Path0 : DVector3
  Path1 : DVector3
  Yaw : ℚ
  TicFrac : ℚ
  showviewer : Bool
  extralight : Int
  camera : Option AActor
  ViewActor : Option AActor
  deriving DecidableEq

/-- The scene portal installed as `di->mClipPortal`, by kind and defining line. -/
inductive ClipPortal where
  | mirror (linedef : line_t)
  | lineToLine (destination : line_t)
  deriving DecidableEq

/-- A call into the parts of `HWDrawInfo` that live in other files. -/
inductive DrawInfoCall where
  | UpdateCurrentMapSection
  | SetClipLine (line : line_t)
  | SetupView (vx vy vz : ℚ) (mirrored planemirrored : Bool)
  | SetViewArea
  | SetClipHeight (height : ℚ) (direction : ℚ)
  | CurrentMapSectionsSet (mapsection : Nat)
  | ProcessActorsInPortal
  deriving DecidableEq

/-- A call on the angular clipper. -/
inductive ClipperCall where
  | Clear
  | SafeAddClipRange (startangle endangle : Nat)
  | SafeAddClipRangeVertices (v1 v2 : vertex_t)
  | SafeAddClipRangeRealAngles (startangle endangle : Nat)
  | SafeRemoveClipRangeRealAngles (startangle endangle : Nat)
  | SetSilhouette
  | SetBlocked (blocked : Bool)
  deriving DecidableEq

/-- The render context `HWDrawInfo`: its viewpoint, the portal queue, the installed clip
portal, the depth clamp setting, the per subsector and per node render flags, the viewpoint
of the `outer` context, and the log of the calls made on it. -/
structure HWDrawInfo where
  Viewpoint : FRenderViewpoint
  Portals : List (Option IPortal)
  mClipPortal : Option ClipPortal
  depthClamp : Bool
  ss_renderflags : Nat → Nat
  no_renderflags : Nat → Nat
  outerViewpoint : FRenderViewpoint
  calls : List DrawInfoCall

/-- Everything a portal call can reach: the scene state `mOwner->mState`, `screen->instack`,
the render context `di`, and the clipper handed to `Setup`. -/
structure Scene where
  state : FPortalSceneState
  instack : InStack
  di : HWDrawInfo
  clipper : List ClipperCall

/-- The scene with another portal queue in its render context. -/
def Scene.withPortals (s : Scene) (q : List (Option IPortal)) : Scene :=
  { s with di := { s.di with Portals := q } }

/-! ## The portal queue -/

/-- The method `TArray::Pop`: the last element and the shortened array, `none` when the array
is empty. -/
def TArray.Pop {α : Type} (a : List α) : Option (α × List α) :=
  match a.getLast? with
  | none => none
  | some x => some (x, a.dropLast)

/-- The method `TArray::Delete(index)`. -/
def TArray.Delete {α : Type} (a : List α) (index : Nat) : List α := a.eraseIdx index

/-! ## Frame driver -/

/-- The function `FPortalSceneState::StartFrame`. -/
def StartFrame (s : Scene) : Scene :=
  let s1 : Scene :=
    if s.state.renderdepth = 0 then
      { s with state := { s.state with inskybox := false },
               instack := { floor := 0, ceiling := 0 } }
    else s
  { s1 with state := { s1.state with renderdepth := wrapInt32 (s1.state.renderdepth + 1) } }

/-- What `EndFrame` and `RenderFirstSkyPortal` do with a portal: call its `RenderPortal` with
the two flags, or `delete` it. -/
inductive FrameEvent where
  | RenderPortal (p : IPortal) (usestencil doquery : Bool)
  | destroy (p : IPortal)
  deriving DecidableEq

/-- The type of `IPortal::RenderPortal(usestencil, doquery, outer_di)`, whose body is not part
of this file. -/
abbrev RenderFn := IPortal → Bool → Bool → Scene → Scene

/-- The flag `usequery` of `EndFrame`:
`di->Portals.Size() > 2 + (unsigned)renderdepth`, the right hand side computed in `unsigned`
arithmetic; `Size()` is the length of the queue. -/
def EndFrame.usequery (s : Scene) : Bool :=
  decide ((2 + toUnsigned s.state.renderdepth) % 4294967296 < s.di.Portals.length)

/-- The loop `while (di->Portals.Pop(p) && p)` of `EndFrame`, with the events it produces;
`none` when the fuel runs out. -/
def EndFrame.loop (render : RenderFn) (usequery : Bool) :
    Nat → Scene → List FrameEvent → Option (Scene × List FrameEvent)
  | 0, _, _ => none
  | fuel + 1, s, log =>
    match TArray.Pop s.di.Portals with
    | none => some (s, log)
    | some (none, rest) => some (s.withPortals rest, log)
    | some (some p, rest) =>
      if 0 < p.lines.length then
        EndFrame.loop render usequery fuel (render p true usequery (s.withPortals rest))
          (log ++ [FrameEvent.RenderPortal p true usequery, FrameEvent.destroy p])
      else
        EndFrame.loop render usequery fuel (s.withPortals rest) (log ++ [FrameEvent.destroy p])

/-- The function `FPortalSceneState::EndFrame`. -/
def EndFrame (render : RenderFn) (fuel : Nat) (s : Scene) : Option (Scene × List FrameEvent) :=
  match EndFrame.loop render (EndFrame.usequery s) fuel s [] with
  | none => none
  | some (s1, log) =>
    some ({ s1 with state := { s1.state with renderdepth := wrapInt32 (s1.state.renderdepth - 1) } },
      log)

/-- The search loop of `RenderFirstSkyPortal`, entered with `i + 1` as first argument:
`best` and `bestindex` after the iterations `i, i - 1, ..., 0`; `none` when a queue entry is a
null pointer. -/
def RenderFirstSkyPortal.scan (recursion : Int) (portals : List (Option IPortal)) :
    Nat → Option (IPortal × Nat) → Option (Option (IPortal × Nat))
  | 0, best => some best
  | i + 1, best =>
    match portals[i]? with
    | none => none
    | some none => none
    | some (some p) =>
      if 0 < p.lines.length ∧ p.IsSky = true then
        if recursion ≠ 0 ∧ p.NeedDepthBuffer = true then
          RenderFirstSkyPortal.scan recursion portals i best
        else
          match best with
          | none => RenderFirstSkyPortal.scan recursion portals i (some (p, i))
          | some (b, bi) =>
            if b.lines.length < p.lines.length then
              RenderFirstSkyPortal.scan recursion portals i (some (p, i))
            else RenderFirstSkyPortal.scan recursion portals i (some (b, bi))
      else RenderFirstSkyPortal.scan recursion portals i best

/-- The initial value of the loop counter, `int i = portals.Size() - 1`. -/
def RenderFirstSkyPortal.start (portals : List (Option IPortal)) : Int :=
  wrapInt32 ((portals.length : Int) - 1)

/-- The function `FPortalSceneState::RenderFirstSkyPortal`: the returned flag, the scene and
the events; `none` when a null entry of the queue is dereferenced. -/
def RenderFirstSkyPortal (render : RenderFn) (recursion : Int) (s : Scene) :
    Option (Bool × Scene × List FrameEvent) :=
  let i0 := RenderFirstSkyPortal.start s.di.Portals
  let found :=
    if i0 < 0 then some none
    else RenderFirstSkyPortal.scan recursion s.di.Portals (i0.toNat + 1) none
  match found with
  | none => none
  | some none => some (false, s, [])
  | some (some (best, bestindex)) =>
    some (true,
      render best false false (s.withPortals (TArray.Delete s.di.Portals bestindex)),
      [FrameEvent.RenderPortal best false false, FrameEvent.destroy best])


/-! ## Queries answered by other files -/

/-- The constants, configuration and functions of other files that the portal code uses. -/
structure MapQueries where
  r_mirror_recursions : Int
  PORTSF_INSKYBOX : Nat
  RF_MAYBEINVISIBLE : Nat
  WALLF_POLYOBJ : Nat
  SSRF_SEEN : Nat
  EQUAL_EPSILON : ℚ
  level : FLevelLocals
  Angle : DVector2 → ℚ
  Length : DVector3 → ℚ
  MakeUnit : ℚ × ℚ → ℚ × ℚ
  deltaangle : ℚ → ℚ → ℚ
  BAMs : ℚ → Nat
  FrustumAngle : HWDrawInfo → Nat
  P_PointOnLineSidePrecise : DVector2 → line_t → Int
  P_ClipLineToPortal : line_t → line_t → DVector2 → Bool
  P_TranslatePortalXY : line_t → ℚ × ℚ → ℚ × ℚ
  P_TranslatePortalAngle : line_t → ℚ → ℚ
  P_TranslatePortalZ : line_t → ℚ → ℚ
  R_PointInSubsector : DVector2 → Nat
  R_PointInSubsectorFixed : Int → Int → Nat
  ZatPoint : secplane_t → DVector2 → ℚ
  InterpolatedPosition : AActor → ℚ → DVector3

/-- Modelled from the spec: the constant `ANGLE_180`, half of the circle of `2^32` binary
angle units. -/
def ANGLE_180 : Nat := 2147483648

/-- Modelled from the spec: the constant `ANGLE_MAX`, the largest binary angle. -/
def ANGLE_MAX : Nat := 4294967295

/-- The sum of two `angle_t` values. -/
def angleAdd (a b : Nat) : Nat := (a + b) % 4294967296

/-- The difference of two `angle_t` values. -/
def angleSub (a b : Nat) : Nat := (a % 4294967296 + (4294967296 - b % 4294967296)) % 4294967296

/-- The scene with one more call recorded on its render context. -/
def Scene.call (s : Scene) (c : DrawInfoCall) : Scene :=
  { s with di := { s.di with calls := s.di.calls ++ [c] } }

/-- The scene with one more call recorded on its clipper. -/
def Scene.clip (s : Scene) (c : ClipperCall) : Scene :=
  { s with clipper := s.clipper ++ [c] }

/-- The scene with another viewpoint in its render context. -/
def Scene.withViewpoint (s : Scene) (vp : FRenderViewpoint) : Scene :=
  { s with di := { s.di with Viewpoint := vp } }

/-- The call `di->SetupView(vp.Pos.X, vp.Pos.Y, vp.Pos.Z, !!(state->MirrorFlag & 1),
!!(state->PlaneMirrorFlag & 1))` that ends every `Setup`. -/
def Scene.SetupView (s : Scene) : Scene :=
  s.call (DrawInfoCall.SetupView s.di.Viewpoint.Pos.X s.di.Viewpoint.Pos.Y s.di.Viewpoint.Pos.Z
    (decide (s.state.MirrorFlag % 2 = 1)) (decide (s.state.PlaneMirrorFlag % 2 = 1)))

/-- Modelled from the spec: the method `HWDrawInfo::SetDepthClamp`, which installs the new
setting and returns the previous one. -/
def SetDepthClamp (s : Scene) (on_ : Bool) : Bool × Scene :=
  (s.di.depthClamp, { s with di := { s.di with depthClamp := on_ } })

/-! ## Common clipper initialisation -/

/-- The body of the loop over `lines` in `ClearClipper`. -/
def ClearClipper.line (q : MapQueries) (outerPos : DVector3) (angleOffset : ℚ)
    (clipper : List ClipperCall) (l : GLWall) : List ClipperCall :=
  let startAngle := q.Angle ⟨l.glseg.x2 - outerPos.X, l.glseg.y2 - outerPos.Y⟩ + angleOffset
  let endAngle := q.Angle ⟨l.glseg.x1 - outerPos.X, l.glseg.y1 - outerPos.Y⟩ + angleOffset
  if q.deltaangle endAngle startAngle < 0 then
    clipper ++ [ClipperCall.SafeRemoveClipRangeRealAngles (q.BAMs startAngle) (q.BAMs endAngle)]
  else clipper

/-- The function `HWScenePortalBase::ClearClipper`, for a scene portal owned by `mOwner`. -/
def ClearClipper (q : MapQueries) (mOwner : IPortal) (s : Scene) : Scene :=
  let angleOffset := q.deltaangle s.di.outerViewpoint.Yaw s.di.Viewpoint.Yaw
  let c1 := s.clipper ++ [ClipperCall.Clear, ClipperCall.SafeAddClipRange 0 4294967295]
  let c2 := mOwner.lines.foldl (ClearClipper.line q s.di.outerViewpoint.Pos angleOffset) c1
  let a1 := q.FrustumAngle s.di
  let c3 :=
    if a1 < ANGLE_180 then
      c2 ++ [ClipperCall.SafeAddClipRangeRealAngles (angleAdd (q.BAMs s.di.Viewpoint.Yaw) a1)
        (angleSub (q.BAMs s.di.Viewpoint.Yaw) a1)]
    else c2
  { s with clipper := c3 ++ [ClipperCall.SetSilhouette] }

/-! ## Line portals: clipping -/

/-- The results of the clip tests: the enum constants `PClip_InFront` and `PClip_Inside`,
whose numbers are declared in another file. -/
inductive PClip where
  | PClip_InFront
  | PClip_Inside
  deriving DecidableEq

export PClip (PClip_InFront PClip_Inside)

/-- The function `HWLinePortal::ClipSeg`, for a seg with the optional `linedef`. -/
def HWLinePortal.ClipSeg (q : MapQueries) (line : line_t) (linedef : Option line_t)
    (viewpos : DVector3) : PClip :=
  match linedef with
  | none => PClip_Inside
  | some ld => if q.P_ClipLineToPortal ld line viewpos.XY = true then PClip_InFront else PClip_Inside

/-- The function `HWLinePortal::ClipSubsector`, for a subsector given by the start vertices
`firstline[i].v1` of its `numlines` segs. -/
def HWLinePortal.ClipSubsector (q : MapQueries) (line : line_t) : List vertex_t → PClip
  | [] => PClip_InFront
  | v :: rest =>
    if q.P_PointOnLineSidePrecise v.fPos line = 0 then PClip_Inside
    else HWLinePortal.ClipSubsector q line rest

/-- The function `HWLinePortal::ClipPoint`. -/
def HWLinePortal.ClipPoint (q : MapQueries) (line : line_t) (pos : DVector2) : PClip :=
  if q.P_PointOnLineSidePrecise pos line ≠ 0 then PClip_InFront else PClip_Inside

/-! ## Mirror portal -/

/-- The scene portal `HWMirrorPortal`. -/
structure HWMirrorPortal where
  mOwner : IPortal
  linedef : line_t

/-- The reflected viewpoint position of `HWMirrorPortal::Setup`, from the position
`StartPos` and the `renderdepth`. -/
def HWMirrorPortal.reflect (q : MapQueries) (linedef : line_t) (renderdepth : Int)
    (StartPos : DVector3) : DVector3 :=
  let v1 := linedef.v1
  let v2 := linedef.v2
  if linedef.Delta.X = 0 then
    let X := 2 * v1.fX - StartPos.X
    { StartPos with X := if StartPos.X < v1.fX then X - 1 / 10 else X + 1 / 10 }
  else if linedef.Delta.Y = 0 then
    let Y := 2 * v1.fY - StartPos.Y
    { StartPos with Y := if StartPos.Y < v1.fY then Y - 1 / 10 else Y + 1 / 10 }
  else
    let dx := v2.fX - v1.fX
    let dy := v2.fY - v1.fY
    let x1 := v1.fX
    let y1 := v1.fY
    let x := StartPos.X
    let y := StartPos.Y
    let r := ((x - x1) * dx + (y - y1) * dy) / (dx * dx + dy * dy)
    let v := q.MakeUnit (-dx, dy)
    { StartPos with
      X := (x1 + r * dx) * 2 - x + v.2 * (renderdepth : ℚ) / 2
      Y := (y1 + r * dy) * 2 - y + v.1 * (renderdepth : ℚ) / 2 }

/-- The function `HWMirrorPortal::Setup`. -/
def HWMirrorPortal.Setup (q : MapQueries) (p : HWMirrorPortal) (s : Scene) :
    Bool × HWMirrorPortal × Scene :=
  if s.state.renderdepth > q.r_mirror_recursions then (false, p, s)
  else
    let s1 := s.call DrawInfoCall.UpdateCurrentMapSection
    let s2 : Scene := { s1 with di := { s1.di with mClipPortal := some (ClipPortal.mirror p.linedef) } }
    let vp := s2.di.Viewpoint
    let StartAngle := vp.Yaw
    let StartPos := vp.Pos
    let vp1 : FRenderViewpoint :=
      { vp with
        showviewer := true
        Pos := HWMirrorPortal.reflect q p.linedef s.state.renderdepth StartPos
        Yaw := q.Angle p.linedef.Delta * 2 - StartAngle
        ViewActor := none }
    let s3 := s2.withViewpoint vp1
    let s4 : Scene := { s3 with state := { s3.state with MirrorFlag := wrapInt32 (s3.state.MirrorFlag + 1) } }
    let s5 := (s4.call (DrawInfoCall.SetClipLine p.linedef)).SetupView
    let s6 := s5.clip ClipperCall.Clear
    let af := q.FrustumAngle s6.di
    let s7 :=
      if af < ANGLE_180 then
        s6.clip (ClipperCall.SafeAddClipRangeRealAngles (angleAdd (q.BAMs vp1.Yaw) af)
          (angleSub (q.BAMs vp1.Yaw) af))
      else s6
    (true, p, s7.clip (ClipperCall.SafeAddClipRangeVertices p.linedef.v1 p.linedef.v2))

/-- The function `HWMirrorPortal::Shutdown`. -/
def HWMirrorPortal.Shutdown (_p : HWMirrorPortal) (s : Scene) : Scene :=
  { s with state := { s.state with MirrorFlag := wrapInt32 (s.state.MirrorFlag - 1) } }

/-! ## Line to line portal -/

/-- The scene portal `HWLineToLinePortal`, with the lines `glport->lines[0]->mOrigin` and
`glport->lines[0]->mDestination`. -/
structure HWLineToLinePortal where
  mOwner : IPortal
  mOrigin : line_t
  mDestination : line_t

/-- The position `v` after `P_TranslatePortalXY(origin, v.X, v.Y)`. -/
def translateXY (q : MapQueries) (origin : line_t) (v : DVector3) : DVector3 :=
  { v with X := (q.P_TranslatePortalXY origin (v.X, v.Y)).1
           Y := (q.P_TranslatePortalXY origin (v.X, v.Y)).2 }

/-- The camera of `HWLineToLinePortal::Setup` after the test for a viewer whose path crosses
the destination line. -/
def HWLineToLinePortal.flagCamera (q : MapQueries) (mDestination : line_t)
    (vp : FRenderViewpoint) : Option AActor :=
  match vp.camera with
  | none => none
  | some camera =>
    if vp.showviewer = false ∧
        q.P_PointOnLineSidePrecise vp.Path0.XY mDestination
          ≠ q.P_PointOnLineSidePrecise vp.Path1.XY mDestination then
      let distp := q.Length (vp.Path0.sub vp.Path1)
      if distp > q.EQUAL_EPSILON then
        let dist1 := q.Length (vp.Pos.sub vp.Path0)
        let dist2 := q.Length (vp.Pos.sub vp.Path1)
        if dist1 + dist2 < distp + 1 then
          some { camera with renderflags := camera.renderflags ||| q.RF_MAYBEINVISIBLE }
        else some camera
      else some camera
    else some camera

/-- The body of the loop over `lines` in `HWLineToLinePortal::Setup`. -/
def HWLineToLinePortal.markLine (q : MapQueries) (s : Scene) (l : GLWall) : Scene :=
  let line := l.portalDestination
  let mapsection :=
    if line.sidedef0Flags &&& q.WALLF_POLYOBJ ≠ 0 then
      q.level.subsectorMapsection (q.R_PointInSubsectorFixed line.v1.fixX line.v1.fixY)
    else line.frontsectorSubsector0Mapsection
  s.call (DrawInfoCall.CurrentMapSectionsSet mapsection)

/-- The function `HWLineToLinePortal::Setup`. -/
def HWLineToLinePortal.Setup (q : MapQueries) (p : HWLineToLinePortal) (s : Scene) :
    Bool × HWLineToLinePortal × Scene :=
  if s.state.renderdepth > q.r_mirror_recursions then (false, p, s)
  else
    let s1 : Scene :=
      { s with di := { s.di with mClipPortal := some (ClipPortal.lineToLine p.mDestination) } }
    let vp := s1.di.Viewpoint
    let origin := p.mOrigin
    let Pos1 := translateXY q origin vp.Pos
    let vp1 : FRenderViewpoint :=
      { vp with
        Pos := { Pos1 with Z := q.P_TranslatePortalZ origin Pos1.Z }
        ActorPos := translateXY q origin vp.ActorPos
        Yaw := q.P_TranslatePortalAngle origin vp.Yaw
        Path0 := translateXY q origin vp.Path0
        Path1 := translateXY q origin vp.Path1 }
    let vp2 : FRenderViewpoint :=
      { vp1 with camera := HWLineToLinePortal.flagCamera q p.mDestination vp1 }
    let s2 := p.mOwner.lines.foldl (HWLineToLinePortal.markLine q) (s1.withViewpoint vp2)
    let s3 := s2.withViewpoint { s2.di.Viewpoint with ViewActor := none }
    let s4 := (s3.call (DrawInfoCall.SetClipLine p.mDestination)).SetupView
    (true, p, ClearClipper q p.mOwner s4)

/-- The function `HWLineToLinePortal::RenderAttached`. -/
def HWLineToLinePortal.RenderAttached (_p : HWLineToLinePortal) (s : Scene) : Scene :=
  s.call DrawInfoCall.ProcessActorsInPortal

/-- The `Shutdown` of a line to line portal: the class defines none in this file, so the
inherited `HWScenePortalBase::Shutdown`, which does nothing, runs. -/
def HWLineToLinePortal.Shutdown (_p : HWLineToLinePortal) (s : Scene) : Scene := s

/-! ## Skybox portal -/

/-- The sector portal `FSectorPortal` behind a skybox: its anchor `mSkybox` and `mFlags`. -/
structure FSectorPortal where
  mSkybox : AActor
  mFlags : Nat

/-- The scene portal `HWSkyboxPortal`. -/
structure HWSkyboxPortal where
  mOwner : IPortal
  portal : FSectorPortal
  old_pm : Int
  oldclamp : Bool

/-- The two height clamps of `HWSkyboxPortal::Setup`, in the order of the source. -/
def HWSkyboxPortal.clampZ (floorh ceilh Z : ℚ) : ℚ :=
  let Z1 := if Z < floorh + 4 then floorh + 4 else Z
  if Z1 > ceilh - 4 then ceilh - 4 else Z1

/-- The function `HWSkyboxPortal::Setup`. -/
def HWSkyboxPortal.Setup (q : MapQueries) (p : HWSkyboxPortal) (s : Scene) :
    Bool × HWSkyboxPortal × Scene :=
  let p1 : HWSkyboxPortal := { p with old_pm := s.state.PlaneMirrorMode }
  if s.state.skyboxrecursion ≥ 3 then (false, p1, s)
  else
    let s1 : Scene :=
      { s with state := { s.state with
          skyboxrecursion := wrapInt32 (s.state.skyboxrecursion + 1)
          PlaneMirrorMode := 0
          inskybox := true } }
    let origin := p1.portal.mSkybox
    let p2 : HWSkyboxPortal :=
      { p1 with portal := { p1.portal with mFlags := p1.portal.mFlags ||| q.PORTSF_INSKYBOX } }
    let s2 := s1.withViewpoint { s1.di.Viewpoint with extralight := 0 }
    let clamp := SetDepthClamp s2 false
    let p3 : HWSkyboxPortal := { p2 with oldclamp := clamp.1 }
    let s3 := clamp.2
    let vp := s3.di.Viewpoint
    let Pos1 := q.InterpolatedPosition origin vp.TicFrac
    let floorh := q.ZatPoint origin.floorplane origin.Pos.XY
    let ceilh := q.ZatPoint origin.ceilingplane origin.Pos.XY
    let vp1 : FRenderViewpoint :=
      { vp with
        Pos := { Pos1 with Z := HWSkyboxPortal.clampZ floorh ceilh Pos1.Z }
        ActorPos := origin.Pos
        Yaw := vp.Yaw
          + (origin.PrevAnglesYaw + q.deltaangle origin.PrevAnglesYaw origin.AnglesYaw * vp.TicFrac)
        ViewActor := some origin }
    let s4 := ((s3.withViewpoint vp1).SetupView).call DrawInfoCall.SetViewArea
    (true, p3, (ClearClipper q p3.mOwner s4).call DrawInfoCall.UpdateCurrentMapSection)

/-- The function `HWSkyboxPortal::Shutdown`. -/
def HWSkyboxPortal.Shutdown (q : MapQueries) (p : HWSkyboxPortal) (s : Scene) :
    HWSkyboxPortal × Scene :=
  let p1 : HWSkyboxPortal :=
    { p with portal := { p.portal with
        mFlags := p.portal.mFlags &&& (4294967295 ^^^ (q.PORTSF_INSKYBOX % 4294967296)) } }
  let s1 := (SetDepthClamp s p.oldclamp).2
  (p1, { s1 with state := { s1.state with
      inskybox := false
      skyboxrecursion := wrapInt32 (s1.state.skyboxrecursion - 1)
      PlaneMirrorMode := p.old_pm } })

/-! ## Sector stack portal -/

/-- The function `SetCoverage`: the returned coverage and the render context afterwards. Of
the operands of `|` the one for `children[0]` is evaluated first. -/
def SetCoverage (q : MapQueries) : BSPNode → HWDrawInfo → Nat × HWDrawInfo
  | BSPNode.subsector index, di =>
    if q.level.nodesSize = 0 then (0, di)
    else ((di.ss_renderflags index &&& q.SSRF_SEEN) % 256, di)
  | BSPNode.node index child0 child1, di =>
    if q.level.nodesSize = 0 then (0, di)
    else
      let r0 := SetCoverage q child0 di
      let r1 := SetCoverage q child1 r0.2
      let coverage := (r0.1 ||| r1.1) % 256
      (coverage, { r1.2 with no_renderflags := Function.update r1.2.no_renderflags index coverage })

/-- A subsector of a sector stack portal: its two lists `portalcoverage[plane].subsectors`. -/
structure subsector_t where
  portalcoverageFloor : List Nat
  portalcoverageCeiling : List Nat

/-- The entry `sub->portalcoverage[plane]`; `none` when `plane` is no index of the array. -/
def subsector_t.portalcoverage (sub : subsector_t) (plane : Int) : Option (List Nat) :=
  if plane = 0 then some sub.portalcoverageFloor
  else if plane = 1 then some sub.portalcoverageCeiling
  else none

/-- The portal group `FSectorPortalGroup` of a sector stack: `plane` and `mDisplacement`. -/
structure FSectorPortalGroup where
  plane : Int
  mDisplacement : DVector2

/-- The scene portal `HWSectorStackPortal`. -/
structure HWSectorStackPortal where
  mOwner : IPortal
  origin : FSectorPortalGroup
  subsectors : List subsector_t

/-- The body of the inner loop of `SetupCoverage`, for the subsector `level.subsectors[j]`. -/
def HWSectorStackPortal.markSeen (q : MapQueries) (s : Scene) (dsub : Nat) : Scene :=
  let s1 := s.call (DrawInfoCall.CurrentMapSectionsSet (q.level.subsectorMapsection dsub))
  { s1 with di := { s1.di with
      ss_renderflags :=
        Function.update s1.di.ss_renderflags dsub ((s1.di.ss_renderflags dsub ||| q.SSRF_SEEN) % 256) } }

/-- The outer loop of `SetupCoverage`. -/
def HWSectorStackPortal.markAll (q : MapQueries) (plane : Int) :
    List subsector_t → Scene → Option Scene
  | [], s => some s
  | sub :: rest, s =>
    match sub.portalcoverage plane with
    | none => none
    | some covered =>
      HWSectorStackPortal.markAll q plane rest (covered.foldl (HWSectorStackPortal.markSeen q) s)

/-- The function `HWSectorStackPortal::SetupCoverage`. -/
def HWSectorStackPortal.SetupCoverage (q : MapQueries) (p : HWSectorStackPortal) (s : Scene) :
    Option Scene :=
  match HWSectorStackPortal.markAll q p.origin.plane p.subsectors s with
  | none => none
  | some s1 => some { s1 with di := (SetCoverage q q.level.HeadNode s1.di).2 }

/-- The function `HWSectorStackPortal::Setup`. -/
def HWSectorStackPortal.Setup (q : MapQueries) (p : HWSectorStackPortal) (s : Scene) :
    Option (Bool × HWSectorStackPortal × Scene) :=
  let vp := s.di.Viewpoint
  let vp1 : FRenderViewpoint :=
    { vp with
      Pos := { vp.Pos with X := vp.Pos.X + p.origin.mDisplacement.X
                           Y := vp.Pos.Y + p.origin.mDisplacement.Y }
      ActorPos := { vp.ActorPos with X := vp.ActorPos.X + p.origin.mDisplacement.X
                                     Y := vp.ActorPos.Y + p.origin.mDisplacement.Y }
      ViewActor := none }
  let s1 := s.withViewpoint vp1
  let stacked : Option InStack :=
    if p.origin.plane ≠ -1 then s1.instack.incr p.origin.plane else some s1.instack
  match stacked with
  | none => none
  | some instack1 =>
    let s2 : Scene := { s1 with instack := instack1 }
    match HWSectorStackPortal.SetupCoverage q p s2.SetupView with
    | none => none
    | some s3 =>
      let s4 := ClearClipper q p.mOwner s3
      let sub := q.R_PointInSubsector s4.di.Viewpoint.Pos.XY
      if s4.di.ss_renderflags sub &&& q.SSRF_SEEN = 0 then
        some (true, p,
          (s4.clip (ClipperCall.SafeAddClipRange 0 ANGLE_MAX)).clip (ClipperCall.SetBlocked true))
      else some (true, p, s4)

/-- The function `HWSectorStackPortal::Shutdown`. -/
def HWSectorStackPortal.Shutdown (p : HWSectorStackPortal) (s : Scene) : Option Scene :=
  if p.origin.plane ≠ -1 then
    match s.instack.decr p.origin.plane with
    | none => none
    | some instack1 => some { s with instack := instack1 }
  else some s

/-! ## Plane mirror portal -/

/-- The scene portal `HWPlaneMirrorPortal`. -/
structure HWPlaneMirrorPortal where
  mOwner : IPortal
  origin : secplane_t
  old_pm : Int

/-- The function `HWPlaneMirrorPortal::Setup`, with the height update `2 * planez - Z` in exact
arithmetic; `HWPlaneMirrorPortal.reflectedZ` is the same update in double arithmetic. -/
def HWPlaneMirrorPortal.Setup (q : MapQueries) (p : HWPlaneMirrorPortal) (s : Scene) :
    Bool × HWPlaneMirrorPortal × Scene :=
  if s.state.renderdepth > q.r_mirror_recursions then (false, p, s)
  else
    let s1 : Scene := { s with instack := s.instack.swap }
    let vp := s1.di.Viewpoint
    let p1 : HWPlaneMirrorPortal := { p with old_pm := s1.state.PlaneMirrorMode }
    let planez := q.ZatPoint p.origin vp.Pos.XY
    let vp1 : FRenderViewpoint :=
      { vp with
        showviewer := true
        Pos := { vp.Pos with Z := 2 * planez - vp.Pos.Z }
        ViewActor := none }
    let s2 := s1.withViewpoint vp1
    let s3 : Scene :=
      { s2 with state := { s2.state with PlaneMirrorMode := if p.origin.fC < 0 then -1 else 1 } }
    let s4 : Scene :=
      { s3 with state := { s3.state with
          PlaneMirrorFlag := wrapInt32 (s3.state.PlaneMirrorFlag + 1) } }
    let s5 := s4.call
      (DrawInfoCall.SetClipHeight planez (if s4.state.PlaneMirrorMode < 0 then -1 else 1))
    (true, p1, (ClearClipper q p1.mOwner s5.SetupView).call DrawInfoCall.UpdateCurrentMapSection)

/-- The function `HWPlaneMirrorPortal::Shutdown`. -/
def HWPlaneMirrorPortal.Shutdown (p : HWPlaneMirrorPortal) (s : Scene) : Scene :=
  { s with
    state := { s.state with
      PlaneMirrorFlag := wrapInt32 (s.state.PlaneMirrorFlag - 1)
      PlaneMirrorMode := p.old_pm }
    instack := s.instack.swap }

/-! ## The five variants behind one interface -/

/-- A scene portal of one of the five kinds. -/
inductive ScenePortal where
  | mirror (p : HWMirrorPortal)
  | lineToLine (p : HWLineToLinePortal)
  | skybox (p : HWSkyboxPortal)
  | sectorStack (p : HWSectorStackPortal)
  | planeMirror (p : HWPlaneMirrorPortal)

/-- The virtual call `Setup(di, clipper)`: the returned flag, the portal object and the scene
afterwards. -/
def ScenePortal.Setup (q : MapQueries) : ScenePortal → Scene → Option (Bool × ScenePortal × Scene)
  | ScenePortal.mirror p, s =>
    let r := HWMirrorPortal.Setup q p s
    some (r.1, ScenePortal.mirror r.2.1, r.2.2)
  | ScenePortal.lineToLine p, s =>
    let r := HWLineToLinePortal.Setup q p s
    some (r.1, ScenePortal.lineToLine r.2.1, r.2.2)
  | ScenePortal.skybox p, s =>
    let r := HWSkyboxPortal.Setup q p s
    some (r.1, ScenePortal.skybox r.2.1, r.2.2)
  | ScenePortal.sectorStack p, s =>
    match HWSectorStackPortal.Setup q p s with
    | none => none
    | some r => some (r.1, ScenePortal.sectorStack r.2.1, r.2.2)
  | ScenePortal.planeMirror p, s =>
    let r := HWPlaneMirrorPortal.Setup q p s
    some (r.1, ScenePortal.planeMirror r.2.1, r.2.2)

/-- The virtual call `Shutdown(di)`. -/
def ScenePortal.Shutdown (q : MapQueries) : ScenePortal → Scene → Option Scene
  | ScenePortal.mirror p, s => some (HWMirrorPortal.Shutdown p s)
  | ScenePortal.lineToLine p, s => some (HWLineToLinePortal.Shutdown p s)
  | ScenePortal.skybox p, s => some (HWSkyboxPortal.Shutdown q p s).2
  | ScenePortal.sectorStack p, s => HWSectorStackPortal.Shutdown p s
  | ScenePortal.planeMirror p, s => some (HWPlaneMirrorPortal.Shutdown p s)

/-! ## Nested portal rendering -/

/-- A well nested sequence of portal calls: nothing more; a step of the code outside this
file, which may switch to another render context and clipper and, by entering or leaving a
nested frame, change `renderdepth`; or a portal whose `Setup` is called, followed if it
succeeds by the sequence `inner` and the portal's `Shutdown`, and then by `rest`. -/
inductive Nest where
  | done : Nest
  | context (di : HWDrawInfo) (clipper : List ClipperCall) (renderdepth : Int) (rest : Nest) :
    Nest
  | portal (p : ScenePortal) (inner : Nest) (rest : Nest) : Nest

/-- The scene after a step of the code outside this file. -/
def Scene.withContext (s : Scene) (di : HWDrawInfo) (clipper : List ClipperCall)
    (renderdepth : Int) : Scene :=
  { s with di := di, clipper := clipper, state := { s.state with renderdepth := renderdepth } }

/-- Modelled from the spec: the caller of `Setup` and `Shutdown` (the portal's `RenderPortal`,
which is not in this file) calls `Setup`, and exactly when that returns true renders the
nested scene and then calls `Shutdown`. The scene after the whole sequence; `none` when a
call indexes `instack` or `portalcoverage` outside the array. -/
def Nest.run (q : MapQueries) : Nest → Scene → Option Scene
  | Nest.done, s => some s
  | Nest.context di clipper renderdepth rest, s =>
    rest.run q (s.withContext di clipper renderdepth)
  | Nest.portal p inner rest, s =>
    match p.Setup q s with
    | none => none
    | some (false, _, s1) => rest.run q s1
    | some (true, p1, s1) =>
      match inner.run q s1 with
      | none => none
      | some s2 =>
        match p1.Shutdown q s2 with
        | none => none
        | some s3 => rest.run q s3

/-- The scenes a well nested sequence passes through, the initial one first. -/
def Nest.states (q : MapQueries) : Nest → Scene → List Scene
  | Nest.done, s => [s]
  | Nest.context di clipper renderdepth rest, s =>
    s :: rest.states q (s.withContext di clipper renderdepth)
  | Nest.portal p inner rest, s =>
    match p.Setup q s with
    | none => [s]
    | some (false, _, s1) => s :: rest.states q s1
    | some (true, p1, s1) =>
      s :: (inner.states q s1 ++
        match inner.run q s1 with
        | none => []
        | some s2 =>
          match p1.Shutdown q s2 with
          | none => []
          | some s3 => rest.states q s3)

/-- The five counters that every `Setup` and `Shutdown` pair must leave balanced. -/
def Scene.counters (s : Scene) : Int × Int × Int × Int × Int :=
  (s.state.MirrorFlag, s.state.PlaneMirrorFlag, s.state.skyboxrecursion,
    s.instack.floor, s.instack.ceiling)

/-- The five counters hold values of a C `int`. -/
def Scene.CountersInRange (s : Scene) : Prop :=
  IsInt32 s.state.MirrorFlag ∧ IsInt32 s.state.PlaneMirrorFlag ∧
    IsInt32 s.state.skyboxrecursion ∧ IsInt32 s.instack.floor ∧ IsInt32 s.instack.ceiling

instance (s : Scene) : Decidable s.CountersInRange := by
  unfold Scene.CountersInRange; infer_instance

/-- A `RenderPortal` that leaves the queue of the render context it is handed as it found
it. -/
def KeepsPortals (render : RenderFn) : Prop :=
  ∀ p a b s, (render p a b s).di.Portals = s.di.Portals

/-- A `RenderPortal` that leaves `renderdepth` as it found it. -/
def KeepsRenderdepth (render : RenderFn) : Prop :=
  ∀ p a b s, (render p a b s).state.renderdepth = s.state.renderdepth

/-- The events of `EndFrame` for the portals it pops, in the order it pops them. -/
def EndFrame.events (usequery : Bool) : List IPortal → List FrameEvent
  | [] => []
  | p :: ps =>
    (if 0 < p.lines.length then
      [FrameEvent.RenderPortal p true usequery, FrameEvent.destroy p]
    else [FrameEvent.destroy p]) ++ EndFrame.events usequery ps


/-- A portal that `RenderFirstSkyPortal` may pick at the given recursion level: it has
boundary segments, is a sky, and needs no depth buffer unless the level is 0. -/
def RenderFirstSkyPortal.Eligible (recursion : Int) (p : IPortal) : Prop :=
  0 < p.lines.length ∧ p.IsSky = true ∧ (recursion = 0 ∨ p.NeedDepthBuffer = false)

/-- The loop invariant of `RenderFirstSkyPortal`, for the indices from `n` up to below `n0`
of the queue `ps`: `best` is an eligible entry with the most boundary segments among them
(the one of highest index on ties), and is empty when none of them is eligible. -/
def RenderFirstSkyPortal.Best (recursion : Int) (ps : List IPortal) (n n0 : Nat) :
    Option (IPortal × Nat) → Prop
  | none => ∀ j p, n ≤ j → j < n0 → ps[j]? = some p → ¬ RenderFirstSkyPortal.Eligible recursion p
  | some (b, bi) =>
    n ≤ bi ∧ bi < n0 ∧ ps[bi]? = some b ∧ RenderFirstSkyPortal.Eligible recursion b ∧
      ∀ j p, n ≤ j → j < n0 → ps[j]? = some p → RenderFirstSkyPortal.Eligible recursion p →
        p.lines.length ≤ b.lines.length ∧ (p.lines.length = b.lines.length → j ≤ bi)

/-! ## Sample data -/

/-- A sample vertex. -/
def Sample.vertex : vertex_t := { fX := 0, fY := 0, fixX := 0, fixY := 0 }

/-- A sample linedef, from the origin to (0, 64). -/
def Sample.line : line_t :=
  { v1 := Sample.vertex, v2 := { fX := 0, fY := 64, fixX := 0, fixY := 4194304 },
    Delta := ⟨0, 64⟩, sidedef0Flags := 0, frontsectorSubsector0Mapsection := 0 }

/-- A sample boundary segment. -/
def Sample.wall : GLWall := { glseg := ⟨0, 0, 0, 64⟩, portalDestination := Sample.line }

/-- A sample portal with `n` boundary segments. -/
def Sample.portal (id n : Nat) (sky depth : Bool) : IPortal :=
  { id := id, lines := List.replicate n Sample.wall, IsSky := sky, NeedDepthBuffer := depth }

/-- A sample plane, the floor `z = 0`. -/
def Sample.plane : secplane_t := { fA := 0, fB := 0, fC := 1, fD := 0 }

/-- A sample actor. -/
def Sample.actor : AActor :=
  { Pos := ⟨0, 0, 0⟩, PrevAnglesYaw := 0, AnglesYaw := 0, renderflags := 0,
    floorplane := Sample.plane, ceilingplane := Sample.plane }

/-- A sample viewpoint. -/
def Sample.viewpoint : FRenderViewpoint :=
  { Pos := ⟨32, 32, 41⟩, ActorPos := ⟨32, 32, 0⟩, Path0 := ⟨32, 32, 0⟩, Path1 := ⟨32, 32, 0⟩,
    Yaw := 90, TicFrac := 1, showviewer := false, extralight := 0, camera := none,
    ViewActor := none }

/-- A sample scene with the given `renderdepth`, `skyboxrecursion` and portal queue. -/
def Sample.scene (renderdepth skyboxrecursion : Int) (queue : List (Option IPortal)) : Scene :=
  { state := { MirrorFlag := 0, PlaneMirrorFlag := 0, renderdepth := renderdepth,
               PlaneMirrorMode := 1, inskybox := false, skyboxrecursion := skyboxrecursion },
    instack := { floor := 0, ceiling := 0 },
    di := { Viewpoint := Sample.viewpoint, Portals := queue, mClipPortal := none,
            depthClamp := true, ss_renderflags := fun _ => 0, no_renderflags := fun _ => 0,
            outerViewpoint := Sample.viewpoint, calls := [] },
    clipper := [] }

/-- A sample `RenderPortal` that draws nothing. -/
def Sample.render : RenderFn := fun _ _ _ s => s

/-- Sample answers of the other files: a level without nodes, flat planes at height 0, and
portal translations that move nothing. -/
def Sample.queries : MapQueries :=
  { r_mirror_recursions := 4, PORTSF_INSKYBOX := 2, RF_MAYBEINVISIBLE := 33554432,
    WALLF_POLYOBJ := 128, SSRF_SEEN := 16, EQUAL_EPSILON := 1 / 65536,
    level := { nodesSize := 0, HeadNode := BSPNode.subsector 0, subsectorMapsection := fun _ => 0 },
    Angle := fun _ => 0, Length := fun _ => 0, MakeUnit := fun v => v,
    deltaangle := fun a b => b - a, BAMs := fun _ => 0, FrustumAngle := fun _ => 4294967295,
    P_PointOnLineSidePrecise := fun _ _ => 0, P_ClipLineToPortal := fun _ _ _ => false,
    P_TranslatePortalXY := fun _ v => v, P_TranslatePortalAngle := fun _ a => a,
    P_TranslatePortalZ := fun _ z => z, R_PointInSubsector := fun _ => 0,
    R_PointInSubsectorFixed := fun _ _ => 0, ZatPoint := fun _ _ => 0,
    InterpolatedPosition := fun a _ => a.Pos }

/-- A sample mirror. -/
def Sample.mirror : HWMirrorPortal :=
  { mOwner := Sample.portal 11 1 false true, linedef := Sample.line }

/-- A sample skybox portal. -/
def Sample.skybox : HWSkyboxPortal :=
  { mOwner := Sample.portal 12 1 true false, portal := { mSkybox := Sample.actor, mFlags := 0 },
    old_pm := 0, oldclamp := false }

/-- A sample sector stack portal on the given plane. -/
def Sample.sectorStack (plane : Int) : HWSectorStackPortal :=
  { mOwner := Sample.portal 13 1 false true, origin := { plane := plane, mDisplacement := ⟨0, 0⟩ },
    subsectors := [{ portalcoverageFloor := [0], portalcoverageCeiling := [] }] }

/-- A sample plane mirror. -/
def Sample.planeMirror : HWPlaneMirrorPortal :=
  { mOwner := Sample.portal 14 1 false true, origin := Sample.plane, old_pm := 0 }

/-- A sample scene with a floor stack portal open: `instack` is 1 for the floor, 0 for the
ceiling. -/
def Sample.stacked : Scene :=
  { Sample.scene 1 0 [] with instack := { floor := 1, ceiling := 0 } }

/-- A sample nesting: a floor sector stack, and after it, one frame deeper, a mirror that
contains a skybox. -/
def Sample.nest : Nest :=
  Nest.portal (ScenePortal.sectorStack (Sample.sectorStack 0)) Nest.done
    (Nest.context (Sample.scene 2 0 []).di [] 2
      (Nest.portal (ScenePortal.mirror Sample.mirror)
        (Nest.portal (ScenePortal.skybox Sample.skybox) Nest.done Nest.done) Nest.done))

/-- A sample nesting of five skyboxes, each inside the one before. -/
def Sample.skyboxes : Nest :=
  Nest.portal (ScenePortal.skybox Sample.skybox)
    (Nest.portal (ScenePortal.skybox Sample.skybox)
      (Nest.portal (ScenePortal.skybox Sample.skybox)
        (Nest.portal (ScenePortal.skybox Sample.skybox)
          (Nest.portal (ScenePortal.skybox Sample.skybox) Nest.done Nest.done)
          Nest.done)
        Nest.done)
      Nest.done)
    Nest.done

/-! ## Reflection across a line -/

/-- The projection formula of the general branch of `HWMirrorPortal::Setup`, before the
compensation is added: with `d = v2 - v1` and `r = ((P - v1)·d) / (d·d)` the point
`2 (v1 + r d) - P`. -/
def HWMirrorPortal.reflectLine (linedef : line_t) (StartPos : DVector3) : DVector3 :=
  let dx := linedef.v2.fX - linedef.v1.fX
  let dy := linedef.v2.fY - linedef.v1.fY
  let x1 := linedef.v1.fX
  let y1 := linedef.v1.fY
  let x := StartPos.X
  let y := StartPos.Y
  let r := ((x - x1) * dx + (y - y1) * dy) / (dx * dx + dy * dy)
  { StartPos with X := (x1 + r * dx) * 2 - x, Y := (y1 + r * dy) * 2 - y }

/-! ## Line to line portal: the translated viewpoint -/

/-- The viewpoint of `HWLineToLinePortal::Setup` after the portal translation of its position,
yaw and path, before the camera is examined. -/
def HWLineToLinePortal.translated (q : MapQueries) (origin : line_t)
    (vp : FRenderViewpoint) : FRenderViewpoint :=
  { vp with
    Pos := { translateXY q origin vp.Pos with
      Z := q.P_TranslatePortalZ origin (translateXY q origin vp.Pos).Z }
    ActorPos := translateXY q origin vp.ActorPos
    Yaw := q.P_TranslatePortalAngle origin vp.Yaw
    Path0 := translateXY q origin vp.Path0
    Path1 := translateXY q origin vp.Path1 }

/-! ## Double arithmetic -/

/-- The integer nearest to `x`, the even one of the two when `x` lies half way between
them. -/
def roundHalfEven (x : ℚ) : Int :=
  if x - ⌊x⌋ < 1 / 2 then ⌊x⌋
  else if 1 / 2 < x - ⌊x⌋ then ⌊x⌋ + 1
  else if ⌊x⌋ % 2 = 0 then ⌊x⌋ else ⌊x⌋ + 1

/-- The `double` that an arithmetic result `x` is rounded to (IEEE 754 binary64, round to
nearest, ties to even): with `2^e ≤ |x| < 2^(e+1)` the nearest multiple of `2^(e-52)`, of
`2^(-1074)` in the subnormal range; `none` when the result overflows to infinity. -/
def roundToDouble (x : ℚ) : Option ℚ :=
  if x = 0 then some 0
  else
    let e := max (Int.log 2 |x|) (-1022)
    let y := (roundHalfEven (x / 2 ^ (e - 52)) : ℚ) * 2 ^ (e - 52)
    if |y| < 2 ^ (1024 : ℤ) then some y else none

/-- The height update `vp.Pos.Z = 2 * planez - vp.Pos.Z` of `HWPlaneMirrorPortal::Setup` in
double arithmetic: the product is rounded, then the difference. -/
def HWPlaneMirrorPortal.reflectedZ (planez Z : ℚ) : Option ℚ :=
  match roundToDouble (2 * planez) with
  | none => none
  | some twice => roundToDouble (twice - Z)

/-! ## Coverage of a BSP subtree -/

/-- The `Index()` of the subsectors at the leaves of a BSP tree, from left to right. -/
def BSPNode.leaves : BSPNode → List Nat
  | BSPNode.subsector index => [index]
  | BSPNode.node _ child0 child1 => child0.leaves ++ child1.leaves

/-- The internal nodes of a BSP tree: the `Index()` of each `node_t` with the subtree below
it. -/
def BSPNode.nodes : BSPNode → List (Nat × BSPNode)
  | BSPNode.subsector _ => []
  | BSPNode.node index child0 child1 =>
    (index, BSPNode.node index child0 child1) :: (child0.nodes ++ child1.nodes)

/-- The bitwise OR of `ss_renderflags[i] & SSRF_SEEN` over the subsector leaves `i` of a
subtree: the coverage that the specification assigns to the subtree. -/
def BSPNode.seenUnion (q : MapQueries) (ss_renderflags : Nat → Nat) (t : BSPNode) : Nat :=
  (t.leaves.map (fun i => ss_renderflags i &&& q.SSRF_SEEN)).foldr (fun a b => a ||| b) 0

/-! ## More sample data -/

/-- Sample answers of the other files for axis parallel geometry: the side test of
`P_PointOnLineSidePrecise`, the length of a vector along one axis, and planes whose height is
their `fD`; the level has three nodes. -/
def Sample.axisQueries : MapQueries :=
  { Sample.queries with
    level := { nodesSize := 3,
               HeadNode := BSPNode.node 2 (BSPNode.node 0 (BSPNode.subsector 0) (BSPNode.subsector 1))
                 (BSPNode.node 1 (BSPNode.subsector 2) (BSPNode.subsector 3)),
               subsectorMapsection := fun _ => 0 },
    Length := fun v => |v.X| + |v.Y| + |v.Z|,
    P_PointOnLineSidePrecise := fun p l =>
      if (p.Y - l.v1.fY) * l.Delta.X + (l.v1.fX - p.X) * l.Delta.Y > 1 / 65536 then 1 else 0,
    ZatPoint := fun plane _ => plane.fD }

/-- A sample anchor standing on the floor of a room from height 0 to height 128. -/
def Sample.anchor : AActor :=
  { Sample.actor with ceilingplane := { fA := 0, fB := 0, fC := -1, fD := 128 } }

/-- A sample skybox portal with that anchor. -/
def Sample.roomSkybox : HWSkyboxPortal :=
  { Sample.skybox with portal := { mSkybox := Sample.anchor, mFlags := 0 } }

/-- A sample scene inside a skybox: `inskybox` is set and `skyboxrecursion` is 1. -/
def Sample.inSkybox : Scene :=
  { Sample.scene 1 1 [] with
    state := { (Sample.scene 1 1 []).state with inskybox := true } }

/-- A sample scene with a hidden viewer whose camera moved from (-8, 32) to (8, 32), across
the sample line, and is seen from the middle of that path. -/
def Sample.crossing : Scene :=
  (Sample.scene 1 0 []).withViewpoint
    { Sample.viewpoint with
      Pos := ⟨0, 32, 0⟩, Path0 := ⟨-8, 32, 0⟩, Path1 := ⟨8, 32, 0⟩,
      camera := some Sample.actor }

/-- A sample line to line portal that leads from the sample line to itself. -/
def Sample.lineToLine : HWLineToLinePortal :=
  { mOwner := Sample.portal 15 1 false true, mOrigin := Sample.line, mDestination := Sample.line }

/-- A sample diagonal linedef, from the origin to (3, 4). -/
def Sample.diagonal : line_t :=
  { Sample.line with v2 := { fX := 3, fY := 4, fixX := 196608, fixY := 262144 }, Delta := ⟨3, 4⟩ }

/-- A sample horizontal linedef, from (0, 5) to (64, 5). -/
def Sample.horizontal : line_t :=
  { v1 := { fX := 0, fY := 5, fixX := 0, fixY := 327680 },
    v2 := { fX := 64, fY := 5, fixX := 4194304, fixY := 327680 },
    Delta := ⟨64, 0⟩, sidedef0Flags := 0, frontsectorSubsector0Mapsection := 0 }

/-- Sample subsector flags: only subsector 2 is marked seen. -/
def Sample.seenFlags : Nat → Nat := fun i => if i = 2 then 16 else 0

/-! ## Lemmas -/

theorem TArray.Pop_nil {α : Type} : TArray.Pop ([] : List α) = none := rfl

theorem TArray.Pop_concat {α : Type} (l : List α) (x : α) :
    TArray.Pop (l ++ [x]) = some (x, l) := by
  simp [TArray.Pop]

theorem TArray.Pop_eq_none {α : Type} {l : List α} (h : TArray.Pop l = none) : l = [] := by
  rcases List.eq_nil_or_concat l with h0 | ⟨l0, x, rfl⟩
  · exact h0
  · rw [List.concat_eq_append, TArray.Pop_concat] at h; cases h

theorem wrapInt32_succ_pred (x : Int) (h : IsInt32 x) : wrapInt32 (wrapInt32 (x + 1) - 1) = x := by
  unfold IsInt32 at h
  unfold wrapInt32
  omega

theorem wrapInt32_pred_succ (x : Int) (h : IsInt32 x) : wrapInt32 (wrapInt32 (x - 1) + 1) = x := by
  unfold IsInt32 at h
  unfold wrapInt32
  omega

theorem EndFrame.loop_renderdepth (render : RenderFn) (hr : KeepsRenderdepth render) (uq : Bool) :
    ∀ (fuel : Nat) (s : Scene) (log : List FrameEvent) (r : Scene × List FrameEvent),
      EndFrame.loop render uq fuel s log = some r → r.1.state.renderdepth = s.state.renderdepth := by
  intro fuel
  induction fuel with
  | zero => intro s log r h; simp [EndFrame.loop] at h
  | succ n ih =>
    intro s log r h
    unfold EndFrame.loop at h
    split at h
    · cases h; rfl
    · cases h; rfl
    · split at h
      · have := ih _ _ _ h
        rw [this, hr]; rfl
      · have := ih _ _ _ h
        rw [this]; rfl

theorem EndFrame.loop_drain (render : RenderFn) (hk : KeepsPortals render) (uq : Bool)
    (base : List (Option IPortal))
    (hbase : base = [] ∨ ∃ below, base = below ++ [none]) :
    ∀ (above : List IPortal) (s : Scene) (log : List FrameEvent) (fuel : Nat),
      s.di.Portals = base ++ above.map some → above.length < fuel →
      ∃ s1, EndFrame.loop render uq fuel s log
          = some (s1, log ++ EndFrame.events uq above.reverse) ∧
        s1.di.Portals = base.dropLast := by
  intro above
  induction above using List.reverseRecOn with
  | nil =>
    intro s log fuel hq hf
    obtain ⟨n, rfl⟩ : ∃ n, fuel = n + 1 := ⟨fuel - 1, by simp at hf; omega⟩
    simp only [List.map_nil, List.append_nil] at hq
    rcases hbase with rfl | ⟨below, rfl⟩
    · refine ⟨s, ?_, ?_⟩
      · simp [EndFrame.loop, hq, TArray.Pop_nil, EndFrame.events]
      · simp [hq]
    · refine ⟨s.withPortals below, ?_, ?_⟩
      · simp [EndFrame.loop, hq, TArray.Pop_concat, EndFrame.events]
      · simp [Scene.withPortals]
  | append_singleton init p ih =>
    intro s log fuel hq hf
    obtain ⟨n, rfl⟩ : ∃ n, fuel = n + 1 := ⟨fuel - 1, by simp at hf; omega⟩
    have hf1 : init.length < n := by simp at hf; omega
    have hq1 : s.di.Portals = (base ++ init.map some) ++ [some p] := by
      simp [hq]
    have hpop : TArray.Pop s.di.Portals = some (some p, base ++ init.map some) := by
      rw [hq1, TArray.Pop_concat]
    by_cases hl : 0 < p.lines.length
    · obtain ⟨s1, h1, h2⟩ := ih (render p true uq (s.withPortals (base ++ init.map some)))
        (log ++ [FrameEvent.RenderPortal p true uq, FrameEvent.destroy p]) n
        (by rw [hk]; rfl) hf1
      refine ⟨s1, ?_, h2⟩
      rw [EndFrame.loop, hpop]
      simp only [hl, if_true]
      rw [h1]
      simp [EndFrame.events, hl]
    · obtain ⟨s1, h1, h2⟩ := ih (s.withPortals (base ++ init.map some))
        (log ++ [FrameEvent.destroy p]) n rfl hf1
      refine ⟨s1, ?_, h2⟩
      rw [EndFrame.loop, hpop]
      simp only [hl, if_false]
      rw [h1]
      simp [EndFrame.events, hl]

theorem queue_split (queue : List (Option IPortal)) :
    ∃ (base : List (Option IPortal)) (above : List IPortal),
      queue = base ++ above.map some ∧ (base = [] ∨ ∃ below, base = below ++ [none]) := by
  induction queue using List.reverseRecOn with
  | nil => exact ⟨[], [], rfl, Or.inl rfl⟩
  | append_singleton init x ih =>
    cases x with
    | none => exact ⟨init ++ [none], [], by simp, Or.inr ⟨init, rfl⟩⟩
    | some p =>
      obtain ⟨base, above, hq, hb⟩ := ih
      exact ⟨base, above ++ [p], by simp [hq], hb⟩

theorem EndFrame.loop_log (render : RenderFn) (uq : Bool) :
    ∀ (fuel : Nat) (s : Scene) (log : List FrameEvent) (r : Scene × List FrameEvent),
      EndFrame.loop render uq fuel s log = some r →
      ∀ e ∈ r.2, e ∈ log ∨ ∃ p, e = FrameEvent.RenderPortal p true uq ∨ e = FrameEvent.destroy p := by
  intro fuel
  induction fuel with
  | zero => intro s log r h; simp [EndFrame.loop] at h
  | succ n ih =>
    intro s log r h e he
    unfold EndFrame.loop at h
    split at h
    · cases h; exact Or.inl he
    · cases h; exact Or.inl he
    · rename_i p rest hpop
      split at h
      · rcases ih _ _ _ h e he with h1 | h1
        · simp only [List.mem_append, List.mem_cons, List.mem_singleton, List.not_mem_nil,
            or_false] at h1
          rcases h1 with h1 | h1 | h1
          · exact Or.inl h1
          · exact Or.inr ⟨p, Or.inl h1⟩
          · exact Or.inr ⟨p, Or.inr h1⟩
        · exact Or.inr h1
      · rcases ih _ _ _ h e he with h1 | h1
        · simp only [List.mem_append, List.mem_singleton] at h1
          rcases h1 with h1 | h1
          · exact Or.inl h1
          · exact Or.inr ⟨p, Or.inr h1⟩
        · exact Or.inr h1

theorem EndFrame.events_append (uq : Bool) (l1 l2 : List IPortal) :
    EndFrame.events uq (l1 ++ l2) = EndFrame.events uq l1 ++ EndFrame.events uq l2 := by
  induction l1 with
  | nil => rfl
  | cons p ps ih => simp [EndFrame.events, ih]

theorem EndFrame.count_destroy (uq : Bool) (p : IPortal) (l : List IPortal) :
    (EndFrame.events uq l).count (FrameEvent.destroy p) = l.count p := by
  induction l with
  | nil => rfl
  | cons x xs ih =>
    by_cases hx : 0 < x.lines.length <;> by_cases hp : x = p
    · subst hp; simp [EndFrame.events, hx, ih, List.count_cons, Nat.add_comm]
    · simp [EndFrame.events, hx, hp, ih, List.count_cons]
    · subst hp; simp [EndFrame.events, hx, ih, List.count_cons, Nat.add_comm]
    · simp [EndFrame.events, hx, hp, ih, List.count_cons]

theorem EndFrame.count_render (uq : Bool) (p : IPortal) (l : List IPortal) :
    (EndFrame.events uq l).count (FrameEvent.RenderPortal p true uq)
      = if 0 < p.lines.length then l.count p else 0 := by
  induction l with
  | nil => simp [EndFrame.events]
  | cons x xs ih =>
    by_cases hx : 0 < x.lines.length <;> by_cases hp : x = p
    · subst hp; simp [EndFrame.events, hx, ih, List.count_cons] at *
    · simp [EndFrame.events, hx, hp, ih, List.count_cons]
    · subst hp; simp [EndFrame.events, hx, ih, List.count_cons] at *
    · simp [EndFrame.events, hx, hp, ih, List.count_cons]

theorem EndFrame.render_mem (uq : Bool) (p : IPortal) (a b : Bool) (l : List IPortal)
    (h : FrameEvent.RenderPortal p a b ∈ EndFrame.events uq l) :
    a = true ∧ b = uq ∧ p ∈ l ∧ 0 < p.lines.length := by
  induction l with
  | nil => simp [EndFrame.events] at h
  | cons x xs ih =>
    by_cases hx : 0 < x.lines.length
    · simp only [EndFrame.events, hx, if_true, List.mem_append, List.mem_cons,
        List.mem_singleton, List.not_mem_nil, or_false] at h
      rcases h with (h | h) | h
      · cases h; exact ⟨rfl, rfl, List.mem_cons_self _ _, hx⟩
      · cases h
      · obtain ⟨h1, h2, h3, h4⟩ := ih h
        exact ⟨h1, h2, List.mem_cons_of_mem _ h3, h4⟩
    · simp only [EndFrame.events, hx, if_false, List.mem_append, List.mem_singleton] at h
      rcases h with h | h
      · cases h
      · obtain ⟨h1, h2, h3, h4⟩ := ih h
        exact ⟨h1, h2, List.mem_cons_of_mem _ h3, h4⟩

theorem EndFrame.drain (render : RenderFn) (hk : KeepsPortals render) (s : Scene)
    (base : List (Option IPortal)) (above : List IPortal)
    (hbase : base = [] ∨ ∃ below, base = below ++ [none])
    (hq : s.di.Portals = base ++ above.map some) (fuel : Nat) (hf : above.length < fuel) :
    ∃ s1, EndFrame render fuel s
        = some (s1, EndFrame.events (EndFrame.usequery s) above.reverse) ∧
      s1.di.Portals = base.dropLast := by
  obtain ⟨s1, h1, h2⟩ :=
    EndFrame.loop_drain render hk (EndFrame.usequery s) base hbase above s [] fuel hq hf
  refine ⟨{ s1 with state := { s1.state with
      renderdepth := wrapInt32 (s1.state.renderdepth - 1) } }, ?_, h2⟩
  simp [EndFrame, h1]

theorem StartFrame_renderdepth (s : Scene) :
    (StartFrame s).state.renderdepth = wrapInt32 (s.state.renderdepth + 1) := by
  unfold StartFrame
  split <;> simp_all

theorem StartFrame_Portals (s : Scene) : (StartFrame s).di.Portals = s.di.Portals := by
  unfold StartFrame
  split <;> rfl

theorem EndFrame_renderdepth (render : RenderFn) (hr : KeepsRenderdepth render) (fuel : Nat)
    (s : Scene) (r : Scene × List FrameEvent) (h : EndFrame render fuel s = some r) :
    r.1.state.renderdepth = wrapInt32 (s.state.renderdepth - 1) := by
  unfold EndFrame at h
  split at h
  · cases h
  · rename_i s1 log hl
    cases h
    have h2 := EndFrame.loop_renderdepth render hr _ _ _ _ _ hl
    simp only at h2
    simp [h2]

theorem eraseIdx_map_some (ps : List IPortal) (i : Nat) :
    (ps.map some).eraseIdx i = (ps.eraseIdx i).map some := by
  induction ps generalizing i with
  | nil => rfl
  | cons x xs ih =>
    cases i with
    | zero => rfl
    | succ k => simp [List.eraseIdx, ih]

theorem RenderFirstSkyPortal.scan_spec (recursion : Int) (ps : List IPortal) (n0 : Nat)
    (hn0 : n0 ≤ ps.length) :
    ∀ (n : Nat) (best : Option (IPortal × Nat)), n ≤ n0 →
      RenderFirstSkyPortal.Best recursion ps n n0 best →
      ∃ r, RenderFirstSkyPortal.scan recursion (ps.map some) n best = some r ∧
        RenderFirstSkyPortal.Best recursion ps 0 n0 r := by
  intro n
  induction n with
  | zero => intro best _ h; exact ⟨best, rfl, h⟩
  | succ i ih =>
    intro best hn hbest
    have hi : i < ps.length := by omega
    have hget : (ps.map some)[i]? = some (some ps[i]) := by
      simp [List.getElem?_eq_getElem, hi]
    have hps : ps[i]? = some ps[i] := List.getElem?_eq_getElem hi
    have hnot : ¬ RenderFirstSkyPortal.Eligible recursion ps[i] →
        RenderFirstSkyPortal.Best recursion ps i n0 best := by
      intro hne
      cases best with
      | none =>
        intro j p hj hjn hp
        rcases Nat.eq_or_lt_of_le hj with h | h
        · subst h; rw [hps] at hp; cases hp; exact hne
        · exact hbest j p h hjn hp
      | some bb =>
        obtain ⟨b, bi⟩ := bb
        obtain ⟨h1, h2, h3, h4, h5⟩ := hbest
        refine ⟨by omega, h2, h3, h4, ?_⟩
        intro j p hj hjn hp he
        rcases Nat.eq_or_lt_of_le hj with h | h
        · subst h; rw [hps] at hp; cases hp; exact absurd he hne
        · exact h5 j p h hjn hp he
    unfold RenderFirstSkyPortal.scan
    rw [hget]
    simp only
    by_cases hc1 : 0 < ps[i].lines.length ∧ ps[i].IsSky = true
    · rw [if_pos hc1]
      by_cases hc2 : recursion ≠ 0 ∧ ps[i].NeedDepthBuffer = true
      · rw [if_pos hc2]
        apply ih best (by omega)
        apply hnot
        rintro ⟨_, _, h | h⟩
        · exact hc2.1 h
        · rw [hc2.2] at h; cases h
      · rw [if_neg hc2]
        have hel : RenderFirstSkyPortal.Eligible recursion ps[i] := by
          refine ⟨hc1.1, hc1.2, ?_⟩
          by_cases hr : recursion = 0
          · exact Or.inl hr
          · right
            cases hd : ps[i].NeedDepthBuffer
            · rfl
            · exact absurd ⟨hr, hd⟩ hc2
        cases best with
        | none =>
          simp only
          apply ih _ (by omega)
          refine ⟨le_refl _, by omega, hps, hel, ?_⟩
          intro j p hj hjn hp he
          rcases Nat.eq_or_lt_of_le hj with h | h
          · subst h; rw [hps] at hp; cases hp; exact ⟨le_refl _, fun _ => le_refl _⟩
          · exact absurd he (hbest j p h hjn hp)
        | some bb =>
          obtain ⟨b, bi⟩ := bb
          obtain ⟨h1, h2, h3, h4, h5⟩ := hbest
          simp only
          by_cases hlt : b.lines.length < ps[i].lines.length
          · rw [if_pos hlt]
            apply ih _ (by omega)
            refine ⟨le_refl _, by omega, hps, hel, ?_⟩
            intro j p hj hjn hp he
            rcases Nat.eq_or_lt_of_le hj with h | h
            · subst h; rw [hps] at hp; cases hp; exact ⟨le_refl _, fun _ => le_refl _⟩
            · have := h5 j p h hjn hp he
              exact ⟨by omega, fun heq => by omega⟩
          · rw [if_neg hlt]
            apply ih _ (by omega)
            refine ⟨by omega, h2, h3, h4, ?_⟩
            intro j p hj hjn hp he
            rcases Nat.eq_or_lt_of_le hj with h | h
            · subst h; rw [hps] at hp; cases hp
              exact ⟨by omega, fun _ => by omega⟩
            · exact h5 j p h hjn hp he
    · rw [if_neg hc1]
      apply ih best (by omega)
      apply hnot
      rintro ⟨h1, h2, _⟩
      exact hc1 ⟨h1, h2⟩

theorem RenderFirstSkyPortal.start_le (portals : List (Option IPortal))
    (h : ¬ RenderFirstSkyPortal.start portals < 0) :
    (RenderFirstSkyPortal.start portals).toNat + 1 ≤ portals.length := by
  unfold RenderFirstSkyPortal.start wrapInt32 at *
  omega

theorem RenderFirstSkyPortal.start_eq (portals : List (Option IPortal))
    (hlen : portals.length ≤ 2147483648) :
    (portals = [] ∧ RenderFirstSkyPortal.start portals < 0) ∨
    (¬ RenderFirstSkyPortal.start portals < 0 ∧
      (RenderFirstSkyPortal.start portals).toNat + 1 = portals.length) := by
  cases portals with
  | nil => left; exact ⟨rfl, by decide⟩
  | cons x xs =>
    right
    unfold RenderFirstSkyPortal.start wrapInt32 at *
    simp only [List.length_cons] at *
    omega

/-- The outcome of the search of `RenderFirstSkyPortal` on a queue without null entries. -/
theorem RenderFirstSkyPortal.found (render : RenderFn) (recursion : Int) (s : Scene)
    (ps : List IPortal) (hq : s.di.Portals = ps.map some) :
    ∃ n0 r, n0 ≤ ps.length ∧ (ps.length ≤ 2147483648 → n0 = ps.length) ∧
      RenderFirstSkyPortal.Best recursion ps 0 n0 r ∧
      RenderFirstSkyPortal render recursion s =
        match r with
        | none => some (false, s, [])
        | some (best, bestindex) =>
          some (true,
            render best false false (s.withPortals ((ps.eraseIdx bestindex).map some)),
            [FrameEvent.RenderPortal best false false, FrameEvent.destroy best]) := by
  have hlenq : s.di.Portals.length = ps.length := by rw [hq]; simp
  by_cases hneg : RenderFirstSkyPortal.start s.di.Portals < 0
  · refine ⟨0, none, Nat.zero_le _, ?_, ?_, ?_⟩
    · intro hlen
      rcases RenderFirstSkyPortal.start_eq s.di.Portals (by rw [hlenq]; exact hlen)
        with ⟨h, _⟩ | ⟨h, _⟩
      · rw [h] at hlenq; simpa using hlenq
      · exact absurd hneg h
    · intro j p _ hj; omega
    · simp [RenderFirstSkyPortal, hneg]
  · have hle := RenderFirstSkyPortal.start_le s.di.Portals hneg
    have hle2 : (RenderFirstSkyPortal.start s.di.Portals).toNat + 1 ≤ ps.length := by
      rw [hlenq] at hle; exact hle
    obtain ⟨r, h1, h2⟩ := RenderFirstSkyPortal.scan_spec recursion ps _ hle2 _ none
      (le_refl _) (by intro j p hj hjn; omega)
    refine ⟨_, r, hle2, ?_, h2, ?_⟩
    · intro hlen
      rcases RenderFirstSkyPortal.start_eq s.di.Portals (by rw [hlenq]; exact hlen)
        with ⟨_, h⟩ | ⟨_, h⟩
      · exact absurd h hneg
      · rw [hlenq] at h; exact h
    · unfold RenderFirstSkyPortal
      simp only [hneg, if_false]
      rw [← hq] at h1
      rw [h1]
      cases r with
      | none => rfl
      | some bb =>
        obtain ⟨b, bi⟩ := bb
        simp only [TArray.Delete]
        rw [hq, eraseIdx_map_some]

@[simp] theorem Scene.call_state (s : Scene) (c : DrawInfoCall) : (s.call c).state = s.state := rfl

@[simp] theorem Scene.call_instack (s : Scene) (c : DrawInfoCall) :
    (s.call c).instack = s.instack := rfl

@[simp] theorem Scene.clip_state (s : Scene) (c : ClipperCall) : (s.clip c).state = s.state := rfl

@[simp] theorem Scene.clip_instack (s : Scene) (c : ClipperCall) :
    (s.clip c).instack = s.instack := rfl

@[simp] theorem Scene.withViewpoint_state (s : Scene) (vp : FRenderViewpoint) :
    (s.withViewpoint vp).state = s.state := rfl

@[simp] theorem Scene.withViewpoint_instack (s : Scene) (vp : FRenderViewpoint) :
    (s.withViewpoint vp).instack = s.instack := rfl

@[simp] theorem Scene.SetupView_state (s : Scene) : s.SetupView.state = s.state := rfl

@[simp] theorem Scene.SetupView_instack (s : Scene) : s.SetupView.instack = s.instack := rfl

@[simp] theorem SetDepthClamp_state (s : Scene) (b : Bool) :
    (SetDepthClamp s b).2.state = s.state := rfl

@[simp] theorem SetDepthClamp_instack (s : Scene) (b : Bool) :
    (SetDepthClamp s b).2.instack = s.instack := rfl

@[simp] theorem ClearClipper_state (q : MapQueries) (o : IPortal) (s : Scene) :
    (ClearClipper q o s).state = s.state := rfl

@[simp] theorem ClearClipper_instack (q : MapQueries) (o : IPortal) (s : Scene) :
    (ClearClipper q o s).instack = s.instack := rfl

theorem foldl_state_instack {α : Type} (f : Scene → α → Scene)
    (hf : ∀ s x, (f s x).state = s.state ∧ (f s x).instack = s.instack) (l : List α)
    (s : Scene) : (l.foldl f s).state = s.state ∧ (l.foldl f s).instack = s.instack := by
  induction l generalizing s with
  | nil => exact ⟨rfl, rfl⟩
  | cons x xs ih =>
    obtain ⟨h1, h2⟩ := ih (f s x)
    obtain ⟨h3, h4⟩ := hf s x
    exact ⟨by simp [h1, h3], by simp [h2, h4]⟩

theorem wrapInt32_isInt32 (x : Int) : IsInt32 (wrapInt32 x) := by
  unfold IsInt32 wrapInt32
  omega

theorem mirror_Setup_fail (q : MapQueries) (p : HWMirrorPortal) (s : Scene)
    (h : s.state.renderdepth > q.r_mirror_recursions) :
    HWMirrorPortal.Setup q p s = (false, p, s) := by
  simp [HWMirrorPortal.Setup, h]

theorem mirror_Setup_ok (q : MapQueries) (p : HWMirrorPortal) (s : Scene)
    (h : ¬ s.state.renderdepth > q.r_mirror_recursions) :
    (HWMirrorPortal.Setup q p s).1 = true ∧ (HWMirrorPortal.Setup q p s).2.1 = p ∧
    (HWMirrorPortal.Setup q p s).2.2.state
      = { s.state with MirrorFlag := wrapInt32 (s.state.MirrorFlag + 1) } ∧
    (HWMirrorPortal.Setup q p s).2.2.instack = s.instack := by
  unfold HWMirrorPortal.Setup
  rw [if_neg h]
  refine ⟨rfl, rfl, ?_, ?_⟩
  · simp only [Scene.clip_state]
    split <;> rfl
  · simp only [Scene.clip_instack]
    split <;> rfl

theorem lineToLine_Setup_fail (q : MapQueries) (p : HWLineToLinePortal) (s : Scene)
    (h : s.state.renderdepth > q.r_mirror_recursions) :
    HWLineToLinePortal.Setup q p s = (false, p, s) := by
  simp [HWLineToLinePortal.Setup, h]

theorem lineToLine_Setup_ok (q : MapQueries) (p : HWLineToLinePortal) (s : Scene)
    (h : ¬ s.state.renderdepth > q.r_mirror_recursions) :
    (HWLineToLinePortal.Setup q p s).1 = true ∧ (HWLineToLinePortal.Setup q p s).2.1 = p ∧
    (HWLineToLinePortal.Setup q p s).2.2.state = s.state ∧
    (HWLineToLinePortal.Setup q p s).2.2.instack = s.instack := by
  unfold HWLineToLinePortal.Setup
  rw [if_neg h]
  refine ⟨rfl, rfl, ?_, ?_⟩
  · simp only [ClearClipper_state, Scene.SetupView_state, Scene.call_state,
      Scene.withViewpoint_state]
    rw [(foldl_state_instack (HWLineToLinePortal.markLine q) (fun _ _ => ⟨rfl, rfl⟩) _ _).1]
    rfl
  · simp only [ClearClipper_instack, Scene.SetupView_instack, Scene.call_instack,
      Scene.withViewpoint_instack]
    rw [(foldl_state_instack (HWLineToLinePortal.markLine q) (fun _ _ => ⟨rfl, rfl⟩) _ _).2]
    rfl

theorem skybox_Setup_fail (q : MapQueries) (p : HWSkyboxPortal) (s : Scene)
    (h : s.state.skyboxrecursion ≥ 3) :
    HWSkyboxPortal.Setup q p s = (false, { p with old_pm := s.state.PlaneMirrorMode }, s) := by
  simp [HWSkyboxPortal.Setup, h]

theorem skybox_Setup_ok (q : MapQueries) (p : HWSkyboxPortal) (s : Scene)
    (h : ¬ s.state.skyboxrecursion ≥ 3) :
    (HWSkyboxPortal.Setup q p s).1 = true ∧
    (HWSkyboxPortal.Setup q p s).2.1.old_pm = s.state.PlaneMirrorMode ∧
    (HWSkyboxPortal.Setup q p s).2.1.oldclamp = s.di.depthClamp ∧
    (HWSkyboxPortal.Setup q p s).2.2.state
      = { s.state with skyboxrecursion := wrapInt32 (s.state.skyboxrecursion + 1)
                       PlaneMirrorMode := 0
                       inskybox := true } ∧
    (HWSkyboxPortal.Setup q p s).2.2.instack = s.instack := by
  unfold HWSkyboxPortal.Setup
  simp only [if_neg h]
  simp
  rfl

theorem planeMirror_Setup_fail (q : MapQueries) (p : HWPlaneMirrorPortal) (s : Scene)
    (h : s.state.renderdepth > q.r_mirror_recursions) :
    HWPlaneMirrorPortal.Setup q p s = (false, p, s) := by
  simp [HWPlaneMirrorPortal.Setup, h]

theorem planeMirror_Setup_ok (q : MapQueries) (p : HWPlaneMirrorPortal) (s : Scene)
    (h : ¬ s.state.renderdepth > q.r_mirror_recursions) :
    (HWPlaneMirrorPortal.Setup q p s).1 = true ∧
    (HWPlaneMirrorPortal.Setup q p s).2.1.old_pm = s.state.PlaneMirrorMode ∧
    (HWPlaneMirrorPortal.Setup q p s).2.2.state
      = { s.state with PlaneMirrorFlag := wrapInt32 (s.state.PlaneMirrorFlag + 1)
                       PlaneMirrorMode := if p.origin.fC < 0 then -1 else 1 } ∧
    (HWPlaneMirrorPortal.Setup q p s).2.2.instack = s.instack.swap := by
  unfold HWPlaneMirrorPortal.Setup
  simp only [if_neg h]
  simp

theorem HWSectorStackPortal.markAll_state (q : MapQueries) (plane : Int)
    (subs : List subsector_t) :
    ∀ (s s1 : Scene), HWSectorStackPortal.markAll q plane subs s = some s1 →
      s1.state = s.state ∧ s1.instack = s.instack := by
  induction subs with
  | nil => intro s s1 h; cases h; exact ⟨rfl, rfl⟩
  | cons sub rest ih =>
    intro s s1 h
    unfold HWSectorStackPortal.markAll at h
    split at h
    · cases h
    · obtain ⟨h1, h2⟩ := ih _ _ h
      obtain ⟨h3, h4⟩ := foldl_state_instack (HWSectorStackPortal.markSeen q)
        (fun _ _ => ⟨rfl, rfl⟩) (by assumption) s
      exact ⟨h1.trans h3, h2.trans h4⟩

theorem HWSectorStackPortal.markAll_some (q : MapQueries) (plane : Int)
    (hplane : plane = 0 ∨ plane = 1) (subs : List subsector_t) :
    ∀ (s : Scene), ∃ s1, HWSectorStackPortal.markAll q plane subs s = some s1 := by
  induction subs with
  | nil => intro s; exact ⟨s, rfl⟩
  | cons sub rest ih =>
    intro s
    unfold HWSectorStackPortal.markAll
    rcases hplane with h | h <;> subst h <;> simp [subsector_t.portalcoverage] <;> exact ih _

theorem HWSectorStackPortal.Setup_spec (q : MapQueries) (p : HWSectorStackPortal) (s : Scene)
    (r : Bool × HWSectorStackPortal × Scene) (h : HWSectorStackPortal.Setup q p s = some r) :
    r.1 = true ∧ r.2.1 = p ∧ r.2.2.state = s.state ∧
    ((p.origin.plane = -1 ∧ r.2.2.instack = s.instack) ∨
      (p.origin.plane ≠ -1 ∧ s.instack.incr p.origin.plane = some r.2.2.instack)) := by
  unfold HWSectorStackPortal.Setup at h
  simp only at h
  split at h
  · cases h
  · rename_i instack1 hstack
    split at h
    · cases h
    · rename_i s3 hcov
      unfold HWSectorStackPortal.SetupCoverage at hcov
      split at hcov
      · cases hcov
      · rename_i s1 hmark
        cases hcov
        obtain ⟨h1, h2⟩ := HWSectorStackPortal.markAll_state q _ _ _ _ hmark
        have hi : instack1 = s1.instack := by rw [h2]; rfl
        have hst : s1.state = s.state := by rw [h1]; rfl
        have hplane : (p.origin.plane = -1 ∧ s1.instack = s.instack) ∨
            (p.origin.plane ≠ -1 ∧ s.instack.incr p.origin.plane = some s1.instack) := by
          by_cases hp : p.origin.plane = -1
          · left
            refine ⟨hp, ?_⟩
            rw [← hi]
            simp [hp] at hstack
            exact hstack.symm
          · right
            refine ⟨hp, ?_⟩
            rw [← hi]
            simpa [hp] using hstack
        split at h <;> cases h <;> exact ⟨rfl, rfl, hst, hplane⟩

theorem Scene.counters_eq_iff (a b : Scene) :
    a.counters = b.counters ↔
      a.state.MirrorFlag = b.state.MirrorFlag ∧ a.state.PlaneMirrorFlag = b.state.PlaneMirrorFlag ∧
      a.state.skyboxrecursion = b.state.skyboxrecursion ∧ a.instack = b.instack := by
  unfold Scene.counters
  constructor
  · intro h
    simp only [Prod.mk.injEq] at h
    obtain ⟨h1, h2, h3, h4, h5⟩ := h
    refine ⟨h1, h2, h3, ?_⟩
    cases ha : a.instack
    cases hb : b.instack
    simp_all
  · rintro ⟨h1, h2, h3, h4⟩
    simp [h1, h2, h3, h4]

theorem Scene.CountersInRange_of_counters (a b : Scene) (h : a.counters = b.counters)
    (hb : b.CountersInRange) : a.CountersInRange := by
  obtain ⟨h1, h2, h3, h4⟩ := (Scene.counters_eq_iff a b).mp h
  unfold Scene.CountersInRange at *
  rw [h1, h2, h3, h4]
  exact hb

theorem InStack.incr_decr (i i1 : InStack) (plane : Int) (hf : IsInt32 i.floor)
    (hc : IsInt32 i.ceiling) (h : i.incr plane = some i1) :
    IsInt32 i1.floor ∧ IsInt32 i1.ceiling ∧ i1.decr plane = some i := by
  unfold InStack.incr at h
  unfold InStack.decr
  split at h
  · rename_i hp
    cases h
    simp only [hp, if_true]
    refine ⟨wrapInt32_isInt32 _, hc, ?_⟩
    rw [wrapInt32_succ_pred _ hf]
  · split at h
    · rename_i hp0 hp
      cases h
      subst hp
      refine ⟨hf, wrapInt32_isInt32 _, ?_⟩
      simp [wrapInt32_succ_pred _ hc]
    · cases h

theorem ScenePortal.Setup_false (q : MapQueries) (p p1 : ScenePortal) (s s1 : Scene)
    (h : p.Setup q s = some (false, p1, s1)) : s1 = s := by
  cases p with
  | mirror m =>
    simp only [ScenePortal.Setup, Option.some.injEq, Prod.mk.injEq] at h
    by_cases hg : s.state.renderdepth > q.r_mirror_recursions
    · rw [mirror_Setup_fail q m s hg] at h; exact h.2.2.symm
    · rw [(mirror_Setup_ok q m s hg).1] at h; cases h.1
  | lineToLine m =>
    simp only [ScenePortal.Setup, Option.some.injEq, Prod.mk.injEq] at h
    by_cases hg : s.state.renderdepth > q.r_mirror_recursions
    · rw [lineToLine_Setup_fail q m s hg] at h; exact h.2.2.symm
    · rw [(lineToLine_Setup_ok q m s hg).1] at h; cases h.1
  | skybox m =>
    simp only [ScenePortal.Setup, Option.some.injEq, Prod.mk.injEq] at h
    by_cases hg : s.state.skyboxrecursion ≥ 3
    · rw [skybox_Setup_fail q m s hg] at h; exact h.2.2.symm
    · rw [(skybox_Setup_ok q m s hg).1] at h; cases h.1
  | sectorStack m =>
    simp only [ScenePortal.Setup] at h
    split at h
    · cases h
    · rename_i r hr
      simp only [Option.some.injEq, Prod.mk.injEq] at h
      rw [(HWSectorStackPortal.Setup_spec q m s r hr).1] at h
      cases h.1
  | planeMirror m =>
    simp only [ScenePortal.Setup, Option.some.injEq, Prod.mk.injEq] at h
    by_cases hg : s.state.renderdepth > q.r_mirror_recursions
    · rw [planeMirror_Setup_fail q m s hg] at h; exact h.2.2.symm
    · rw [(planeMirror_Setup_ok q m s hg).1] at h; cases h.1

theorem ScenePortal.Setup_Shutdown (q : MapQueries) (p p1 : ScenePortal) (s s1 : Scene)
    (hr : s.CountersInRange) (h : p.Setup q s = some (true, p1, s1)) :
    s1.CountersInRange ∧
    ∀ s2 : Scene, s2.counters = s1.counters →
      ∃ s3, p1.Shutdown q s2 = some s3 ∧ s3.counters = s.counters := by
  obtain ⟨r1, r2, r3, r4, r5⟩ := hr
  cases p with
  | mirror m =>
    simp only [ScenePortal.Setup, Option.some.injEq, Prod.mk.injEq] at h
    obtain ⟨h1, h2, h3⟩ := h
    by_cases hg : s.state.renderdepth > q.r_mirror_recursions
    · rw [mirror_Setup_fail q m s hg] at h1; cases h1
    · obtain ⟨_, _, e1, e2⟩ := mirror_Setup_ok q m s hg
      rw [h3] at e1 e2
      subst h2
      refine ⟨⟨?_, ?_, ?_, ?_, ?_⟩, ?_⟩
      · rw [e1]; exact wrapInt32_isInt32 _
      · rw [e1]; exact r2
      · rw [e1]; exact r3
      · rw [e2]; exact r4
      · rw [e2]; exact r5
      · intro s2 hs2
        obtain ⟨c1, c2, c3, c4⟩ := (Scene.counters_eq_iff _ _).mp hs2
        refine ⟨_, rfl, (Scene.counters_eq_iff _ _).mpr ⟨?_, ?_, ?_, ?_⟩⟩
        · simp only [HWMirrorPortal.Shutdown]
          rw [c1, e1]
          exact wrapInt32_succ_pred _ r1
        · simp only [HWMirrorPortal.Shutdown]; rw [c2, e1]
        · simp only [HWMirrorPortal.Shutdown]; rw [c3, e1]
        · simp only [HWMirrorPortal.Shutdown]; rw [c4, e2]
  | lineToLine m =>
    simp only [ScenePortal.Setup, Option.some.injEq, Prod.mk.injEq] at h
    obtain ⟨h1, h2, h3⟩ := h
    by_cases hg : s.state.renderdepth > q.r_mirror_recursions
    · rw [lineToLine_Setup_fail q m s hg] at h1; cases h1
    · obtain ⟨_, _, e1, e2⟩ := lineToLine_Setup_ok q m s hg
      rw [h3] at e1 e2
      subst h2
      refine ⟨⟨?_, ?_, ?_, ?_, ?_⟩, ?_⟩
      · rw [e1]; exact r1
      · rw [e1]; exact r2
      · rw [e1]; exact r3
      · rw [e2]; exact r4
      · rw [e2]; exact r5
      · intro s2 hs2
        obtain ⟨c1, c2, c3, c4⟩ := (Scene.counters_eq_iff _ _).mp hs2
        refine ⟨_, rfl, (Scene.counters_eq_iff _ _).mpr ⟨?_, ?_, ?_, ?_⟩⟩
        · simp only [HWLineToLinePortal.Shutdown]; rw [c1, e1]
        · simp only [HWLineToLinePortal.Shutdown]; rw [c2, e1]
        · simp only [HWLineToLinePortal.Shutdown]; rw [c3, e1]
        · simp only [HWLineToLinePortal.Shutdown]; rw [c4, e2]
  | skybox m =>
    simp only [ScenePortal.Setup, Option.some.injEq, Prod.mk.injEq] at h
    obtain ⟨h1, h2, h3⟩ := h
    by_cases hg : s.state.skyboxrecursion ≥ 3
    · rw [skybox_Setup_fail q m s hg] at h1; cases h1
    · obtain ⟨_, _, _, e1, e2⟩ := skybox_Setup_ok q m s hg
      rw [h3] at e1 e2
      subst h2
      refine ⟨⟨?_, ?_, ?_, ?_, ?_⟩, ?_⟩
      · rw [e1]; exact r1
      · rw [e1]; exact r2
      · rw [e1]; exact wrapInt32_isInt32 _
      · rw [e2]; exact r4
      · rw [e2]; exact r5
      · intro s2 hs2
        obtain ⟨c1, c2, c3, c4⟩ := (Scene.counters_eq_iff _ _).mp hs2
        refine ⟨_, rfl, (Scene.counters_eq_iff _ _).mpr ⟨?_, ?_, ?_, ?_⟩⟩
        · simp only [HWSkyboxPortal.Shutdown, SetDepthClamp]; rw [c1, e1]
        · simp only [HWSkyboxPortal.Shutdown, SetDepthClamp]; rw [c2, e1]
        · simp only [HWSkyboxPortal.Shutdown, SetDepthClamp]
          rw [c3, e1]
          exact wrapInt32_succ_pred _ r3
        · simp only [HWSkyboxPortal.Shutdown, SetDepthClamp]; rw [c4, e2]
  | sectorStack m =>
    simp only [ScenePortal.Setup] at h
    split at h
    · cases h
    · rename_i r hr
      simp only [Option.some.injEq, Prod.mk.injEq] at h
      obtain ⟨_, h2, h3⟩ := h
      obtain ⟨_, e0, e1, e2⟩ := HWSectorStackPortal.Setup_spec q m s r hr
      rw [h3] at e1 e2
      rw [e0] at h2
      subst h2
      rcases e2 with ⟨hp, e2⟩ | ⟨hp, e2⟩
      · refine ⟨⟨?_, ?_, ?_, ?_, ?_⟩, ?_⟩
        · rw [e1]; exact r1
        · rw [e1]; exact r2
        · rw [e1]; exact r3
        · rw [e2]; exact r4
        · rw [e2]; exact r5
        · intro s2 hs2
          obtain ⟨c1, c2, c3, c4⟩ := (Scene.counters_eq_iff _ _).mp hs2
          refine ⟨s2, by simp [ScenePortal.Shutdown, HWSectorStackPortal.Shutdown, hp],
            (Scene.counters_eq_iff _ _).mpr ⟨?_, ?_, ?_, ?_⟩⟩
          · rw [c1, e1]
          · rw [c2, e1]
          · rw [c3, e1]
          · rw [c4, e2]
      · obtain ⟨i1, i2, i3⟩ := InStack.incr_decr _ _ _ r4 r5 e2
        refine ⟨⟨?_, ?_, ?_, i1, i2⟩, ?_⟩
        · rw [e1]; exact r1
        · rw [e1]; exact r2
        · rw [e1]; exact r3
        · intro s2 hs2
          obtain ⟨c1, c2, c3, c4⟩ := (Scene.counters_eq_iff _ _).mp hs2
          refine ⟨{ s2 with instack := s.instack }, ?_,
            (Scene.counters_eq_iff _ _).mpr ⟨?_, ?_, ?_, rfl⟩⟩
          · simp only [ScenePortal.Shutdown, HWSectorStackPortal.Shutdown, hp, ne_eq,
              not_false_eq_true, if_true]
            rw [c4, i3]
          · simp only; rw [c1, e1]
          · simp only; rw [c2, e1]
          · simp only; rw [c3, e1]
  | planeMirror m =>
    simp only [ScenePortal.Setup, Option.some.injEq, Prod.mk.injEq] at h
    obtain ⟨h1, h2, h3⟩ := h
    by_cases hg : s.state.renderdepth > q.r_mirror_recursions
    · rw [planeMirror_Setup_fail q m s hg] at h1; cases h1
    · obtain ⟨_, _, e1, e2⟩ := planeMirror_Setup_ok q m s hg
      rw [h3] at e1 e2
      subst h2
      refine ⟨⟨?_, ?_, ?_, ?_, ?_⟩, ?_⟩
      · rw [e1]; exact r1
      · rw [e1]; exact wrapInt32_isInt32 _
      · rw [e1]; exact r3
      · rw [e2]; exact r5
      · rw [e2]; exact r4
      · intro s2 hs2
        obtain ⟨c1, c2, c3, c4⟩ := (Scene.counters_eq_iff _ _).mp hs2
        refine ⟨_, rfl, (Scene.counters_eq_iff _ _).mpr ⟨?_, ?_, ?_, ?_⟩⟩
        · simp only [HWPlaneMirrorPortal.Shutdown]; rw [c1, e1]
        · simp only [HWPlaneMirrorPortal.Shutdown]
          rw [c2, e1]
          exact wrapInt32_succ_pred _ r2
        · simp only [HWPlaneMirrorPortal.Shutdown]; rw [c3, e1]
        · simp only [HWPlaneMirrorPortal.Shutdown]
          rw [c4, e2]
          rfl

theorem Nest.run_counters (q : MapQueries) (n : Nest) :
    ∀ (s s1 : Scene), s.CountersInRange → n.run q s = some s1 → s1.counters = s.counters := by
  induction n with
  | done => intro s s1 _ h; cases h; rfl
  | context di clipper renderdepth rest ih =>
    intro s s1 hr h
    exact ih (s.withContext di clipper renderdepth) s1 hr h
  | portal p inner rest ihi ihr =>
    intro s s1 hr h
    unfold Nest.run at h
    split at h
    · cases h
    · rename_i p1 sa hset
      rw [ScenePortal.Setup_false q p p1 s sa hset] at h
      exact ihr _ _ hr h
    · rename_i p1 sa hset
      obtain ⟨hra, hsh⟩ := ScenePortal.Setup_Shutdown q p p1 s sa hr hset
      split at h
      · cases h
      · rename_i sb hinner
        obtain ⟨sc, hsc, hcc⟩ := hsh sb (ihi _ _ hra hinner)
        rw [hsc] at h
        simp only at h
        rw [ihr _ _ (Scene.CountersInRange_of_counters _ _ hcc hr) h, hcc]

theorem ScenePortal.Setup_skyboxrecursion (q : MapQueries) (p p1 : ScenePortal) (s s1 : Scene)
    (hlo : 0 ≤ s.state.skyboxrecursion) (hhi : s.state.skyboxrecursion ≤ 3)
    (h : p.Setup q s = some (true, p1, s1)) :
    (0 ≤ s1.state.skyboxrecursion ∧ s1.state.skyboxrecursion ≤ 3) ∧
    ∀ s2 s3 : Scene, s2.state.skyboxrecursion = s1.state.skyboxrecursion →
      p1.Shutdown q s2 = some s3 → s3.state.skyboxrecursion = s.state.skyboxrecursion := by
  cases p with
  | mirror m =>
    simp only [ScenePortal.Setup, Option.some.injEq, Prod.mk.injEq] at h
    obtain ⟨h1, h2, h3⟩ := h
    by_cases hg : s.state.renderdepth > q.r_mirror_recursions
    · rw [mirror_Setup_fail q m s hg] at h1; cases h1
    · obtain ⟨_, _, e1, _⟩ := mirror_Setup_ok q m s hg
      rw [h3] at e1
      subst h2
      refine ⟨by rw [e1]; exact ⟨hlo, hhi⟩, ?_⟩
      intro s2 s3 hs2 hs3
      simp only [ScenePortal.Shutdown, Option.some.injEq] at hs3
      subst hs3
      simp only [HWMirrorPortal.Shutdown]
      rw [hs2, e1]
  | lineToLine m =>
    simp only [ScenePortal.Setup, Option.some.injEq, Prod.mk.injEq] at h
    obtain ⟨h1, h2, h3⟩ := h
    by_cases hg : s.state.renderdepth > q.r_mirror_recursions
    · rw [lineToLine_Setup_fail q m s hg] at h1; cases h1
    · obtain ⟨_, _, e1, _⟩ := lineToLine_Setup_ok q m s hg
      rw [h3] at e1
      subst h2
      refine ⟨by rw [e1]; exact ⟨hlo, hhi⟩, ?_⟩
      intro s2 s3 hs2 hs3
      simp only [ScenePortal.Shutdown, Option.some.injEq] at hs3
      subst hs3
      simp only [HWLineToLinePortal.Shutdown]
      rw [hs2, e1]
  | skybox m =>
    simp only [ScenePortal.Setup, Option.some.injEq, Prod.mk.injEq] at h
    obtain ⟨h1, h2, h3⟩ := h
    by_cases hg : s.state.skyboxrecursion ≥ 3
    · rw [skybox_Setup_fail q m s hg] at h1; cases h1
    · obtain ⟨_, _, _, e1, _⟩ := skybox_Setup_ok q m s hg
      rw [h3] at e1
      subst h2
      have hw : wrapInt32 (s.state.skyboxrecursion + 1) = s.state.skyboxrecursion + 1 := by
        unfold wrapInt32; omega
      refine ⟨by rw [e1]; simp only; rw [hw]; omega, ?_⟩
      intro s2 s3 hs2 hs3
      simp only [ScenePortal.Shutdown, Option.some.injEq] at hs3
      subst hs3
      simp only [HWSkyboxPortal.Shutdown, SetDepthClamp]
      rw [hs2, e1]
      simp only
      rw [hw]
      unfold wrapInt32; omega
  | sectorStack m =>
    simp only [ScenePortal.Setup] at h
    split at h
    · cases h
    · rename_i r hr
      simp only [Option.some.injEq, Prod.mk.injEq] at h
      obtain ⟨_, h2, h3⟩ := h
      obtain ⟨_, _, e1, _⟩ := HWSectorStackPortal.Setup_spec q m s r hr
      rw [h3] at e1
      subst h2
      refine ⟨by rw [e1]; exact ⟨hlo, hhi⟩, ?_⟩
      intro s2 s3 hs2 hs3
      simp only [ScenePortal.Shutdown, HWSectorStackPortal.Shutdown] at hs3
      split at hs3
      · split at hs3
        · cases hs3
        · cases hs3
          simp only
          rw [hs2, e1]
      · cases hs3
        rw [hs2, e1]
  | planeMirror m =>
    simp only [ScenePortal.Setup, Option.some.injEq, Prod.mk.injEq] at h
    obtain ⟨h1, h2, h3⟩ := h
    by_cases hg : s.state.renderdepth > q.r_mirror_recursions
    · rw [planeMirror_Setup_fail q m s hg] at h1; cases h1
    · obtain ⟨_, _, e1, _⟩ := planeMirror_Setup_ok q m s hg
      rw [h3] at e1
      subst h2
      refine ⟨by rw [e1]; exact ⟨hlo, hhi⟩, ?_⟩
      intro s2 s3 hs2 hs3
      simp only [ScenePortal.Shutdown, Option.some.injEq] at hs3
      subst hs3
      simp only [HWPlaneMirrorPortal.Shutdown]
      rw [hs2, e1]

theorem Nest.states_skyboxrecursion (q : MapQueries) (n : Nest) :
    ∀ (s : Scene), 0 ≤ s.state.skyboxrecursion → s.state.skyboxrecursion ≤ 3 →
      (∀ v ∈ n.states q s, 0 ≤ v.state.skyboxrecursion ∧ v.state.skyboxrecursion ≤ 3) ∧
      (∀ s1, n.run q s = some s1 → s1.state.skyboxrecursion = s.state.skyboxrecursion) := by
  induction n with
  | done =>
    intro s hlo hhi
    refine ⟨?_, ?_⟩
    · intro v hv
      simp only [Nest.states, List.mem_singleton] at hv
      subst hv; exact ⟨hlo, hhi⟩
    · intro s1 h; cases h; rfl
  | context di clipper renderdepth rest ih =>
    intro s hlo hhi
    obtain ⟨i1, i2⟩ := ih (s.withContext di clipper renderdepth) hlo hhi
    refine ⟨?_, ?_⟩
    · intro v hv
      simp only [Nest.states, List.mem_cons] at hv
      rcases hv with hv | hv
      · subst hv; exact ⟨hlo, hhi⟩
      · exact i1 v hv
    · intro s1 h
      exact i2 s1 h
  | portal p inner rest ihi ihr =>
    intro s hlo hhi
    cases hset : p.Setup q s with
    | none =>
      refine ⟨?_, ?_⟩
      · intro v hv
        simp only [Nest.states, hset, List.mem_singleton] at hv
        subst hv; exact ⟨hlo, hhi⟩
      · intro s1 h
        simp [Nest.run, hset] at h
    | some r =>
      obtain ⟨ok, p1, sa⟩ := r
      cases ok with
      | false =>
        have hsa := ScenePortal.Setup_false q p p1 s sa hset
        subst hsa
        obtain ⟨i1, i2⟩ := ihr sa hlo hhi
        refine ⟨?_, ?_⟩
        · intro v hv
          simp only [Nest.states, hset, List.mem_cons] at hv
          rcases hv with hv | hv
          · subst hv; exact ⟨hlo, hhi⟩
          · exact i1 v hv
        · intro s1 h
          simp only [Nest.run, hset] at h
          exact i2 s1 h
      | true =>
        obtain ⟨⟨alo, ahi⟩, hsh⟩ := ScenePortal.Setup_skyboxrecursion q p p1 s sa hlo hhi hset
        obtain ⟨i1, i2⟩ := ihi sa alo ahi
        refine ⟨?_, ?_⟩
        · intro v hv
          simp only [Nest.states, hset, List.mem_cons, List.mem_append] at hv
          rcases hv with hv | hv | hv
          · subst hv; exact ⟨hlo, hhi⟩
          · exact i1 v hv
          · cases hin : inner.run q sa with
            | none => simp [hin] at hv
            | some sb =>
              cases hsd : p1.Shutdown q sb with
              | none => simp [hin, hsd] at hv
              | some sc =>
                simp only [hin, hsd] at hv
                have hc := hsh sb sc (i2 sb hin) hsd
                exact (ihr sc (by rw [hc]; exact hlo) (by rw [hc]; exact hhi)).1 v hv
        · intro s1 h
          simp only [Nest.run, hset] at h
          cases hin : inner.run q sa with
          | none => simp [hin] at h
          | some sb =>
            cases hsd : p1.Shutdown q sb with
            | none => simp [hin, hsd] at h
            | some sc =>
              simp only [hin, hsd] at h
              have hc := hsh sb sc (i2 sb hin) hsd
              rw [(ihr sc (by rw [hc]; exact hlo) (by rw [hc]; exact hhi)).2 s1 h, hc]

theorem foldr_or_append (l1 l2 : List Nat) :
    (l1 ++ l2).foldr (fun a b => a ||| b) 0
      = l1.foldr (fun a b => a ||| b) 0 ||| l2.foldr (fun a b => a ||| b) 0 := by
  induction l1 with
  | nil => simp
  | cons x xs ih => simp [List.foldr_cons, ih, Nat.or_assoc]

theorem foldr_or_lt (l : List Nat) (h : ∀ x ∈ l, x < 256) :
    l.foldr (fun a b => a ||| b) 0 < 256 := by
  induction l with
  | nil => simp
  | cons x xs ih =>
    simp only [List.foldr_cons]
    exact Nat.or_lt_two_pow (n := 8) (h x (List.mem_cons_self _ _))
      (ih (fun y hy => h y (List.mem_cons_of_mem _ hy)))

theorem or_eq_zero_iff_both (a b : Nat) : a ||| b = 0 ↔ a = 0 ∧ b = 0 := by
  constructor
  · intro h
    refine ⟨Nat.eq_of_testBit_eq fun i => ?_, Nat.eq_of_testBit_eq fun i => ?_⟩
    · have := congrArg (fun n => n.testBit i) h
      simp only [Nat.testBit_or, Nat.zero_testBit, Bool.or_eq_false_iff] at this
      simp [this.1]
    · have := congrArg (fun n => n.testBit i) h
      simp only [Nat.testBit_or, Nat.zero_testBit, Bool.or_eq_false_iff] at this
      simp [this.2]
  · rintro ⟨rfl, rfl⟩; rfl

theorem foldr_or_eq_zero (l : List Nat) :
    l.foldr (fun a b => a ||| b) 0 = 0 ↔ ∀ x ∈ l, x = 0 := by
  induction l with
  | nil => simp
  | cons x xs ih =>
    simp only [List.foldr_cons, or_eq_zero_iff_both, ih, List.mem_cons, forall_eq_or_imp]

theorem BSPNode.seenUnion_node (q : MapQueries) (ss : Nat → Nat) (index : Nat)
    (a b : BSPNode) :
    (BSPNode.node index a b).seenUnion q ss = a.seenUnion q ss ||| b.seenUnion q ss := by
  unfold BSPNode.seenUnion
  rw [BSPNode.leaves, List.map_append, foldr_or_append]

theorem BSPNode.seenUnion_lt (q : MapQueries) (ss : Nat → Nat) (hss : ∀ i, ss i < 256)
    (t : BSPNode) : t.seenUnion q ss < 256 := by
  apply foldr_or_lt
  intro x hx
  obtain ⟨i, _, rfl⟩ := List.mem_map.mp hx
  exact Nat.lt_of_le_of_lt Nat.and_le_left (hss i)

theorem BSPNode.seenUnion_ne_zero (q : MapQueries) (ss : Nat → Nat) (t : BSPNode) :
    t.seenUnion q ss ≠ 0 ↔ ∃ i ∈ t.leaves, ss i &&& q.SSRF_SEEN ≠ 0 := by
  unfold BSPNode.seenUnion
  rw [Ne, foldr_or_eq_zero]
  simp

theorem SetCoverage_spec (q : MapQueries) (hn : q.level.nodesSize ≠ 0) (t : BSPNode) :
    ∀ di : HWDrawInfo, (∀ i, di.ss_renderflags i < 256) → (t.nodes.map Prod.fst).Nodup →
      ∃ g : Nat → Nat,
        SetCoverage q t di = (t.seenUnion q di.ss_renderflags, { di with no_renderflags := g }) ∧
        (∀ j, j ∉ t.nodes.map Prod.fst → g j = di.no_renderflags j) ∧
        (∀ e ∈ t.nodes, g e.1 = e.2.seenUnion q di.ss_renderflags) := by
  induction t with
  | subsector index =>
    intro di hss _
    refine ⟨di.no_renderflags, ?_, fun _ _ => rfl, ?_⟩
    · have hlt : di.ss_renderflags index &&& q.SSRF_SEEN < 256 :=
        Nat.lt_of_le_of_lt Nat.and_le_left (hss index)
      simp [SetCoverage, hn, BSPNode.seenUnion, BSPNode.leaves, Nat.mod_eq_of_lt hlt]
    · intro e he
      simp [BSPNode.nodes] at he
  | node index a b iha ihb =>
    intro di hss hnd
    simp only [BSPNode.nodes, List.map_cons, List.map_append, List.nodup_cons,
      List.mem_append, not_or, List.nodup_append] at hnd
    obtain ⟨⟨hia, hib⟩, hnda, hndb, hdisj⟩ := hnd
    obtain ⟨g0, h0, h0out, h0in⟩ := iha di hss hnda
    obtain ⟨g1, h1, h1out, h1in⟩ := ihb { di with no_renderflags := g0 } hss hndb
    have hcov : (a.seenUnion q di.ss_renderflags ||| b.seenUnion q di.ss_renderflags) % 256
        = (BSPNode.node index a b).seenUnion q di.ss_renderflags := by
      rw [BSPNode.seenUnion_node]
      exact Nat.mod_eq_of_lt (Nat.or_lt_two_pow (n := 8) (BSPNode.seenUnion_lt q _ hss a)
        (BSPNode.seenUnion_lt q _ hss b))
    refine ⟨Function.update g1 index ((BSPNode.node index a b).seenUnion q di.ss_renderflags),
      ?_, ?_, ?_⟩
    · simp only [SetCoverage, hn, if_false, h0, h1, hcov]
    · intro j hj
      simp only [BSPNode.nodes, List.map_cons, List.map_append, List.mem_cons,
        List.mem_append, not_or] at hj
      obtain ⟨hji, hja, hjb⟩ := hj
      rw [Function.update_noteq hji, h1out j hjb]
      exact h0out j hja
    · intro e he
      simp only [BSPNode.nodes, List.mem_cons, List.mem_append] at he
      rcases he with he | he | he
      · subst he
        simp
      · have hea : e.1 ∈ a.nodes.map Prod.fst := List.mem_map_of_mem _ he
        have hne : e.1 ≠ index := fun h => hia (h ▸ hea)
        rw [Function.update_noteq hne, h1out e.1 (fun hb => hdisj hea hb)]
        exact h0in e he
      · have heb : e.1 ∈ b.nodes.map Prod.fst := List.mem_map_of_mem _ he
        have hne : e.1 ≠ index := fun h => hib (h ▸ heb)
        rw [Function.update_noteq hne]
        exact h1in e he

theorem BSPNode.leaves_of_mem_nodes (t : BSPNode) :
    ∀ e ∈ t.nodes, ∀ i ∈ e.2.leaves, i ∈ t.leaves := by
  induction t with
  | subsector index => intro e he; simp [BSPNode.nodes] at he
  | node index a b iha ihb =>
    intro e he i hi
    simp only [BSPNode.nodes, List.mem_cons, List.mem_append] at he
    rcases he with he | he | he
    · subst he; exact hi
    · simp only [BSPNode.leaves, List.mem_append]
      exact Or.inl (iha e he i hi)
    · simp only [BSPNode.leaves, List.mem_append]
      exact Or.inr (ihb e he i hi)

theorem planeMirror_Setup_viewpoint (q : MapQueries) (p : HWPlaneMirrorPortal) (s : Scene)
    (h : ¬ s.state.renderdepth > q.r_mirror_recursions) :
    (HWPlaneMirrorPortal.Setup q p s).2.2.di.Viewpoint
      = { s.di.Viewpoint with
          showviewer := true
          Pos := { s.di.Viewpoint.Pos with
            Z := 2 * q.ZatPoint p.origin s.di.Viewpoint.Pos.XY - s.di.Viewpoint.Pos.Z }
          ViewActor := none } := by
  unfold HWPlaneMirrorPortal.Setup
  simp only [if_neg h]
  rfl

theorem reflect_general (q : MapQueries) (l : line_t) (renderdepth : Int) (P : DVector3)
    (hx : l.Delta.X ≠ 0) (hy : l.Delta.Y ≠ 0) :
    HWMirrorPortal.reflect q l renderdepth P
      = { HWMirrorPortal.reflectLine l P with
          X := (HWMirrorPortal.reflectLine l P).X
            + (q.MakeUnit (-(l.v2.fX - l.v1.fX), l.v2.fY - l.v1.fY)).2 * (renderdepth : ℚ) / 2
          Y := (HWMirrorPortal.reflectLine l P).Y
            + (q.MakeUnit (-(l.v2.fX - l.v1.fX), l.v2.fY - l.v1.fY)).1 * (renderdepth : ℚ) / 2 } := by
  simp [HWMirrorPortal.reflect, HWMirrorPortal.reflectLine, hx, hy]

theorem reflect_vertical (q : MapQueries) (l : line_t) (renderdepth : Int) (P : DVector3)
    (hx : l.Delta.X = 0) :
    HWMirrorPortal.reflect q l renderdepth P
      = { P with X := 2 * l.v1.fX - P.X + (if P.X < l.v1.fX then -(1 / 10) else 1 / 10) } := by
  unfold HWMirrorPortal.reflect
  simp only [hx, if_true]
  split <;> simp [sub_eq_add_neg]

theorem reflect_horizontal (q : MapQueries) (l : line_t) (renderdepth : Int) (P : DVector3)
    (hx : l.Delta.X ≠ 0) (hy : l.Delta.Y = 0) :
    HWMirrorPortal.reflect q l renderdepth P
      = { P with Y := 2 * l.v1.fY - P.Y + (if P.Y < l.v1.fY then -(1 / 10) else 1 / 10) } := by
  unfold HWMirrorPortal.reflect
  simp only [hx, hy, if_true, if_false]
  split <;> simp [sub_eq_add_neg]

theorem skybox_Setup_viewpoint (q : MapQueries) (p : HWSkyboxPortal) (s : Scene)
    (h : ¬ s.state.skyboxrecursion ≥ 3) :
    (HWSkyboxPortal.Setup q p s).2.2.di.Viewpoint.Pos
      = { q.InterpolatedPosition p.portal.mSkybox s.di.Viewpoint.TicFrac with
          Z := HWSkyboxPortal.clampZ
            (q.ZatPoint p.portal.mSkybox.floorplane p.portal.mSkybox.Pos.XY)
            (q.ZatPoint p.portal.mSkybox.ceilingplane p.portal.mSkybox.Pos.XY)
            (q.InterpolatedPosition p.portal.mSkybox s.di.Viewpoint.TicFrac).Z } := by
  unfold HWSkyboxPortal.Setup
  simp only [if_neg h]
  rfl

theorem skybox_Setup_depthClamp (q : MapQueries) (p : HWSkyboxPortal) (s : Scene)
    (h : ¬ s.state.skyboxrecursion ≥ 3) :
    (HWSkyboxPortal.Setup q p s).2.2.di.depthClamp = false := by
  unfold HWSkyboxPortal.Setup
  simp only [if_neg h]
  rfl

theorem clampZ_bounds (floorh ceilh Z : ℚ) :
    HWSkyboxPortal.clampZ floorh ceilh Z ≤ ceilh - 4 ∧
    (floorh + 4 ≤ ceilh - 4 → floorh + 4 ≤ HWSkyboxPortal.clampZ floorh ceilh Z) := by
  unfold HWSkyboxPortal.clampZ
  simp only
  constructor
  · split_ifs <;> linarith
  · intro hroom
    split_ifs <;> linarith

theorem mirror_Setup_viewpoint (q : MapQueries) (p : HWMirrorPortal) (s : Scene)
    (h : ¬ s.state.renderdepth > q.r_mirror_recursions) :
    (HWMirrorPortal.Setup q p s).2.2.di.Viewpoint.Pos
      = HWMirrorPortal.reflect q p.linedef s.state.renderdepth s.di.Viewpoint.Pos := by
  unfold HWMirrorPortal.Setup
  rw [if_neg h]
  simp only
  split <;> rfl

theorem foldl_markLine_viewpoint (q : MapQueries) (l : List GLWall) (s : Scene) :
    (l.foldl (HWLineToLinePortal.markLine q) s).di.Viewpoint = s.di.Viewpoint := by
  induction l generalizing s with
  | nil => rfl
  | cons x xs ih => rw [List.foldl_cons, ih]; rfl

theorem lineToLine_Setup_camera (q : MapQueries) (p : HWLineToLinePortal) (s : Scene)
    (h : ¬ s.state.renderdepth > q.r_mirror_recursions) :
    (HWLineToLinePortal.Setup q p s).2.2.di.Viewpoint.camera
      = HWLineToLinePortal.flagCamera q p.mDestination
          (HWLineToLinePortal.translated q p.mOrigin s.di.Viewpoint) := by
  unfold HWLineToLinePortal.Setup
  rw [if_neg h]
  simp only [ClearClipper, Scene.SetupView, Scene.call, Scene.withViewpoint]
  rw [foldl_markLine_viewpoint]
  rfl

theorem log_two_eq (r : ℚ) (e : ℤ) (hlo : (2 : ℚ) ^ e ≤ r) (hhi : r < (2 : ℚ) ^ (e + 1)) :
    Int.log 2 r = e := by
  have hr : 0 < r := lt_of_lt_of_le (zpow_pos (by norm_num) e) hlo
  have h1 : e ≤ Int.log 2 r :=
    (Int.zpow_le_iff_le_log (by norm_num) hr).mp (by exact_mod_cast hlo)
  have h2 : Int.log 2 r < e + 1 :=
    (Int.lt_zpow_iff_log_lt (by norm_num) hr).mp (by exact_mod_cast hhi)
  omega

theorem roundToDouble_eq (x : ℚ) (e : ℤ) (he : -1022 ≤ e) (hlo : (2 : ℚ) ^ e ≤ |x|)
    (hhi : |x| < (2 : ℚ) ^ (e + 1)) :
    roundToDouble x
      = if |(roundHalfEven (x / 2 ^ (e - 52)) : ℚ) * 2 ^ (e - 52)| < 2 ^ (1024 : ℤ)
        then some ((roundHalfEven (x / 2 ^ (e - 52)) : ℚ) * 2 ^ (e - 52)) else none := by
  have hx : x ≠ 0 := by
    intro h
    rw [h, abs_zero] at hlo
    exact absurd hlo (not_le.mpr (zpow_pos (by norm_num) e))
  unfold roundToDouble
  rw [if_neg hx, log_two_eq |x| e hlo hhi, max_eq_left he]

theorem roundToDouble_minus_ten : roundToDouble (2 * (-5)) = some (-10) := by
  rw [roundToDouble_eq _ 3 (by norm_num) (by norm_num [abs_of_neg]) (by norm_num [abs_of_neg])]
  norm_num [roundHalfEven, abs_of_neg]

theorem reflectedZ_exact (planez Z : ℚ) (h1 : roundToDouble (2 * planez) = some (2 * planez))
    (h2 : roundToDouble (2 * planez - Z) = some (2 * planez - Z)) :
    HWPlaneMirrorPortal.reflectedZ planez Z = some (2 * planez - Z) := by
  unfold HWPlaneMirrorPortal.reflectedZ
  rw [h1]
  exact h2

theorem skybox_shutdown_effect (q : MapQueries) (p : HWSkyboxPortal) (s : Scene)
    (hdepth : ¬ s.state.skyboxrecursion ≥ 3) (hint : IsInt32 s.state.skyboxrecursion) :
    (HWSkyboxPortal.Setup q p s).1 = true ∧
    (HWSkyboxPortal.Shutdown q (HWSkyboxPortal.Setup q p s).2.1
        (HWSkyboxPortal.Setup q p s).2.2).2.di.depthClamp = s.di.depthClamp ∧
    (HWSkyboxPortal.Shutdown q (HWSkyboxPortal.Setup q p s).2.1
        (HWSkyboxPortal.Setup q p s).2.2).2.state.skyboxrecursion = s.state.skyboxrecursion ∧
    (HWSkyboxPortal.Shutdown q (HWSkyboxPortal.Setup q p s).2.1
        (HWSkyboxPortal.Setup q p s).2.2).2.state.PlaneMirrorMode = s.state.PlaneMirrorMode ∧
    (HWSkyboxPortal.Shutdown q (HWSkyboxPortal.Setup q p s).2.1
        (HWSkyboxPortal.Setup q p s).2.2).2.state.inskybox = false := by
  obtain ⟨hok, hpm, hclamp, hstate, _⟩ := skybox_Setup_ok q p s hdepth
  refine ⟨hok, ?_, ?_, ?_, rfl⟩
  · simp only [HWSkyboxPortal.Shutdown, SetDepthClamp]
    exact hclamp
  · simp only [HWSkyboxPortal.Shutdown, SetDepthClamp]
    rw [hstate]
    exact wrapInt32_succ_pred _ hint
  · simp only [HWSkyboxPortal.Shutdown, SetDepthClamp]
    exact hpm

/-! ## Theorems -/

/-- C1: when every `RenderPortal` call leaves `renderdepth` as it found it, `StartFrame`
followed by `EndFrame` restores `renderdepth`, whatever the queue holds: every run of
`EndFrame` that returns ends with the value from before `StartFrame`, and `EndFrame` does
return when `RenderPortal` leaves the queue of the context alone. -/
theorem renderdepth_restored_by_frame (render : RenderFn) (s : Scene)
    (hdepth : KeepsRenderdepth render) (hint : IsInt32 s.state.renderdepth) :
    (∀ fuel r, EndFrame render fuel (StartFrame s) = some r →
        r.1.state.renderdepth = s.state.renderdepth) ∧
    (KeepsPortals render → ∀ fuel, s.di.Portals.length < fuel →
      ∃ r, EndFrame render fuel (StartFrame s) = some r ∧
        r.1.state.renderdepth = s.state.renderdepth) := by
  have key : ∀ fuel r, EndFrame render fuel (StartFrame s) = some r →
      r.1.state.renderdepth = s.state.renderdepth := by
    intro fuel r h
    rw [EndFrame_renderdepth render hdepth fuel _ r h, StartFrame_renderdepth,
      wrapInt32_succ_pred _ hint]
  refine ⟨key, ?_⟩
  intro hk fuel hf
  obtain ⟨base, above, hq, hb⟩ := queue_split s.di.Portals
  have hlen : above.length < fuel := by
    have : s.di.Portals.length = base.length + above.length := by
      rw [hq]; simp
    omega
  obtain ⟨s1, h1, _⟩ := EndFrame.drain render hk (StartFrame s) base above hb
    (by rw [StartFrame_Portals]; exact hq) fuel hlen
  exact ⟨_, h1, key _ _ h1⟩

/-- Witness of C1: a frame at depth 2 over the queue `[A, null, B]`. -/
theorem renderdepth_restored_by_frame_witness :
    (∀ fuel r, EndFrame Sample.render fuel
        (StartFrame (Sample.scene 2 0
          [some (Sample.portal 1 1 false true), none, some (Sample.portal 2 0 false true)]))
          = some r → r.1.state.renderdepth = 2) ∧
    (∃ r, EndFrame Sample.render 4
        (StartFrame (Sample.scene 2 0
          [some (Sample.portal 1 1 false true), none, some (Sample.portal 2 0 false true)]))
          = some r ∧ r.1.state.renderdepth = 2) :=
  ⟨(renderdepth_restored_by_frame Sample.render
      (Sample.scene 2 0
        [some (Sample.portal 1 1 false true), none, some (Sample.portal 2 0 false true)])
      (fun _ _ _ _ => rfl) (by decide)).1,
    (renderdepth_restored_by_frame Sample.render
      (Sample.scene 2 0
        [some (Sample.portal 1 1 false true), none, some (Sample.portal 2 0 false true)])
      (fun _ _ _ _ => rfl) (by decide)).2 (fun _ _ _ _ => rfl) 4 (by decide)⟩

/-- C2: for a scene portal `p` of any of the five kinds whose `Setup` returns true, and any
well nested sequence `inner` of `Setup`/`Shutdown` calls of other portals run in between,
the matching `Shutdown` returns and leaves `MirrorFlag`, `PlaneMirrorFlag`,
`skyboxrecursion`, `instack[floor]` and `instack[ceiling]` at their values from before the
`Setup` (the counters being C `int` values). -/
theorem counters_restored_by_shutdown (q : MapQueries) (p p1 : ScenePortal) (inner : Nest)
    (s s1 s2 : Scene) (hr : s.CountersInRange)
    (hsetup : p.Setup q s = some (true, p1, s1)) (hinner : inner.run q s1 = some s2) :
    ∃ s3, p1.Shutdown q s2 = some s3 ∧
      s3.state.MirrorFlag = s.state.MirrorFlag ∧
      s3.state.PlaneMirrorFlag = s.state.PlaneMirrorFlag ∧
      s3.state.skyboxrecursion = s.state.skyboxrecursion ∧
      s3.instack.floor = s.instack.floor ∧
      s3.instack.ceiling = s.instack.ceiling := by
  obtain ⟨hr1, hsh⟩ := ScenePortal.Setup_Shutdown q p p1 s s1 hr hsetup
  obtain ⟨s3, h3, hc⟩ := hsh s2 (Nest.run_counters q inner s1 s2 hr1 hinner)
  obtain ⟨c1, c2, c3, c4⟩ := (Scene.counters_eq_iff _ _).mp hc
  exact ⟨s3, h3, c1, c2, c3, by rw [c4], by rw [c4]⟩

/-- Witness of C2: a plane mirror set up while a floor stack is open, with a sector stack, a
mirror and a skybox rendered inside it. -/
theorem counters_restored_by_shutdown_witness :
    ∃ s3, (ScenePortal.planeMirror
          (HWPlaneMirrorPortal.Setup Sample.queries Sample.planeMirror Sample.stacked).2.1).Shutdown
        Sample.queries
        ((Sample.nest.run Sample.queries
          (HWPlaneMirrorPortal.Setup Sample.queries Sample.planeMirror Sample.stacked).2.2).getD
            Sample.stacked) = some s3 ∧
      s3.state.MirrorFlag = 0 ∧ s3.state.PlaneMirrorFlag = 0 ∧ s3.state.skyboxrecursion = 0 ∧
      s3.instack.floor = 1 ∧ s3.instack.ceiling = 0 :=
  counters_restored_by_shutdown Sample.queries (ScenePortal.planeMirror Sample.planeMirror)
    _ Sample.nest Sample.stacked _ _ (by decide) rfl rfl

/-- C3: starting from `skyboxrecursion = 0`, every scene that a well nested sequence of
portal `Setup` and `Shutdown` calls passes through has `skyboxrecursion` at most 3 (and at
least 0). -/
theorem skyboxrecursion_at_most_three (q : MapQueries) (n : Nest) (s : Scene)
    (h0 : s.state.skyboxrecursion = 0) :
    ∀ v ∈ n.states q s, 0 ≤ v.state.skyboxrecursion ∧ v.state.skyboxrecursion ≤ 3 :=
  (Nest.states_skyboxrecursion q n s (by omega) (by omega)).1

/-- Witness of C3: skyboxes nested in each other; the fourth is refused, so the fifth inside it is never set up. -/
theorem skyboxrecursion_at_most_three_witness :
    (∀ v ∈ Sample.skyboxes.states Sample.queries (Sample.scene 1 0 []),
      0 ≤ v.state.skyboxrecursion ∧ v.state.skyboxrecursion ≤ 3) ∧
    (Sample.skyboxes.states Sample.queries (Sample.scene 1 0 [])).map
        (fun v => v.state.skyboxrecursion) = [0, 1, 2, 3, 3, 2, 1, 0] :=
  ⟨skyboxrecursion_at_most_three Sample.queries Sample.skyboxes (Sample.scene 1 0 []) rfl,
    by decide⟩

/-- C4, as stated, fails: the refused `Setup` has already stored the current
`PlaneMirrorMode` in the portal's `old_pm`, here replacing 0 by 1. -/
theorem fourth_skybox_counterexample :
    (HWSkyboxPortal.Setup Sample.queries Sample.skybox (Sample.scene 1 3 [])).1 = false ∧
    (HWSkyboxPortal.Setup Sample.queries Sample.skybox (Sample.scene 1 3 [])).2.1.old_pm = 1 ∧
    Sample.skybox.old_pm = 0 := by
  decide

/-- C4, amended: when `skyboxrecursion >= 3`, `HWSkyboxPortal::Setup` returns false and
leaves the scene (the portal scene state, `instack`, the render context with its viewpoint,
the clipper), the sector portal with its flags and the saved `oldclamp` exactly as before the
call; of the portal's own fields only `old_pm` is written, with the current
`PlaneMirrorMode`. -/
theorem fourth_skybox_refused (q : MapQueries) (p : HWSkyboxPortal) (s : Scene)
    (h : s.state.skyboxrecursion ≥ 3) :
    (HWSkyboxPortal.Setup q p s).1 = false ∧
    (HWSkyboxPortal.Setup q p s).2.2 = s ∧
    (HWSkyboxPortal.Setup q p s).2.1.portal = p.portal ∧
    (HWSkyboxPortal.Setup q p s).2.1.oldclamp = p.oldclamp ∧
    (HWSkyboxPortal.Setup q p s).2.1.mOwner = p.mOwner ∧
    (HWSkyboxPortal.Setup q p s).2.1.old_pm = s.state.PlaneMirrorMode := by
  rw [skybox_Setup_fail q p s h]
  exact ⟨rfl, rfl, rfl, rfl, rfl, rfl⟩

/-- Witness of C4: a skybox met at nesting depth 3. -/
theorem fourth_skybox_refused_witness :
    (HWSkyboxPortal.Setup Sample.queries Sample.skybox (Sample.scene 1 3 [])).1 = false ∧
    (HWSkyboxPortal.Setup Sample.queries Sample.skybox (Sample.scene 1 3 [])).2.2
      = Sample.scene 1 3 [] ∧
    (HWSkyboxPortal.Setup Sample.queries Sample.skybox (Sample.scene 1 3 [])).2.1.portal
      = Sample.skybox.portal ∧
    (HWSkyboxPortal.Setup Sample.queries Sample.skybox (Sample.scene 1 3 [])).2.1.oldclamp
      = Sample.skybox.oldclamp ∧
    (HWSkyboxPortal.Setup Sample.queries Sample.skybox (Sample.scene 1 3 [])).2.1.mOwner
      = Sample.skybox.mOwner ∧
    (HWSkyboxPortal.Setup Sample.queries Sample.skybox (Sample.scene 1 3 [])).2.1.old_pm
      = (Sample.scene 1 3 []).state.PlaneMirrorMode :=
  fourth_skybox_refused Sample.queries Sample.skybox (Sample.scene 1 3 []) (by decide)

/-- C5: the `Setup` of a mirror, of a line to line portal and of a plane mirror returns false
if and only if `renderdepth > r_mirror_recursions`, and then returns the portal and the whole
scene (the portal scene state, `instack`, the render context with its viewpoint) unchanged;
the `Setup` of a sector stack never returns false, and returns true whenever its plane is
the floor or the ceiling. -/
theorem recursion_limit_only_failure (q : MapQueries) (s : Scene) :
    (∀ p : HWMirrorPortal,
      ((HWMirrorPortal.Setup q p s).1 = false ↔ s.state.renderdepth > q.r_mirror_recursions) ∧
      ((HWMirrorPortal.Setup q p s).1 = false → HWMirrorPortal.Setup q p s = (false, p, s))) ∧
    (∀ p : HWLineToLinePortal,
      ((HWLineToLinePortal.Setup q p s).1 = false
        ↔ s.state.renderdepth > q.r_mirror_recursions) ∧
      ((HWLineToLinePortal.Setup q p s).1 = false →
        HWLineToLinePortal.Setup q p s = (false, p, s))) ∧
    (∀ p : HWPlaneMirrorPortal,
      ((HWPlaneMirrorPortal.Setup q p s).1 = false
        ↔ s.state.renderdepth > q.r_mirror_recursions) ∧
      ((HWPlaneMirrorPortal.Setup q p s).1 = false →
        HWPlaneMirrorPortal.Setup q p s = (false, p, s))) ∧
    (∀ p : HWSectorStackPortal,
      (∀ r, HWSectorStackPortal.Setup q p s = some r → r.1 = true) ∧
      (p.origin.plane = 0 ∨ p.origin.plane = 1 →
        ∃ r, HWSectorStackPortal.Setup q p s = some r ∧ r.1 = true)) := by
  refine ⟨?_, ?_, ?_, ?_⟩
  · intro p
    by_cases hg : s.state.renderdepth > q.r_mirror_recursions
    · have h := mirror_Setup_fail q p s hg
      exact ⟨⟨fun _ => hg, fun _ => congrArg Prod.fst h⟩, fun _ => h⟩
    · have h := (mirror_Setup_ok q p s hg).1
      have hne : ¬ _ = false := fun hf => Bool.noConfusion (h.symm.trans hf)
      exact ⟨⟨fun hf => absurd hf hne, fun hf => absurd hf hg⟩, fun hf => absurd hf hne⟩
  · intro p
    by_cases hg : s.state.renderdepth > q.r_mirror_recursions
    · have h := lineToLine_Setup_fail q p s hg
      exact ⟨⟨fun _ => hg, fun _ => congrArg Prod.fst h⟩, fun _ => h⟩
    · have h := (lineToLine_Setup_ok q p s hg).1
      have hne : ¬ _ = false := fun hf => Bool.noConfusion (h.symm.trans hf)
      exact ⟨⟨fun hf => absurd hf hne, fun hf => absurd hf hg⟩, fun hf => absurd hf hne⟩
  · intro p
    by_cases hg : s.state.renderdepth > q.r_mirror_recursions
    · have h := planeMirror_Setup_fail q p s hg
      exact ⟨⟨fun _ => hg, fun _ => congrArg Prod.fst h⟩, fun _ => h⟩
    · have h := (planeMirror_Setup_ok q p s hg).1
      have hne : ¬ _ = false := fun hf => Bool.noConfusion (h.symm.trans hf)
      exact ⟨⟨fun hf => absurd hf hne, fun hf => absurd hf hg⟩, fun hf => absurd hf hne⟩
  · intro p
    have hall : ∀ r, HWSectorStackPortal.Setup q p s = some r → r.1 = true :=
      fun r hr => (HWSectorStackPortal.Setup_spec q p s r hr).1
    refine ⟨hall, ?_⟩
    intro hplane
    cases hs : HWSectorStackPortal.Setup q p s with
    | some r => exact ⟨r, rfl, hall r hs⟩
    | none =>
      exfalso
      unfold HWSectorStackPortal.Setup at hs
      simp only at hs
      have hincr : ∃ i1, (if p.origin.plane ≠ -1 then s.instack.incr p.origin.plane
          else some s.instack) = some i1 := by
        rcases hplane with h | h <;> simp [h, InStack.incr]
      obtain ⟨i1, hi1⟩ := hincr
      simp only [Scene.withViewpoint_instack] at hs
      rw [hi1] at hs
      simp only at hs
      split at hs
      · rename_i hcov
        unfold HWSectorStackPortal.SetupCoverage at hcov
        obtain ⟨sm, hsm⟩ := HWSectorStackPortal.markAll_some q p.origin.plane hplane
          p.subsectors
          (Scene.SetupView { s.withViewpoint _ with instack := i1 })
        rw [hsm] at hcov
        cases hcov
      · split at hs <;> cases hs

/-- Witness of C5: at depth 5, above the limit of 4 mirror recursions, the mirror, the line
to line portal and the plane mirror are refused, while a floor sector stack is still set
up. -/
theorem recursion_limit_only_failure_witness :
    (HWMirrorPortal.Setup Sample.queries Sample.mirror (Sample.scene 5 0 [])).1 = false ∧
    (HWPlaneMirrorPortal.Setup Sample.queries Sample.planeMirror (Sample.scene 5 0 [])).1
      = false ∧
    (HWPlaneMirrorPortal.Setup Sample.queries Sample.planeMirror (Sample.scene 4 0 [])).1
      ≠ false ∧
    ∃ r, HWSectorStackPortal.Setup Sample.queries (Sample.sectorStack 0) (Sample.scene 5 0 [])
      = some r ∧ r.1 = true :=
  ⟨((recursion_limit_only_failure Sample.queries (Sample.scene 5 0 [])).1 Sample.mirror).1.2
      (by decide),
    ((recursion_limit_only_failure Sample.queries
      (Sample.scene 5 0 [])).2.2.1 Sample.planeMirror).1.2 (by decide),
    fun h => absurd (((recursion_limit_only_failure Sample.queries
      (Sample.scene 4 0 [])).2.2.1 Sample.planeMirror).1.1 h) (by decide),
    ((recursion_limit_only_failure Sample.queries
      (Sample.scene 5 0 [])).2.2.2 (Sample.sectorStack 0)).2 (Or.inl rfl)⟩

/-- C6, as stated, fails: with N = 5 portals and an outer depth D = 2 the rule `N > 2 + D`
gives true, but `EndFrame` computes the flag from the depth that `StartFrame` has already
raised to 3 and passes false. -/
theorem usequery_counterexample :
    EndFrame.usequery (StartFrame (Sample.scene 2 0
        (List.replicate 5 (some (Sample.portal 1 1 false true))))) = false ∧
      (2 : Int) + (Sample.scene 2 0
          (List.replicate 5 (some (Sample.portal 1 1 false true)))).state.renderdepth
        < ((Sample.scene 2 0
          (List.replicate 5 (some (Sample.portal 1 1 false true)))).di.Portals.length : Int) := by
  decide

/-- C6, amended: for a queue of N portals and a depth D (with `0 ≤ D` and `D + 1` still an
`int`) before the matching `StartFrame`, the flag `usequery` of `EndFrame`, which is the
`doquery` argument of every `RenderPortal` call it makes, is true if and only if
`N > 3 + D`, that is `N > 2 + renderdepth` for the depth `D + 1` that `EndFrame` sees. -/
theorem usequery_iff (s : Scene) (h0 : 0 ≤ s.state.renderdepth)
    (h1 : s.state.renderdepth < 2147483647) :
    (EndFrame.usequery (StartFrame s) = true
      ↔ s.state.renderdepth + 3 < (s.di.Portals.length : Int)) ∧
    ∀ (render : RenderFn) (fuel : Nat) (r : Scene × List FrameEvent),
      EndFrame render fuel (StartFrame s) = some r →
      ∀ p a b, FrameEvent.RenderPortal p a b ∈ r.2 →
        (b = true ↔ s.state.renderdepth + 3 < (s.di.Portals.length : Int)) := by
  have key : EndFrame.usequery (StartFrame s) = true
      ↔ s.state.renderdepth + 3 < (s.di.Portals.length : Int) := by
    unfold EndFrame.usequery
    rw [StartFrame_renderdepth, StartFrame_Portals, decide_eq_true_iff]
    unfold toUnsigned wrapInt32
    omega
  refine ⟨key, ?_⟩
  intro render fuel r h p a b hmem
  unfold EndFrame at h
  split at h
  · cases h
  · rename_i s1 log hl
    cases h
    rcases EndFrame.loop_log render _ _ _ _ _ hl _ hmem with h2 | ⟨p2, h2 | h2⟩
    · cases h2
    · cases h2; exact key
    · cases h2

/-- Witness of C6 and its two sample cases: at depth D = 2 six portals give true and five
give false. -/
theorem usequery_iff_witness :
    EndFrame.usequery (StartFrame (Sample.scene 2 0
        (List.replicate 6 (some (Sample.portal 1 1 false true))))) = true ∧
    EndFrame.usequery (StartFrame (Sample.scene 2 0
        (List.replicate 5 (some (Sample.portal 1 1 false true))))) = false := by
  refine ⟨?_, ?_⟩
  · exact (usequery_iff (Sample.scene 2 0
        (List.replicate 6 (some (Sample.portal 1 1 false true))))
      (by decide) (by decide)).1.2 (by decide)
  · have h := (usequery_iff (Sample.scene 2 0
        (List.replicate 5 (some (Sample.portal 1 1 false true))))
      (by decide) (by decide)).1
    cases hb : EndFrame.usequery (StartFrame (Sample.scene 2 0
        (List.replicate 5 (some (Sample.portal 1 1 false true)))))
    · rfl
    · exact absurd (h.1 hb) (by decide)

/-- C7, as stated, fails: on the queue `[A, null, B]` the drain pops from the end, so
`EndFrame` renders and destroys `B`, never touches `A`, and returns with `A` still in the
queue. -/
theorem sentinel_drain_counterexample :
    (EndFrame Sample.render 4 (Sample.scene 1 0
        [some (Sample.portal 1 2 false true), none, some (Sample.portal 2 3 false true)])).map
      (fun r => (r.2, r.1.di.Portals))
      = some ([FrameEvent.RenderPortal (Sample.portal 2 3 false true) true false,
               FrameEvent.destroy (Sample.portal 2 3 false true)],
              [some (Sample.portal 1 2 false true)]) := by
  decide

/-- C7, amended: for a queue `[A, null, B]` (`A` pushed first, `B` last, both with boundary
segments) and a `RenderPortal` that leaves the queue alone, `EndFrame` renders only `B`
before the sentinel halts the drain: `B` is rendered once, with `attached = true`, and
destroyed, `A` is neither rendered nor destroyed, and the queue holds exactly `A` when
`EndFrame` returns. -/
theorem sentinel_drain (render : RenderFn) (hk : KeepsPortals render) (s : Scene)
    (A B : IPortal) (_hA : 0 < A.lines.length) (hB : 0 < B.lines.length)
    (hq : s.di.Portals = [some A, none, some B]) (fuel : Nat) (hf : 2 ≤ fuel) :
    ∃ s1, EndFrame render fuel s
        = some (s1, [FrameEvent.RenderPortal B true (EndFrame.usequery s), FrameEvent.destroy B]) ∧
      s1.di.Portals = [some A] := by
  obtain ⟨s1, h1, h2⟩ := EndFrame.drain render hk s [some A, none] [B] (Or.inr ⟨[some A], rfl⟩)
    (by simp [hq]) fuel (by simpa using hf)
  refine ⟨s1, ?_, by simpa using h2⟩
  simpa [EndFrame.events, hB] using h1

/-- Witness of C7: two sample portals around a sentinel. -/
theorem sentinel_drain_witness :
    ∃ s1, EndFrame Sample.render 2 (Sample.scene 1 0
        [some (Sample.portal 1 2 false true), none, some (Sample.portal 2 3 false true)])
        = some (s1, [FrameEvent.RenderPortal (Sample.portal 2 3 false true) true
              (EndFrame.usequery (Sample.scene 1 0
                [some (Sample.portal 1 2 false true), none,
                  some (Sample.portal 2 3 false true)])),
            FrameEvent.destroy (Sample.portal 2 3 false true)]) ∧
      s1.di.Portals = [some (Sample.portal 1 2 false true)] :=
  sentinel_drain Sample.render (fun _ _ _ _ => rfl) _ (Sample.portal 1 2 false true)
    (Sample.portal 2 3 false true) (by decide) (by decide) rfl 2 (by decide)

/-- C8, as stated, fails: a portal below a null sentinel is not popped, so `EndFrame`
leaves it in the queue and never destroys it. -/
theorem destroyed_once_counterexample :
    (EndFrame Sample.render 3 (Sample.scene 1 0
        [some (Sample.portal 7 1 false true), none])).map
      (fun r => (decide (FrameEvent.destroy (Sample.portal 7 1 false true) ∈ r.2),
        r.1.di.Portals))
      = some (false, [some (Sample.portal 7 1 false true)]) := by
  decide

/-- C8, amended: `EndFrame` pops the portals `above` the last null sentinel of the queue (all
of the queue when it holds none). With a `RenderPortal` that leaves the queue alone, each of
them is destroyed once per occurrence in `above`, has `RenderPortal(true, usequery, di)`
called once per occurrence if its boundary list is non-empty and never if it is empty, no
other `RenderPortal` call is made, and the entries below the sentinel stay in the queue,
neither rendered nor destroyed. -/
theorem popped_rendered_and_destroyed_once (render : RenderFn) (hk : KeepsPortals render)
    (s : Scene) (base : List (Option IPortal)) (above : List IPortal)
    (hbase : base = [] ∨ ∃ below, base = below ++ [none])
    (hq : s.di.Portals = base ++ above.map some) (fuel : Nat) (hf : above.length < fuel) :
    ∃ s1 log, EndFrame render fuel s = some (s1, log) ∧
      s1.di.Portals = base.dropLast ∧
      (∀ p, log.count (FrameEvent.destroy p) = above.count p) ∧
      (∀ p, log.count (FrameEvent.RenderPortal p true (EndFrame.usequery s))
        = if 0 < p.lines.length then above.count p else 0) ∧
      (∀ p a b, FrameEvent.RenderPortal p a b ∈ log →
        a = true ∧ b = EndFrame.usequery s ∧ p ∈ above ∧ 0 < p.lines.length) := by
  obtain ⟨s1, h1, h2⟩ := EndFrame.drain render hk s base above hbase hq fuel hf
  refine ⟨s1, _, h1, h2, ?_, ?_, ?_⟩
  · intro p
    rw [EndFrame.count_destroy, List.count_reverse]
  · intro p
    rw [EndFrame.count_render, List.count_reverse]
  · intro p a b h
    obtain ⟨ha, hb, hp, hl⟩ := EndFrame.render_mem _ p a b _ h
    exact ⟨ha, hb, List.mem_reverse.mp hp, hl⟩

/-- Witness of C8: a queue whose sentinel separates one portal from two others, one of them
without boundary segments. -/
theorem popped_rendered_and_destroyed_once_witness :
    ∃ s1 log, EndFrame Sample.render 3 (Sample.scene 1 0
        [some (Sample.portal 1 2 false true), none, some (Sample.portal 2 0 false true),
          some (Sample.portal 3 1 false true)]) = some (s1, log) ∧
      s1.di.Portals = [some (Sample.portal 1 2 false true), none].dropLast ∧
      (∀ p, log.count (FrameEvent.destroy p)
        = [Sample.portal 2 0 false true, Sample.portal 3 1 false true].count p) ∧
      (∀ p, log.count (FrameEvent.RenderPortal p true (EndFrame.usequery (Sample.scene 1 0
        [some (Sample.portal 1 2 false true), none, some (Sample.portal 2 0 false true),
          some (Sample.portal 3 1 false true)])))
        = if 0 < p.lines.length then
            [Sample.portal 2 0 false true, Sample.portal 3 1 false true].count p else 0) ∧
      (∀ p a b, FrameEvent.RenderPortal p a b ∈ log →
        a = true ∧ b = EndFrame.usequery (Sample.scene 1 0
        [some (Sample.portal 1 2 false true), none, some (Sample.portal 2 0 false true),
          some (Sample.portal 3 1 false true)]) ∧
        p ∈ [Sample.portal 2 0 false true, Sample.portal 3 1 false true] ∧
        0 < p.lines.length) :=
  popped_rendered_and_destroyed_once Sample.render (fun _ _ _ _ => rfl) _
    [some (Sample.portal 1 2 false true), none]
    [Sample.portal 2 0 false true, Sample.portal 3 1 false true]
    (Or.inr ⟨[some (Sample.portal 1 2 false true)], rfl⟩) rfl 3 (by decide)

/-- C9: on a queue without null entries, `RenderFirstSkyPortal` at a non-zero recursion
level returns, and either finds nothing (the queue is untouched and no portal is rendered or
destroyed) or selects, removes from the queue, renders and destroys one entry `best` of the
queue whose `NeedDepthBuffer()` is false; a sky that needs the depth buffer is never picked,
however many boundary segments it has. -/
theorem depth_buffer_sky_never_selected (render : RenderFn) (recursion : Int)
    (hrec : recursion ≠ 0) (s : Scene) (ps : List IPortal) (hq : s.di.Portals = ps.map some) :
    RenderFirstSkyPortal render recursion s = some (false, s, []) ∨
    ∃ best bestindex, ps[bestindex]? = some best ∧ best.NeedDepthBuffer = false ∧
      RenderFirstSkyPortal render recursion s
        = some (true,
            render best false false (s.withPortals ((ps.eraseIdx bestindex).map some)),
            [FrameEvent.RenderPortal best false false, FrameEvent.destroy best]) := by
  obtain ⟨n0, r, _, _, hbest, hres⟩ := RenderFirstSkyPortal.found render recursion s ps hq
  cases r with
  | none => exact Or.inl hres
  | some bb =>
    obtain ⟨b, bi⟩ := bb
    obtain ⟨_, _, h3, h4, _⟩ := hbest
    refine Or.inr ⟨b, bi, h3, ?_, hres⟩
    rcases h4.2.2 with h | h
    · exact absurd h hrec
    · exact h

/-- Witness of C9: at recursion level 1 a sky with five boundary segments that needs the
depth buffer loses to a sky with one segment that does not. -/
theorem depth_buffer_sky_never_selected_witness :
    (RenderFirstSkyPortal Sample.render 1
        (Sample.scene 1 0 [some (Sample.portal 1 5 true true),
          some (Sample.portal 2 1 true false)])
        = some (false, Sample.scene 1 0 [some (Sample.portal 1 5 true true),
          some (Sample.portal 2 1 true false)], []) ∨
      ∃ best bestindex,
        [Sample.portal 1 5 true true, Sample.portal 2 1 true false][bestindex]? = some best ∧
        best.NeedDepthBuffer = false ∧
        RenderFirstSkyPortal Sample.render 1
          (Sample.scene 1 0 [some (Sample.portal 1 5 true true),
            some (Sample.portal 2 1 true false)])
          = some (true,
              Sample.render best false false
                ((Sample.scene 1 0 [some (Sample.portal 1 5 true true),
                  some (Sample.portal 2 1 true false)]).withPortals
                  (([Sample.portal 1 5 true true, Sample.portal 2 1 true false].eraseIdx
                    bestindex).map some)),
              [FrameEvent.RenderPortal best false false, FrameEvent.destroy best])) ∧
    (RenderFirstSkyPortal Sample.render 1
        (Sample.scene 1 0 [some (Sample.portal 1 5 true true),
          some (Sample.portal 2 1 true false)])).map (fun r => (r.1, r.2.1.di.Portals, r.2.2))
      = some (true, [some (Sample.portal 1 5 true true)],
          [FrameEvent.RenderPortal (Sample.portal 2 1 true false) false false,
            FrameEvent.destroy (Sample.portal 2 1 true false)]) :=
  ⟨depth_buffer_sky_never_selected Sample.render 1 (by decide) _
    [Sample.portal 1 5 true true, Sample.portal 2 1 true false] rfl, by decide⟩

/-- C10: on a queue `ps` without null entries (of at most `2^31` entries, so that the index
of the last one is an `int`), `RenderFirstSkyPortal` returns true if and only if the queue
holds an eligible portal. When none is eligible the scene is unchanged and nothing is
rendered. Otherwise the portal `best` that is rendered (with `attached = false` and no
occlusion query) and destroyed is an eligible entry with the most boundary segments, the
one of highest index on ties; `RenderPortal` is handed the queue with exactly that entry
erased, the others in their order, and this is the queue afterwards when `RenderPortal`
leaves the queue alone. -/
theorem first_sky_portal_selection (render : RenderFn) (recursion : Int) (s : Scene)
    (ps : List IPortal) (hq : s.di.Portals = ps.map some) (hlen : ps.length ≤ 2147483648) :
    ∃ r, RenderFirstSkyPortal render recursion s = some r ∧
      (r.1 = true ↔ ∃ p ∈ ps, RenderFirstSkyPortal.Eligible recursion p) ∧
      ((∀ p ∈ ps, ¬ RenderFirstSkyPortal.Eligible recursion p) → r = (false, s, [])) ∧
      ((∃ p ∈ ps, RenderFirstSkyPortal.Eligible recursion p) →
        ∃ best bestindex, ps[bestindex]? = some best ∧
          RenderFirstSkyPortal.Eligible recursion best ∧
          (∀ j p, ps[j]? = some p → RenderFirstSkyPortal.Eligible recursion p →
            p.lines.length ≤ best.lines.length ∧
            (p.lines.length = best.lines.length → j ≤ bestindex)) ∧
          r = (true,
            render best false false (s.withPortals ((ps.eraseIdx bestindex).map some)),
            [FrameEvent.RenderPortal best false false, FrameEvent.destroy best]) ∧
          (KeepsPortals render → r.2.1.di.Portals = (ps.eraseIdx bestindex).map some)) := by
  obtain ⟨n0, r, _, hn0, hbest, hres⟩ := RenderFirstSkyPortal.found render recursion s ps hq
  have hn : n0 = ps.length := hn0 hlen
  subst hn
  cases r with
  | none =>
    have hno : ¬ ∃ p ∈ ps, RenderFirstSkyPortal.Eligible recursion p := by
      rintro ⟨p, hp, he⟩
      obtain ⟨j, hj⟩ := List.mem_iff_getElem?.mp hp
      obtain ⟨hjlt, _⟩ := List.getElem?_eq_some_iff.mp hj
      exact hbest j p (Nat.zero_le _) hjlt hj he
    refine ⟨_, hres, ?_, fun _ => rfl, fun h => absurd h hno⟩
    constructor
    · intro h; cases h
    · intro h; exact absurd h hno
  | some bb =>
    obtain ⟨b, bi⟩ := bb
    obtain ⟨_, _, h3, h4, h5⟩ := hbest
    have hyes : ∃ p ∈ ps, RenderFirstSkyPortal.Eligible recursion p :=
      ⟨b, List.getElem?_mem h3, h4⟩
    refine ⟨_, hres, ⟨fun _ => hyes, fun _ => rfl⟩, ?_, ?_⟩
    · intro h
      exact absurd h4 (h b (List.getElem?_mem h3))
    · intro _
      refine ⟨b, bi, h3, h4, ?_, rfl, ?_⟩
      · intro j p hj he
        obtain ⟨hjlt, _⟩ := List.getElem?_eq_some_iff.mp hj
        exact h5 j p (Nat.zero_le _) hjlt hj he
      · intro hk
        simp only
        rw [hk]
        rfl

/-- Witness of C10: at recursion level 0 two skies tie with three boundary segments; the one
of higher index wins and the other entries keep their order. -/
theorem first_sky_portal_selection_witness :
    (∃ r, RenderFirstSkyPortal Sample.render 0
        (Sample.scene 1 0 (([Sample.portal 1 3 true true, Sample.portal 2 9 false true,
          Sample.portal 3 3 true false, Sample.portal 4 0 true false]).map some)) = some r ∧
      (r.1 = true ↔ ∃ p ∈ [Sample.portal 1 3 true true, Sample.portal 2 9 false true,
          Sample.portal 3 3 true false, Sample.portal 4 0 true false],
        RenderFirstSkyPortal.Eligible 0 p) ∧
      ((∀ p ∈ [Sample.portal 1 3 true true, Sample.portal 2 9 false true,
          Sample.portal 3 3 true false, Sample.portal 4 0 true false],
          ¬ RenderFirstSkyPortal.Eligible 0 p) →
        r = (false, Sample.scene 1 0 (([Sample.portal 1 3 true true,
          Sample.portal 2 9 false true, Sample.portal 3 3 true false,
          Sample.portal 4 0 true false]).map some), [])) ∧
      ((∃ p ∈ [Sample.portal 1 3 true true, Sample.portal 2 9 false true,
          Sample.portal 3 3 true false, Sample.portal 4 0 true false],
          RenderFirstSkyPortal.Eligible 0 p) →
        ∃ best bestindex,
          [Sample.portal 1 3 true true, Sample.portal 2 9 false true,
            Sample.portal 3 3 true false, Sample.portal 4 0 true false][bestindex]?
              = some best ∧
          RenderFirstSkyPortal.Eligible 0 best ∧
          (∀ j p, [Sample.portal 1 3 true true, Sample.portal 2 9 false true,
              Sample.portal 3 3 true false, Sample.portal 4 0 true false][j]? = some p →
            RenderFirstSkyPortal.Eligible 0 p →
            p.lines.length ≤ best.lines.length ∧
            (p.lines.length = best.lines.length → j ≤ bestindex)) ∧
          r = (true,
            Sample.render best false false
              ((Sample.scene 1 0 (([Sample.portal 1 3 true true,
                Sample.portal 2 9 false true, Sample.portal 3 3 true false,
                Sample.portal 4 0 true false]).map some)).withPortals
                (([Sample.portal 1 3 true true, Sample.portal 2 9 false true,
                  Sample.portal 3 3 true false,
                  Sample.portal 4 0 true false].eraseIdx bestindex).map some)),
            [FrameEvent.RenderPortal best false false, FrameEvent.destroy best]) ∧
          (KeepsPortals Sample.render → r.2.1.di.Portals
            = ([Sample.portal 1 3 true true, Sample.portal 2 9 false true,
                Sample.portal 3 3 true false,
                Sample.portal 4 0 true false].eraseIdx bestindex).map some))) ∧
    (RenderFirstSkyPortal Sample.render 0
        (Sample.scene 1 0 (([Sample.portal 1 3 true true, Sample.portal 2 9 false true,
          Sample.portal 3 3 true false, Sample.portal 4 0 true false]).map some))).map
        (fun r => (r.1, r.2.1.di.Portals, r.2.2))
      = some (true,
          [some (Sample.portal 1 3 true true), some (Sample.portal 2 9 false true),
            some (Sample.portal 4 0 true false)],
          [FrameEvent.RenderPortal (Sample.portal 3 3 true false) false false,
            FrameEvent.destroy (Sample.portal 3 3 true false)]) :=
  ⟨first_sky_portal_selection Sample.render 0 _
    [Sample.portal 1 3 true true, Sample.portal 2 9 false true,
      Sample.portal 3 3 true false, Sample.portal 4 0 true false] rfl (by decide),
    by decide⟩

/-- C11: on a level with nodes, for a BSP tree whose nodes have distinct indices and with
`ss_renderflags` holding bytes, `SetCoverage` (a total function: the traversal ends on every
finite tree) returns the bitwise OR of `ss_renderflags & SSRF_SEEN` over the leaves of the
tree, sets the `no_renderflags` entry of every internal node to that OR over the leaves of
the subtree below the node, and writes no other entry. In particular, when exactly one leaf
`L` is marked seen, the entry of an internal node is non-zero if and only if `L` is a leaf
below it: every ancestor of `L` up to the root is covered and every other node is 0. -/
theorem coverage_is_union_of_seen_leaves (q : MapQueries) (t : BSPNode) (di : HWDrawInfo)
    (hnodes : q.level.nodesSize ≠ 0) (hbytes : ∀ i, di.ss_renderflags i < 256)
    (hdistinct : (t.nodes.map Prod.fst).Nodup) :
    (SetCoverage q t di).1 = t.seenUnion q di.ss_renderflags ∧
    (∀ e ∈ t.nodes,
      (SetCoverage q t di).2.no_renderflags e.1 = e.2.seenUnion q di.ss_renderflags) ∧
    (∀ j, j ∉ t.nodes.map Prod.fst →
      (SetCoverage q t di).2.no_renderflags j = di.no_renderflags j) ∧
    (∀ L ∈ t.leaves, di.ss_renderflags L &&& q.SSRF_SEEN ≠ 0 →
      (∀ i ∈ t.leaves, i ≠ L → di.ss_renderflags i &&& q.SSRF_SEEN = 0) →
      ∀ e ∈ t.nodes, ((SetCoverage q t di).2.no_renderflags e.1 ≠ 0 ↔ L ∈ e.2.leaves)) := by
  obtain ⟨g, hg, hout, hin⟩ := SetCoverage_spec q hnodes t di hbytes hdistinct
  rw [hg]
  refine ⟨rfl, hin, hout, ?_⟩
  intro L _ hL hothers e he
  simp only
  rw [hin e he, BSPNode.seenUnion_ne_zero]
  constructor
  · rintro ⟨i, hi, hne⟩
    by_cases hiL : i = L
    · exact hiL ▸ hi
    · exact absurd (hothers i (BSPNode.leaves_of_mem_nodes t e he i hi) hiL) hne
  · intro hmem
    exact ⟨L, hmem, hL⟩

/-- Witness of C11: a tree of depth 2 over four subsectors, of which only subsector 2 is
seen; the root (node 2) and node 1 above that subsector are covered, node 0 is not. -/
theorem coverage_is_union_of_seen_leaves_witness :
    ((SetCoverage Sample.axisQueries Sample.axisQueries.level.HeadNode
        { (Sample.scene 1 0 []).di with ss_renderflags := Sample.seenFlags }).1
      = Sample.axisQueries.level.HeadNode.seenUnion Sample.axisQueries Sample.seenFlags ∧
    (∀ e ∈ Sample.axisQueries.level.HeadNode.nodes,
      (SetCoverage Sample.axisQueries Sample.axisQueries.level.HeadNode
        { (Sample.scene 1 0 []).di with ss_renderflags := Sample.seenFlags }).2.no_renderflags e.1
        = e.2.seenUnion Sample.axisQueries Sample.seenFlags) ∧
    (∀ j, j ∉ Sample.axisQueries.level.HeadNode.nodes.map Prod.fst →
      (SetCoverage Sample.axisQueries Sample.axisQueries.level.HeadNode
        { (Sample.scene 1 0 []).di with ss_renderflags := Sample.seenFlags }).2.no_renderflags j
        = (Sample.scene 1 0 []).di.no_renderflags j) ∧
    (∀ L ∈ Sample.axisQueries.level.HeadNode.leaves,
      Sample.seenFlags L &&& Sample.axisQueries.SSRF_SEEN ≠ 0 →
      (∀ i ∈ Sample.axisQueries.level.HeadNode.leaves, i ≠ L →
        Sample.seenFlags i &&& Sample.axisQueries.SSRF_SEEN = 0) →
      ∀ e ∈ Sample.axisQueries.level.HeadNode.nodes,
        ((SetCoverage Sample.axisQueries Sample.axisQueries.level.HeadNode
          { (Sample.scene 1 0 []).di with
            ss_renderflags := Sample.seenFlags }).2.no_renderflags e.1 ≠ 0
          ↔ L ∈ e.2.leaves))) ∧
    [2, 1, 0].map (SetCoverage Sample.axisQueries Sample.axisQueries.level.HeadNode
        { (Sample.scene 1 0 []).di with ss_renderflags := Sample.seenFlags }).2.no_renderflags
      = [16, 16, 0] :=
  ⟨coverage_is_union_of_seen_leaves Sample.axisQueries Sample.axisQueries.level.HeadNode
      { (Sample.scene 1 0 []).di with ss_renderflags := Sample.seenFlags }
      (by decide)
      (fun i => by show Sample.seenFlags i < 256; unfold Sample.seenFlags; split <;> decide)
      (by decide),
    by decide⟩

/-- C12: for every line through two different vertices and every point `P`, the projection
formula of the general branch of `HWMirrorPortal::Setup` is an involution in exact
arithmetic: reflecting the reflected point gives `P` again. The general branch computes this
formula and then adds the compensation, which is proportional to `renderdepth`. -/
theorem mirror_reflection_involutive (l : line_t) (P : DVector3)
    (hline : l.v1.fX ≠ l.v2.fX ∨ l.v1.fY ≠ l.v2.fY) :
    HWMirrorPortal.reflectLine l (HWMirrorPortal.reflectLine l P) = P ∧
    ∀ (q : MapQueries) (renderdepth : Int), l.Delta.X ≠ 0 → l.Delta.Y ≠ 0 →
      HWMirrorPortal.reflect q l renderdepth P
        = { HWMirrorPortal.reflectLine l P with
            X := (HWMirrorPortal.reflectLine l P).X
              + (q.MakeUnit (-(l.v2.fX - l.v1.fX), l.v2.fY - l.v1.fY)).2 * (renderdepth : ℚ) / 2
            Y := (HWMirrorPortal.reflectLine l P).Y
              + (q.MakeUnit (-(l.v2.fX - l.v1.fX), l.v2.fY - l.v1.fY)).1 * (renderdepth : ℚ) / 2 } := by
  refine ⟨?_, fun q rd hx hy => reflect_general q l rd P hx hy⟩
  have hd : (l.v2.fX - l.v1.fX) * (l.v2.fX - l.v1.fX)
      + (l.v2.fY - l.v1.fY) * (l.v2.fY - l.v1.fY) ≠ 0 := by
    rcases hline with h | h
    · have h1 : l.v2.fX - l.v1.fX ≠ 0 := fun h0 => h (by linarith)
      have := mul_self_pos.mpr h1
      nlinarith [mul_self_nonneg (l.v2.fY - l.v1.fY)]
    · have h1 : l.v2.fY - l.v1.fY ≠ 0 := fun h0 => h (by linarith)
      have := mul_self_pos.mpr h1
      nlinarith [mul_self_nonneg (l.v2.fX - l.v1.fX)]
  obtain ⟨x, y, z⟩ := P
  simp only [HWMirrorPortal.reflectLine, DVector3.mk.injEq, and_true]
  constructor
  · field_simp
    ring
  · field_simp
    ring

/-- Witness of C12: the point (5, 0) and the line from the origin to (3, 4). -/
theorem mirror_reflection_involutive_witness :
    HWMirrorPortal.reflectLine Sample.diagonal
        (HWMirrorPortal.reflectLine Sample.diagonal ⟨5, 0, 41⟩) = ⟨5, 0, 41⟩ ∧
    HWMirrorPortal.reflectLine Sample.diagonal ⟨5, 0, 41⟩ = ⟨-7 / 5, 24 / 5, 41⟩ :=
  ⟨(mirror_reflection_involutive Sample.diagonal ⟨5, 0, 41⟩ (Or.inl (by decide))).1,
    by norm_num [HWMirrorPortal.reflectLine, Sample.diagonal, Sample.line, Sample.vertex]⟩

/-- C13, as stated, fails in the double arithmetic of the program: across the plane at
height -5, the viewpoint height -3.9 (the double nearest to it) is sent to the double nearest
to -6.1, because `-10 + 3.9` is rounded to even, and from there to the next double below
-3.9, which prints as -3.9000000000000004, not back to -3.9. -/
theorem plane_mirror_double_counterexample :
    roundToDouble (-39 / 10) = some (-8782019273372467 / 2251799813685248) ∧
    HWPlaneMirrorPortal.reflectedZ (-5) (-8782019273372467 / 2251799813685248)
      = some (-3433994715870003 / 562949953421312) ∧
    HWPlaneMirrorPortal.reflectedZ (-5) (-3433994715870003 / 562949953421312)
      = some (-2195504818343117 / 562949953421312) ∧
    (-2195504818343117 / 562949953421312 : ℚ) ≠ -8782019273372467 / 2251799813685248 := by
  refine ⟨?_, ?_, ?_, by norm_num⟩
  · rw [roundToDouble_eq _ 1 (by norm_num) (by norm_num [abs_of_neg])
      (by norm_num [abs_of_neg])]
    norm_num [roundHalfEven, abs_of_neg]
  · unfold HWPlaneMirrorPortal.reflectedZ
    rw [roundToDouble_minus_ten]
    simp only
    rw [roundToDouble_eq _ 2 (by norm_num) (by norm_num [abs_of_neg])
      (by norm_num [abs_of_neg])]
    norm_num [roundHalfEven, abs_of_neg]
  · unfold HWPlaneMirrorPortal.reflectedZ
    rw [roundToDouble_minus_ten]
    simp only
    rw [roundToDouble_eq _ 1 (by norm_num) (by norm_num [abs_of_neg])
      (by norm_num [abs_of_neg])]
    norm_num [roundHalfEven, abs_of_neg]

/-- C13, amended: in exact arithmetic the plane mirror height reflection is involutive. A
successful `HWPlaneMirrorPortal::Setup` replaces the viewpoint height `Z` by `2 planeZ - Z`,
with `planeZ` the height of the plane at the viewer's (X, Y), and leaves X and Y alone; in
exact arithmetic a second successful `Setup` across the same plane returns the original
position. -/
theorem plane_mirror_height_involutive (q : MapQueries) (p p2 : HWPlaneMirrorPortal)
    (s : Scene) (hdepth : ¬ s.state.renderdepth > q.r_mirror_recursions)
    (hplane : p2.origin = p.origin) :
    (HWPlaneMirrorPortal.Setup q p s).2.2.di.Viewpoint.Pos
      = { s.di.Viewpoint.Pos with
          Z := 2 * q.ZatPoint p.origin s.di.Viewpoint.Pos.XY - s.di.Viewpoint.Pos.Z } ∧
    (HWPlaneMirrorPortal.Setup q p2 (HWPlaneMirrorPortal.Setup q p s).2.2).1 = true ∧
    (HWPlaneMirrorPortal.Setup q p2 (HWPlaneMirrorPortal.Setup q p s).2.2).2.2.di.Viewpoint.Pos
      = s.di.Viewpoint.Pos := by
  have hst := (planeMirror_Setup_ok q p s hdepth).2.2.1
  have hdepth2 : ¬ (HWPlaneMirrorPortal.Setup q p s).2.2.state.renderdepth
      > q.r_mirror_recursions := by
    rw [hst]; exact hdepth
  have hv1 := planeMirror_Setup_viewpoint q p s hdepth
  have hv2 := planeMirror_Setup_viewpoint q p2 _ hdepth2
  refine ⟨by rw [hv1], (planeMirror_Setup_ok q p2 _ hdepth2).1, ?_⟩
  rw [hv2, hv1, hplane]
  generalize s.di.Viewpoint.Pos = P
  obtain ⟨x, y, z⟩ := P
  simp only [DVector3.XY, DVector3.mk.injEq, true_and]
  ring

/-- Witness of C13: the sample viewer at height 41 above the floor plane `z = 0` is sent to
height -41 and back. -/
theorem plane_mirror_height_involutive_witness :
    (HWPlaneMirrorPortal.Setup Sample.queries Sample.planeMirror
        (Sample.scene 1 0 [])).2.2.di.Viewpoint.Pos
      = { (Sample.scene 1 0 []).di.Viewpoint.Pos with
          Z := 2 * Sample.queries.ZatPoint Sample.planeMirror.origin
              (Sample.scene 1 0 []).di.Viewpoint.Pos.XY
            - (Sample.scene 1 0 []).di.Viewpoint.Pos.Z } ∧
    (HWPlaneMirrorPortal.Setup Sample.queries Sample.planeMirror
      (HWPlaneMirrorPortal.Setup Sample.queries Sample.planeMirror
        (Sample.scene 1 0 [])).2.2).1 = true ∧
    (HWPlaneMirrorPortal.Setup Sample.queries Sample.planeMirror
      (HWPlaneMirrorPortal.Setup Sample.queries Sample.planeMirror
        (Sample.scene 1 0 [])).2.2).2.2.di.Viewpoint.Pos
      = (Sample.scene 1 0 []).di.Viewpoint.Pos :=
  plane_mirror_height_involutive Sample.queries Sample.planeMirror Sample.planeMirror
    (Sample.scene 1 0 []) (by decide) rfl

/-- C14 at a skybox nested in another skybox. Each entry lists `skyboxrecursion`,
`inskybox`, `PlaneMirrorMode` and the depth clamp setting: at top level; after the outer
`Setup`; after the inner `Setup`; after the inner `Shutdown`; after the outer `Shutdown`. The
inner `Shutdown` brings `skyboxrecursion`, `PlaneMirrorMode` and the depth clamp back to
their values from before the inner `Setup`, but leaves `inskybox` false although it was true
before the inner `Setup` and the outer skybox is still being rendered. -/
theorem nested_skybox_clears_inskybox :
    ((Nest.portal (ScenePortal.skybox Sample.skybox)
        (Nest.portal (ScenePortal.skybox Sample.skybox) Nest.done Nest.done)
        Nest.done).states Sample.queries (Sample.scene 1 0 [])).map
      (fun v => (v.state.skyboxrecursion, v.state.inskybox, v.state.PlaneMirrorMode,
        v.di.depthClamp))
      = [(0, false, 1, true), (1, true, 0, false), (2, true, 0, false), (1, false, 0, false),
          (0, false, 1, true)] := by
  decide

/-- C15, as stated, fails: an anchor standing on the floor (height 0) of a room with the
ceiling at 128 puts the viewpoint at height 4, which is `floorh + 4` itself and not above
it. -/
theorem skybox_height_counterexample :
    (HWSkyboxPortal.Setup Sample.axisQueries Sample.roomSkybox (Sample.scene 1 0 [])).1 = true ∧
    (HWSkyboxPortal.Setup Sample.axisQueries Sample.roomSkybox
      (Sample.scene 1 0 [])).2.2.di.Viewpoint.Pos.Z = 4 ∧
    Sample.axisQueries.ZatPoint Sample.anchor.floorplane Sample.anchor.Pos.XY + 4 = 4 ∧
    Sample.axisQueries.ZatPoint Sample.anchor.ceilingplane Sample.anchor.Pos.XY - 4 = 124 := by
  refine ⟨(skybox_Setup_ok _ _ _ (by decide)).1, ?_, ?_, ?_⟩
  · rw [skybox_Setup_viewpoint _ _ _ (by decide)]
    norm_num [HWSkyboxPortal.clampZ, Sample.axisQueries, Sample.queries, Sample.roomSkybox,
      Sample.skybox, Sample.anchor, Sample.actor, Sample.plane]
  · norm_num [Sample.axisQueries, Sample.anchor, Sample.actor, Sample.plane]
  · norm_num [Sample.axisQueries, Sample.anchor, Sample.actor, Sample.plane]

/-- C15, amended: after a successful `HWSkyboxPortal::Setup` the new viewpoint height is the
interpolated height of the anchor clamped first from below to `floorh + 4` and then from
above to `ceilh - 4`: it is at most `ceilh - 4`, and at least `floorh + 4` whenever
`floorh + 4 ≤ ceilh - 4`; both bounds are inclusive. -/
theorem skybox_height_clamped (q : MapQueries) (p : HWSkyboxPortal) (s : Scene)
    (hdepth : ¬ s.state.skyboxrecursion ≥ 3) :
    (HWSkyboxPortal.Setup q p s).1 = true ∧
    (HWSkyboxPortal.Setup q p s).2.2.di.Viewpoint.Pos.Z
      = HWSkyboxPortal.clampZ
          (q.ZatPoint p.portal.mSkybox.floorplane p.portal.mSkybox.Pos.XY)
          (q.ZatPoint p.portal.mSkybox.ceilingplane p.portal.mSkybox.Pos.XY)
          (q.InterpolatedPosition p.portal.mSkybox s.di.Viewpoint.TicFrac).Z ∧
    (HWSkyboxPortal.Setup q p s).2.2.di.Viewpoint.Pos.Z
      ≤ q.ZatPoint p.portal.mSkybox.ceilingplane p.portal.mSkybox.Pos.XY - 4 ∧
    (q.ZatPoint p.portal.mSkybox.floorplane p.portal.mSkybox.Pos.XY + 4
        ≤ q.ZatPoint p.portal.mSkybox.ceilingplane p.portal.mSkybox.Pos.XY - 4 →
      q.ZatPoint p.portal.mSkybox.floorplane p.portal.mSkybox.Pos.XY + 4
        ≤ (HWSkyboxPortal.Setup q p s).2.2.di.Viewpoint.Pos.Z) := by
  rw [skybox_Setup_viewpoint q p s hdepth]
  exact ⟨(skybox_Setup_ok q p s hdepth).1, rfl, (clampZ_bounds _ _ _).1, (clampZ_bounds _ _ _).2⟩

/-- Witness of C15: the anchor on the floor of the sample room. -/
theorem skybox_height_clamped_witness :
    (HWSkyboxPortal.Setup Sample.axisQueries Sample.roomSkybox (Sample.scene 1 0 [])).1 = true ∧
    (HWSkyboxPortal.Setup Sample.axisQueries Sample.roomSkybox
        (Sample.scene 1 0 [])).2.2.di.Viewpoint.Pos.Z
      = HWSkyboxPortal.clampZ
          (Sample.axisQueries.ZatPoint Sample.roomSkybox.portal.mSkybox.floorplane
            Sample.roomSkybox.portal.mSkybox.Pos.XY)
          (Sample.axisQueries.ZatPoint Sample.roomSkybox.portal.mSkybox.ceilingplane
            Sample.roomSkybox.portal.mSkybox.Pos.XY)
          (Sample.axisQueries.InterpolatedPosition Sample.roomSkybox.portal.mSkybox
            (Sample.scene 1 0 []).di.Viewpoint.TicFrac).Z ∧
    (HWSkyboxPortal.Setup Sample.axisQueries Sample.roomSkybox
        (Sample.scene 1 0 [])).2.2.di.Viewpoint.Pos.Z
      ≤ Sample.axisQueries.ZatPoint Sample.roomSkybox.portal.mSkybox.ceilingplane
          Sample.roomSkybox.portal.mSkybox.Pos.XY - 4 ∧
    (Sample.axisQueries.ZatPoint Sample.roomSkybox.portal.mSkybox.floorplane
          Sample.roomSkybox.portal.mSkybox.Pos.XY + 4
        ≤ Sample.axisQueries.ZatPoint Sample.roomSkybox.portal.mSkybox.ceilingplane
          Sample.roomSkybox.portal.mSkybox.Pos.XY - 4 →
      Sample.axisQueries.ZatPoint Sample.roomSkybox.portal.mSkybox.floorplane
          Sample.roomSkybox.portal.mSkybox.Pos.XY + 4
        ≤ (HWSkyboxPortal.Setup Sample.axisQueries Sample.roomSkybox
            (Sample.scene 1 0 [])).2.2.di.Viewpoint.Pos.Z) :=
  skybox_height_clamped Sample.axisQueries Sample.roomSkybox (Sample.scene 1 0 []) (by decide)

/-- C16: `StartFrame` increments `renderdepth` by exactly 1 (from any value below the largest
`int`); when `renderdepth` was 0 it also sets `inskybox` to false and both `instack` counters
to 0, and otherwise it leaves `inskybox` and `instack` unchanged; `MirrorFlag`,
`PlaneMirrorFlag`, `PlaneMirrorMode`, `skyboxrecursion`, the render context and the clipper
are unchanged in both cases. -/
theorem StartFrame_effect (s : Scene) (hint : IsInt32 s.state.renderdepth)
    (hmax : s.state.renderdepth < 2147483647) :
    (StartFrame s).state.renderdepth = s.state.renderdepth + 1 ∧
    (s.state.renderdepth = 0 →
      (StartFrame s).state.inskybox = false ∧
      (StartFrame s).instack.floor = 0 ∧ (StartFrame s).instack.ceiling = 0) ∧
    (s.state.renderdepth ≠ 0 →
      (StartFrame s).state.inskybox = s.state.inskybox ∧ (StartFrame s).instack = s.instack) ∧
    (StartFrame s).state.MirrorFlag = s.state.MirrorFlag ∧
    (StartFrame s).state.PlaneMirrorFlag = s.state.PlaneMirrorFlag ∧
    (StartFrame s).state.PlaneMirrorMode = s.state.PlaneMirrorMode ∧
    (StartFrame s).state.skyboxrecursion = s.state.skyboxrecursion ∧
    (StartFrame s).di = s.di ∧ (StartFrame s).clipper = s.clipper := by
  have hw : wrapInt32 (s.state.renderdepth + 1) = s.state.renderdepth + 1 := by
    unfold IsInt32 at hint
    unfold wrapInt32
    omega
  refine ⟨by rw [StartFrame_renderdepth, hw], ?_, ?_, ?_, ?_, ?_, ?_, ?_, ?_⟩
  · intro h0
    simp [StartFrame, h0]
  · intro h0
    simp [StartFrame, h0]
  all_goals (unfold StartFrame; split <;> rfl)

/-- Witness of C16: a top level frame started while an earlier frame left `inskybox` set and
a floor stack open. -/
theorem StartFrame_effect_witness :
    (StartFrame { Sample.inSkybox with
        state := { Sample.inSkybox.state with renderdepth := 0 },
        instack := { floor := 1, ceiling := 0 } }).state.renderdepth = 0 + 1 ∧
    (StartFrame { Sample.inSkybox with
        state := { Sample.inSkybox.state with renderdepth := 0 },
        instack := { floor := 1, ceiling := 0 } }).state.inskybox = false ∧
    (StartFrame { Sample.inSkybox with
        state := { Sample.inSkybox.state with renderdepth := 0 },
        instack := { floor := 1, ceiling := 0 } }).instack.floor = 0 ∧
    (StartFrame Sample.stacked).state.renderdepth = 1 + 1 ∧
    (StartFrame Sample.stacked).instack = Sample.stacked.instack :=
  ⟨(StartFrame_effect _ (by decide) (by decide)).1,
    ((StartFrame_effect { Sample.inSkybox with
        state := { Sample.inSkybox.state with renderdepth := 0 },
        instack := { floor := 1, ceiling := 0 } } (by decide) (by decide)).2.1 rfl).1,
    ((StartFrame_effect { Sample.inSkybox with
        state := { Sample.inSkybox.state with renderdepth := 0 },
        instack := { floor := 1, ceiling := 0 } } (by decide) (by decide)).2.1 rfl).2.1,
    (StartFrame_effect Sample.stacked (by decide) (by decide)).1,
    ((StartFrame_effect Sample.stacked (by decide) (by decide)).2.2.1 (by decide)).2⟩

/-- C17: `HWLinePortal::ClipSubsector` returns `PClip_Inside` if and only if the side test
`P_PointOnLineSidePrecise` is 0 for at least one start vertex of the subsector's segs, and
`PClip_InFront` if and only if the test is non-zero for all of them; for a subsector with a
single seg its answer is that of `ClipPoint` at the seg's start vertex. -/
theorem ClipSubsector_inside_iff (q : MapQueries) (line : line_t) (vertices : List vertex_t) :
    (HWLinePortal.ClipSubsector q line vertices = PClip_Inside
      ↔ ∃ v ∈ vertices, q.P_PointOnLineSidePrecise v.fPos line = 0) ∧
    (HWLinePortal.ClipSubsector q line vertices = PClip_InFront
      ↔ ∀ v ∈ vertices, q.P_PointOnLineSidePrecise v.fPos line ≠ 0) ∧
    ∀ v : vertex_t,
      HWLinePortal.ClipSubsector q line [v] = HWLinePortal.ClipPoint q line v.fPos := by
  refine ⟨?_, ?_, ?_⟩
  · induction vertices with
    | nil => simp [HWLinePortal.ClipSubsector]
    | cons v rest ih =>
      by_cases hv : q.P_PointOnLineSidePrecise v.fPos line = 0
      · simp [HWLinePortal.ClipSubsector, hv]
      · simp [HWLinePortal.ClipSubsector, hv, ih]
  · induction vertices with
    | nil => simp [HWLinePortal.ClipSubsector]
    | cons v rest ih =>
      by_cases hv : q.P_PointOnLineSidePrecise v.fPos line = 0
      · simp [HWLinePortal.ClipSubsector, hv]
      · simp [HWLinePortal.ClipSubsector, hv, ih]
  · intro v
    by_cases hv : q.P_PointOnLineSidePrecise v.fPos line = 0
    · simp [HWLinePortal.ClipSubsector, HWLinePortal.ClipPoint, hv]
    · simp [HWLinePortal.ClipSubsector, HWLinePortal.ClipPoint, hv]

/-- Witness of C17: a subsector with one vertex in front of the sample line (x = 0, seen
from the side x > 0) and one behind it is inside; with the first vertex alone it is in
front. -/
theorem ClipSubsector_inside_iff_witness :
    HWLinePortal.ClipSubsector Sample.axisQueries Sample.line
        [{ fX := -8, fY := 8, fixX := -524288, fixY := 524288 },
          { fX := 8, fY := 8, fixX := 524288, fixY := 524288 }] = PClip_Inside ∧
    HWLinePortal.ClipSubsector Sample.axisQueries Sample.line
        [{ fX := -8, fY := 8, fixX := -524288, fixY := 524288 }] = PClip_InFront ∧
    HWLinePortal.ClipSubsector Sample.axisQueries Sample.line
        [{ fX := -8, fY := 8, fixX := -524288, fixY := 524288 }]
      = HWLinePortal.ClipPoint Sample.axisQueries Sample.line
          (vertex_t.fPos { fX := -8, fY := 8, fixX := -524288, fixY := 524288 }) :=
  ⟨(ClipSubsector_inside_iff Sample.axisQueries Sample.line _).1.2
      ⟨{ fX := 8, fY := 8, fixX := 524288, fixY := 524288 }, by simp,
        by norm_num [Sample.axisQueries, Sample.line, Sample.vertex, vertex_t.fPos]⟩,
    (ClipSubsector_inside_iff Sample.axisQueries Sample.line _).2.1.2
      (fun v hv => by
        rw [List.mem_singleton] at hv
        subst hv
        norm_num [Sample.axisQueries, Sample.line, Sample.vertex, vertex_t.fPos]),
    (ClipSubsector_inside_iff Sample.axisQueries Sample.line []).2.2 _⟩

/-- C18, as stated, fails: the sample viewer at x = 32 in front of the vertical mirror x = 0
has its exact mirror image at x = -32, and `Setup` puts the viewpoint at x = -31.9, which is
0.1 nearer to the mirror line, not farther. -/
theorem axis_mirror_counterexample :
    (HWMirrorPortal.Setup Sample.queries Sample.mirror (Sample.scene 1 0 [])).1 = true ∧
    Sample.mirror.linedef.Delta.X = 0 ∧
    2 * Sample.mirror.linedef.v1.fX - (Sample.scene 1 0 []).di.Viewpoint.Pos.X = -32 ∧
    (HWMirrorPortal.Setup Sample.queries Sample.mirror
      (Sample.scene 1 0 [])).2.2.di.Viewpoint.Pos.X = -319 / 10 := by
  refine ⟨(mirror_Setup_ok _ _ _ (by decide)).1, rfl, ?_, ?_⟩
  · norm_num [Sample.mirror, Sample.line, Sample.vertex, Sample.scene, Sample.viewpoint]
  · rw [mirror_Setup_viewpoint _ _ _ (by decide), reflect_vertical _ _ _ _ rfl]
    norm_num [Sample.mirror, Sample.line, Sample.vertex, Sample.scene, Sample.viewpoint]

/-- C18, amended: for a vertical mirror line (`Delta.X == 0`) and for a horizontal one
(`Delta.Y == 0`, `Delta.X != 0`) a successful `HWMirrorPortal::Setup` sets the reflected
coordinate to the exact reflection `2 v1 - P` moved by 0.1 towards the side the viewer is on
(minus 0.1 when the viewer's coordinate is below that of `v1`, plus 0.1 otherwise) and leaves
the other coordinates unchanged; for every viewer at least 0.1 away from the line the
reflected viewpoint is 0.1 nearer to the line than the exact mirror image is. -/
theorem axis_mirror_nudge (q : MapQueries) (p : HWMirrorPortal) (s : Scene)
    (hdepth : ¬ s.state.renderdepth > q.r_mirror_recursions) :
    (p.linedef.Delta.X = 0 →
      (HWMirrorPortal.Setup q p s).2.2.di.Viewpoint.Pos
        = { s.di.Viewpoint.Pos with
            X := 2 * p.linedef.v1.fX - s.di.Viewpoint.Pos.X
              + (if s.di.Viewpoint.Pos.X < p.linedef.v1.fX then -(1 / 10) else 1 / 10) } ∧
      (1 / 10 ≤ |s.di.Viewpoint.Pos.X - p.linedef.v1.fX| →
        |(HWMirrorPortal.Setup q p s).2.2.di.Viewpoint.Pos.X - p.linedef.v1.fX|
          = |(2 * p.linedef.v1.fX - s.di.Viewpoint.Pos.X) - p.linedef.v1.fX| - 1 / 10)) ∧
    (p.linedef.Delta.X ≠ 0 → p.linedef.Delta.Y = 0 →
      (HWMirrorPortal.Setup q p s).2.2.di.Viewpoint.Pos
        = { s.di.Viewpoint.Pos with
            Y := 2 * p.linedef.v1.fY - s.di.Viewpoint.Pos.Y
              + (if s.di.Viewpoint.Pos.Y < p.linedef.v1.fY then -(1 / 10) else 1 / 10) } ∧
      (1 / 10 ≤ |s.di.Viewpoint.Pos.Y - p.linedef.v1.fY| →
        |(HWMirrorPortal.Setup q p s).2.2.di.Viewpoint.Pos.Y - p.linedef.v1.fY|
          = |(2 * p.linedef.v1.fY - s.di.Viewpoint.Pos.Y) - p.linedef.v1.fY| - 1 / 10)) := by
  rw [mirror_Setup_viewpoint q p s hdepth]
  constructor
  · intro hx
    rw [reflect_vertical q _ _ _ hx]
    refine ⟨rfl, ?_⟩
    intro hfar
    simp only
    by_cases hlt : s.di.Viewpoint.Pos.X < p.linedef.v1.fX
    · rw [if_pos hlt]
      rw [abs_of_neg (by linarith : s.di.Viewpoint.Pos.X - p.linedef.v1.fX < 0)] at hfar
      rw [abs_of_nonneg (by linarith), abs_of_nonneg (by linarith)]
      ring
    · rw [if_neg hlt]
      have hge : 0 ≤ s.di.Viewpoint.Pos.X - p.linedef.v1.fX := by linarith [not_lt.mp hlt]
      rw [abs_of_nonneg hge] at hfar
      rw [abs_of_nonpos (by linarith), abs_of_nonpos (by linarith)]
      ring
  · intro hx hy
    rw [reflect_horizontal q _ _ _ hx hy]
    refine ⟨rfl, ?_⟩
    intro hfar
    simp only
    by_cases hlt : s.di.Viewpoint.Pos.Y < p.linedef.v1.fY
    · rw [if_pos hlt]
      rw [abs_of_neg (by linarith : s.di.Viewpoint.Pos.Y - p.linedef.v1.fY < 0)] at hfar
      rw [abs_of_nonneg (by linarith), abs_of_nonneg (by linarith)]
      ring
    · rw [if_neg hlt]
      have hge : 0 ≤ s.di.Viewpoint.Pos.Y - p.linedef.v1.fY := by linarith [not_lt.mp hlt]
      rw [abs_of_nonneg hge] at hfar
      rw [abs_of_nonpos (by linarith), abs_of_nonpos (by linarith)]
      ring

/-- Witness of C18: the sample viewer in front of the vertical sample mirror. -/
theorem axis_mirror_nudge_witness :
    (HWMirrorPortal.Setup Sample.queries Sample.mirror (Sample.scene 1 0 [])).2.2.di.Viewpoint.Pos
      = { (Sample.scene 1 0 []).di.Viewpoint.Pos with
          X := 2 * Sample.mirror.linedef.v1.fX - (Sample.scene 1 0 []).di.Viewpoint.Pos.X
            + (if (Sample.scene 1 0 []).di.Viewpoint.Pos.X < Sample.mirror.linedef.v1.fX
                then -(1 / 10) else 1 / 10) } ∧
    (1 / 10 ≤ |(Sample.scene 1 0 []).di.Viewpoint.Pos.X - Sample.mirror.linedef.v1.fX| →
      |(HWMirrorPortal.Setup Sample.queries Sample.mirror
          (Sample.scene 1 0 [])).2.2.di.Viewpoint.Pos.X - Sample.mirror.linedef.v1.fX|
        = |(2 * Sample.mirror.linedef.v1.fX - (Sample.scene 1 0 []).di.Viewpoint.Pos.X)
            - Sample.mirror.linedef.v1.fX| - 1 / 10) :=
  (axis_mirror_nudge Sample.queries Sample.mirror (Sample.scene 1 0 []) (by decide)).1 rfl

/-- C19, as stated, fails: a hidden viewer whose camera path runs from (-8, 32) to (8, 32),
across the destination line, and who is seen from the middle of that path has travelled
8 + 8 = 16, which plus the margin of 1 is not less than the length 16 of the path; yet
`Setup` flags the camera with `RF_MAYBEINVISIBLE`. -/
theorem maybe_invisible_counterexample :
    (HWLineToLinePortal.Setup Sample.axisQueries Sample.lineToLine Sample.crossing).1 = true ∧
    (HWLineToLinePortal.Setup Sample.axisQueries Sample.lineToLine
        Sample.crossing).2.2.di.Viewpoint.camera
      = some { Sample.actor with renderflags := 33554432 } ∧
    ¬ (Sample.axisQueries.Length
          ((HWLineToLinePortal.translated Sample.axisQueries Sample.line
            Sample.crossing.di.Viewpoint).Pos.sub
            (HWLineToLinePortal.translated Sample.axisQueries Sample.line
              Sample.crossing.di.Viewpoint).Path0)
        + Sample.axisQueries.Length
          ((HWLineToLinePortal.translated Sample.axisQueries Sample.line
            Sample.crossing.di.Viewpoint).Pos.sub
            (HWLineToLinePortal.translated Sample.axisQueries Sample.line
              Sample.crossing.di.Viewpoint).Path1)
        + 1
      < Sample.axisQueries.Length
          ((HWLineToLinePortal.translated Sample.axisQueries Sample.line
            Sample.crossing.di.Viewpoint).Path0.sub
            (HWLineToLinePortal.translated Sample.axisQueries Sample.line
              Sample.crossing.di.Viewpoint).Path1)) := by
  refine ⟨(lineToLine_Setup_ok _ _ _ (by decide)).1, ?_, ?_⟩
  · rw [lineToLine_Setup_camera _ _ _ (by decide)]
    norm_num [HWLineToLinePortal.flagCamera, HWLineToLinePortal.translated, translateXY,
      Sample.axisQueries, Sample.queries, Sample.lineToLine, Sample.crossing, Sample.scene,
      Sample.viewpoint, Sample.line, Sample.vertex, Sample.actor, Scene.withViewpoint,
      DVector3.XY, DVector3.sub]
  · norm_num [HWLineToLinePortal.translated, translateXY, Sample.axisQueries, Sample.queries,
      Sample.crossing, Sample.scene, Sample.viewpoint, Sample.line, Scene.withViewpoint,
      DVector3.sub]

/-- C19, amended: in a successful `HWLineToLinePortal::Setup`, with the viewer hidden and a
camera attached, the camera gets the flag `RF_MAYBEINVISIBLE` exactly when the translated
path endpoints `Path[0]` and `Path[1]` lie on different sides of the destination line, their
distance `|Path[0] - Path[1]|` exceeds `EQUAL_EPSILON`, and the distance travelled
`|Pos - Path[0]| + |Pos - Path[1]|` is less than that distance plus a margin of 1; otherwise
the camera is left as it was. -/
theorem maybe_invisible_iff (q : MapQueries) (p : HWLineToLinePortal) (s : Scene)
    (camera : AActor) (hdepth : ¬ s.state.renderdepth > q.r_mirror_recursions)
    (hhidden : s.di.Viewpoint.showviewer = false) (hcamera : s.di.Viewpoint.camera = some camera) :
    (HWLineToLinePortal.Setup q p s).2.2.di.Viewpoint.camera
      = some (if
          q.P_PointOnLineSidePrecise
              (HWLineToLinePortal.translated q p.mOrigin s.di.Viewpoint).Path0.XY p.mDestination
            ≠ q.P_PointOnLineSidePrecise
              (HWLineToLinePortal.translated q p.mOrigin s.di.Viewpoint).Path1.XY p.mDestination ∧
          q.Length ((HWLineToLinePortal.translated q p.mOrigin s.di.Viewpoint).Path0.sub
              (HWLineToLinePortal.translated q p.mOrigin s.di.Viewpoint).Path1)
            > q.EQUAL_EPSILON ∧
          q.Length ((HWLineToLinePortal.translated q p.mOrigin s.di.Viewpoint).Pos.sub
              (HWLineToLinePortal.translated q p.mOrigin s.di.Viewpoint).Path0)
            + q.Length ((HWLineToLinePortal.translated q p.mOrigin s.di.Viewpoint).Pos.sub
              (HWLineToLinePortal.translated q p.mOrigin s.di.Viewpoint).Path1)
            < q.Length ((HWLineToLinePortal.translated q p.mOrigin s.di.Viewpoint).Path0.sub
              (HWLineToLinePortal.translated q p.mOrigin s.di.Viewpoint).Path1) + 1
        then { camera with renderflags := camera.renderflags ||| q.RF_MAYBEINVISIBLE }
        else camera) := by
  rw [lineToLine_Setup_camera q p s hdepth]
  have hc : (HWLineToLinePortal.translated q p.mOrigin s.di.Viewpoint).camera = some camera :=
    hcamera
  have hs : (HWLineToLinePortal.translated q p.mOrigin s.di.Viewpoint).showviewer = false :=
    hhidden
  unfold HWLineToLinePortal.flagCamera
  rw [hc]
  simp only [hs, true_and]
  split_ifs <;> simp_all

/-- Witness of C19: the sample viewer in the middle of a camera path across the destination
line. -/
theorem maybe_invisible_iff_witness :
    (HWLineToLinePortal.Setup Sample.axisQueries Sample.lineToLine
        Sample.crossing).2.2.di.Viewpoint.camera
      = some (if
          Sample.axisQueries.P_PointOnLineSidePrecise
              (HWLineToLinePortal.translated Sample.axisQueries Sample.lineToLine.mOrigin
                Sample.crossing.di.Viewpoint).Path0.XY Sample.lineToLine.mDestination
            ≠ Sample.axisQueries.P_PointOnLineSidePrecise
              (HWLineToLinePortal.translated Sample.axisQueries Sample.lineToLine.mOrigin
                Sample.crossing.di.Viewpoint).Path1.XY Sample.lineToLine.mDestination ∧
          Sample.axisQueries.Length
              ((HWLineToLinePortal.translated Sample.axisQueries Sample.lineToLine.mOrigin
                Sample.crossing.di.Viewpoint).Path0.sub
              (HWLineToLinePortal.translated Sample.axisQueries Sample.lineToLine.mOrigin
                Sample.crossing.di.Viewpoint).Path1)
            > Sample.axisQueries.EQUAL_EPSILON ∧
          Sample.axisQueries.Length
              ((HWLineToLinePortal.translated Sample.axisQueries Sample.lineToLine.mOrigin
                Sample.crossing.di.Viewpoint).Pos.sub
              (HWLineToLinePortal.translated Sample.axisQueries Sample.lineToLine.mOrigin
                Sample.crossing.di.Viewpoint).Path0)
            + Sample.axisQueries.Length
              ((HWLineToLinePortal.translated Sample.axisQueries Sample.lineToLine.mOrigin
                Sample.crossing.di.Viewpoint).Pos.sub
              (HWLineToLinePortal.translated Sample.axisQueries Sample.lineToLine.mOrigin
                Sample.crossing.di.Viewpoint).Path1)
            < Sample.axisQueries.Length
              ((HWLineToLinePortal.translated Sample.axisQueries Sample.lineToLine.mOrigin
                Sample.crossing.di.Viewpoint).Path0.sub
              (HWLineToLinePortal.translated Sample.axisQueries Sample.lineToLine.mOrigin
                Sample.crossing.di.Viewpoint).Path1) + 1
        then { Sample.actor with
          renderflags := Sample.actor.renderflags ||| Sample.axisQueries.RF_MAYBEINVISIBLE }
        else Sample.actor) :=
  maybe_invisible_iff Sample.axisQueries Sample.lineToLine Sample.crossing Sample.actor
    (by decide) rfl rfl

/-- C20: in exact arithmetic the projection formula of the general branch of
`HWMirrorPortal::Setup` gives `(2 x1 - x, y)` for every line with `dx = 0` and `dy != 0`,
and `(x, 2 y1 - y)` for every line with `dy = 0` and `dx != 0`; the vertical and the
horizontal branch of `Setup` compute exactly these points and then add their compensation
of 0.1 to the reflected coordinate, so the three branches compute the same reflection. -/
theorem mirror_shortcuts_agree (l : line_t) (P : DVector3) :
    (l.v2.fX - l.v1.fX = 0 → l.v2.fY - l.v1.fY ≠ 0 →
      HWMirrorPortal.reflectLine l P = { P with X := 2 * l.v1.fX - P.X }) ∧
    (l.v2.fY - l.v1.fY = 0 → l.v2.fX - l.v1.fX ≠ 0 →
      HWMirrorPortal.reflectLine l P = { P with Y := 2 * l.v1.fY - P.Y }) ∧
    (∀ (q : MapQueries) (renderdepth : Int), l.Delta.X = 0 →
      HWMirrorPortal.reflect q l renderdepth P
        = { P with X := 2 * l.v1.fX - P.X + (if P.X < l.v1.fX then -(1 / 10) else 1 / 10) }) ∧
    (∀ (q : MapQueries) (renderdepth : Int), l.Delta.X ≠ 0 → l.Delta.Y = 0 →
      HWMirrorPortal.reflect q l renderdepth P
        = { P with Y := 2 * l.v1.fY - P.Y + (if P.Y < l.v1.fY then -(1 / 10) else 1 / 10) }) := by
  refine ⟨?_, ?_, fun q rd hx => reflect_vertical q l rd P hx,
    fun q rd hx hy => reflect_horizontal q l rd P hx hy⟩
  · intro hdx hdy
    obtain ⟨x, y, z⟩ := P
    simp only [HWMirrorPortal.reflectLine, hdx, DVector3.mk.injEq, and_true]
    constructor
    · ring
    · field_simp
      ring
  · intro hdy hdx
    obtain ⟨x, y, z⟩ := P
    simp only [HWMirrorPortal.reflectLine, hdy, DVector3.mk.injEq, and_true]
    constructor
    · field_simp
      ring
    · ring

/-- Witness of C20: the vertical and the horizontal sample line with the point
(32, 32, 41). -/
theorem mirror_shortcuts_agree_witness :
    HWMirrorPortal.reflectLine Sample.line ⟨32, 32, 41⟩
      = { (⟨32, 32, 41⟩ : DVector3) with X := 2 * Sample.line.v1.fX - 32 } ∧
    HWMirrorPortal.reflectLine Sample.horizontal ⟨32, 32, 41⟩
      = { (⟨32, 32, 41⟩ : DVector3) with Y := 2 * Sample.horizontal.v1.fY - 32 } :=
  ⟨(mirror_shortcuts_agree Sample.line ⟨32, 32, 41⟩).1
      (by norm_num [Sample.line, Sample.vertex]) (by norm_num [Sample.line, Sample.vertex]),
    (mirror_shortcuts_agree Sample.horizontal ⟨32, 32, 41⟩).2.1
      (by norm_num [Sample.horizontal]) (by norm_num [Sample.horizontal])⟩

end HWPortal
